import Mathlib

/-!
# Blindtyping backend: HTTP handlers of the session and antifraud core

A shallow embedding of the handlers under `src/backend/src/internal/api/handlers`.
A handler is a function from its own state, the current time and the incoming
request to the list of observable effects it performs (log records, calls to the
service behind its interface, writes to the response) and its next state.
-/

namespace Blindtyping

/-! ## Errors -/

/-- Tag of an error value. Modelled from the spec: the service packages that declare the
tag predicates (`auth_service.IsSessionNotFoundError`, `auth_service.IsSessionExpiredError`,
`antifroad_service.IsWrongPasswordError`, `auth_service.IsEmailAlreadyTakenError`) are not
part of the sources; the spec says that
services return a tagged error and that handlers map tags to outcomes. `Untagged` is an
error carrying none of the tags, such as one built by `fmt.Errorf`. -/
inductive ErrorKind where
  | SessionNotFound
  | SessionExpired
  | WrongPassword
  | EmailAlreadyTaken
  | Validation
  | SameUsername
  | UsernameAlreadyTaken
  | TooMuchUsernameChanges
  | UserAlreadyExists
  | UserNotFound
  | Froad
  | AlreadyHandled
  | Untagged
deriving DecidableEq, Repr

/-- A Go `error`: its tag and the text returned by `Error()`. -/
structure Error where
  kind : ErrorKind
  text : String
deriving DecidableEq, Repr

namespace fmt

/-- The Go call `fmt.Errorf(text)` with a constant format: a plain error with that text. -/
def Errorf (text : String) : Error := ⟨ErrorKind.Untagged, text⟩

end fmt

namespace auth_service

/-- Modelled from the spec: tag test for a missing session. -/
def IsSessionNotFoundError (err : Error) : Bool := err.kind = ErrorKind.SessionNotFound

/-- Modelled from the spec: tag test for an expired session. -/
def IsSessionExpiredError (err : Error) : Bool := err.kind = ErrorKind.SessionExpired

/-- Modelled from the spec: tag test for an email that another account holds. -/
def IsEmailAlreadyTakenError (err : Error) : Bool := err.kind = ErrorKind.EmailAlreadyTaken

end auth_service

namespace antifroad_service

/-- Modelled from the spec: tag test for a rejected antifraud password. -/
def IsWrongPasswordError (err : Error) : Bool := err.kind = ErrorKind.WrongPassword

end antifroad_service

namespace models

/-- Modelled from the spec: tag test for an input that fails validation. -/
def IsValidationError (err : Error) : Bool := err.kind = ErrorKind.Validation

/-- Modelled from the spec: tag test for a new username equal to the present one. -/
def IsSameUsernameError (err : Error) : Bool := err.kind = ErrorKind.SameUsername

/-- Modelled from the spec: tag test for a username that another user holds. -/
def IsUsernameAlreadyTakenError (err : Error) : Bool :=
  err.kind = ErrorKind.UsernameAlreadyTaken

/-- Modelled from the spec: tag test for a username changed too often. -/
def IsTooMuchUsernameChangesError (err : Error) : Bool :=
  err.kind = ErrorKind.TooMuchUsernameChanges

/-- Modelled from the spec: tag test for a user that is not there. -/
def IsUserNotFoundError (err : Error) : Bool := err.kind = ErrorKind.UserNotFound

end models

namespace statistics_service

/-- Modelled from the spec: tag test for a user that is not there. -/
def IsUserNotFoundError (err : Error) : Bool := err.kind = ErrorKind.UserNotFound

/-- Modelled from the spec: tag test for statistics whose signature is not valid. -/
def IsFroadError (err : Error) : Bool := err.kind = ErrorKind.Froad

/-- Modelled from the spec: tag test for statistics that were handled before. -/
def IsAlreadyHandledError (err : Error) : Bool := err.kind = ErrorKind.AlreadyHandled

end statistics_service

namespace profile_service

/-- Modelled from the spec: tag test for a user that is not there. -/
def IsUserNotFoundError (err : Error) : Bool := err.kind = ErrorKind.UserNotFound

end profile_service

namespace user_service

/-- Modelled from the spec: tag test for a user that exists already. -/
def IsUserAlreadyExistsError (err : Error) : Bool := err.kind = ErrorKind.UserAlreadyExists

end user_service

/-! ## HTTP status codes (Go package `net/http`) -/

namespace http

def StatusOK : Nat := 200
def StatusCreated : Nat := 201
def StatusPermanentRedirect : Nat := 308
def StatusBadRequest : Nat := 400
def StatusUnauthorized : Nat := 401
def StatusNotFound : Nat := 404
def StatusConflict : Nat := 409
def StatusTooManyRequests : Nat := 429
def StatusInternalServerError : Nat := 500

end http

/-! ## Logger (`internal/logger.go`) -/

/-- One field attached to a logging context by a `With...` method of `internal.Logger`. -/
inductive Field where
  | HandlerName (name : String)
  | StatusCode (statusCode : Nat)
  | Err (err : Error)
  | Msg (msg : String)
  | KV (k : String) (v : String)
deriving DecidableEq, Repr

/-- A `context.Context` as the logger sees it: the fields attached so far, oldest first. -/
abbrev Ctx := List Field

/-- Severity of a log record: the four logging methods of `internal.Logger`. -/
inductive Level where
  | Debug
  | Info
  | Warning
  | Error
deriving DecidableEq, Repr

namespace Logger

def WithHandlerName (ctx : Ctx) (name : String) : Ctx := ctx ++ [Field.HandlerName name]

def WithStatusCode (ctx : Ctx) (statusCode : Nat) : Ctx := ctx ++ [Field.StatusCode statusCode]

def WithError (ctx : Ctx) (err : Error) : Ctx := ctx ++ [Field.Err err]

def WithMsg (ctx : Ctx) (msg : String) : Ctx := ctx ++ [Field.Msg msg]

def WithField (ctx : Ctx) (k : String) (v : String) : Ctx := ctx ++ [Field.KV k v]

end Logger

/-! ## Requests -/

namespace gin

/-- The part of a `*gin.Context` the handlers read: the context of the request, the URL
query parameters in order of appearance, and the tokens that `api.GetAccessToken` and
`api.GetRefreshToken` return for it. -/
structure Context where
  RequestContext : Ctx
  query : List (String × String)
  accessToken : String
  refreshToken : String
deriving DecidableEq, Repr

/-- The method `c.Query(key)`: the first value of the parameter, the empty string when the
parameter is absent. -/
def Context.Query (c : Context) (key : String) : String :=
  match c.query.lookup key with
  | some value => value
  | none => ""

end gin

namespace api

def GetAccessToken (c : gin.Context) : String := c.accessToken

def GetRefreshToken (c : gin.Context) : String := c.refreshToken

end api

/-! ## Observable effects -/

/-- The second argument of `proto.WriteError`, declared `any`: handlers pass either a
string or an error value. -/
inductive Message where
  | text (s : String)
  | error (err : Error)
deriving DecidableEq, Repr

/-- What a handler does to the outside world, in the order it does it. -/
inductive Effect where
  /-- A record written by `logger.Debug/Info/Warning/Error(ctx)`. -/
  | Log (level : Level) (ctx : Ctx)
  /-- The call `proto.WriteError(c, status, message)`. -/
  | WriteError (status : Nat) (message : Message)
  /-- The call `proto.WriteJSON(c, status, out)` with `out` a `ResponseBody` of that key. -/
  | WriteJSON (status : Nat) (key : String)
  /-- The call `antifroadService.RotateKeys(ctx, password)`. -/
  | RotateKeys (password : String)
  /-- The call `antifroadService.GetKey(password)`. -/
  | GetKey (password : String)
  /-- The call `refresher.Refresh(ctx, in)` with that refresh token. -/
  | Refresh (refreshToken : String)
  /-- The call `oauth.Logout(c)`. -/
  | OAuthLogout
  /-- The call `authService.Logout(c, in)` with those tokens. -/
  | Logout (accessToken refreshToken : String)
  | SetAccessToken (accessToken : String)
  | SetRefreshToken (refreshToken : String)
  | DeleteAccessToken
  | DeleteRefreshToken
  | SetRegistrationToken (registrationToken : String)
  /-- The call `c.Redirect(status, location)`. -/
  | Redirect (status : Nat) (location : String)
  /-- The call `c.JSON(status, body)` with `body` a `ResponseBody` of that availability. -/
  | JSON (status : Nat) (available : Bool)
  /-- The call `oauthManager.Complete(c, provider)`. -/
  | Complete (provider : String)
  /-- The call `authService.Callback(ctx, in)` with that email and provider. -/
  | Callback (email provider : String)
  /-- The call `availabilityService.IsUsernameAvailable(ctx, username)`. -/
  | IsUsernameAvailable (username : String)
  /-- A Go panic, which ends the run. -/
  | Panic
  /-- The call `userService.ChangeUsername(ctx, userID, username)`. -/
  | ChangeUsername (userID : Nat) (username : String)
  /-- The call `authService.Register(ctx, in)` with that nickname and token. -/
  | Register (nickname token : String)
  | DeleteRegistrationToken
  /-- The call `userService.GetByID(ctx, id)`. -/
  | GetByID (id : Nat)
  /-- The call `statisticsService.DeleteAllForUser(ctx, userID)`. -/
  | DeleteAllForUser (userID : Nat)
  /-- The call `statisticsGetter.GetByUser(ctx, in)` with that user and start date. -/
  | GetByUser (userID : Nat) (dateFrom : Option Nat)
  /-- The call `statisticsSaver.Save(ctx, in)` with that user, request ID and signature. -/
  | Save (userID : Nat) (uid sign : String)
  /-- The call `profileGetter.Get(ctx, in)` with that username. -/
  | ProfileGet (username : String)
  /-- The call `oauth.Begin(c, provider)`. -/
  | Begin (provider : String)
  /-- The call `proto.WriteJSON(c, status, body)` with the JSON text of the body. -/
  | WriteBody (status : Nat) (body : String)
  /-- The call `c.JSON(status, body)` with the JSON text of the body. -/
  | JSONBody (status : Nat) (body : String)
deriving DecidableEq, Repr

/-- The statuses written to the response by a run, in order. -/
def statuses : List Effect → List Nat
  | [] => []
  | Effect.WriteError status _ :: rest => status :: statuses rest
  | Effect.WriteJSON status _ :: rest => status :: statuses rest
  | Effect.Redirect status _ :: rest => status :: statuses rest
  | Effect.JSON status _ :: rest => status :: statuses rest
  | Effect.WriteBody status _ :: rest => status :: statuses rest
  | Effect.JSONBody status _ :: rest => status :: statuses rest
  | _ :: rest => statuses rest

/-- The log levels of the records written by a run, in order. -/
def levels : List Effect → List Level
  | [] => []
  | Effect.Log level _ :: rest => level :: levels rest
  | _ :: rest => levels rest

/-- The passwords with which a run called `RotateKeys`, in order. -/
def rotateKeysCalls : List Effect → List String
  | [] => []
  | Effect.RotateKeys password :: rest => password :: rotateKeysCalls rest
  | _ :: rest => rotateKeysCalls rest

/-- The passwords with which a run called `GetKey`, in order. -/
def getKeyCalls : List Effect → List String
  | [] => []
  | Effect.GetKey password :: rest => password :: getKeyCalls rest
  | _ :: rest => getKeyCalls rest

/-- The keys a run wrote to the response in a `ResponseBody`, in order. -/
def keysWritten : List Effect → List String
  | [] => []
  | Effect.WriteJSON _ key :: rest => key :: keysWritten rest
  | _ :: rest => keysWritten rest

/-- Whether an effect sets or deletes a cookie. -/
def Effect.isCookie : Effect → Bool
  | Effect.SetAccessToken _ => true
  | Effect.SetRefreshToken _ => true
  | Effect.DeleteAccessToken => true
  | Effect.DeleteRefreshToken => true
  | Effect.SetRegistrationToken _ => true
  | Effect.DeleteRegistrationToken => true
  | _ => false

/-- The cookie operations of a run, in order. -/
def cookies (trace : List Effect) : List Effect := trace.filter Effect.isCookie

/-! ## Rate limiter (`github.com/ulule/limiter/v3`) -/

namespace limiter

/-- A `limiter.Rate`: the window length in nanoseconds and the number of requests allowed
in one window. -/
structure Rate where
  Period : Nat
  Limit : Nat
deriving DecidableEq, Repr

/-- A `limiter.Context`, the answer of the limiter to one query. -/
structure Context where
  Limit : Nat
  Remaining : Nat
  Reset : Nat
  Reached : Bool
deriving DecidableEq, Repr

/-- A `limiter.Store` holding a state of type `τ`: `Get` counts one more request against
`key` at time `now` and may fail. -/
structure Store (τ : Type) where
  state : τ
  Get : τ → Nat → String → Rate → Except Error Context × τ

/-- A `limiter.Limiter`: a store and the rate applied to every key. -/
structure Limiter (τ : Type) where
  Store : Store τ
  Rate : Rate

/-- The method `Limiter.Get(ctx, key)` called at time `now`: the answer and the limiter
with its store advanced. -/
def Limiter.Get {τ : Type} (l : Limiter τ) (now : Nat) (key : String) :
    Except Error Context × Limiter τ :=
  let r := l.Store.Get l.Store.state now key l.Rate
  (r.1, ⟨⟨r.2, l.Store.Get⟩, l.Rate⟩)

/-- The constructor `limiter.New(store, rate)`. -/
def New {τ : Type} (store : Store τ) (rate : Rate) : Limiter τ := ⟨store, rate⟩

end limiter

namespace memory

/-- The counter of one key: requests counted in the current window and the time at which
the window expires. -/
structure Counter where
  Value : Nat
  Expiration : Nat
deriving DecidableEq, Repr

/-- The counters of the store, by key. -/
abbrev Cache := String → Option Counter

/-- Modelled from the spec: the in-memory store of the rate limiter is not part of the
sources. "On each call: increment counter for the current window": a counter whose window
has not expired is incremented and keeps its expiry; otherwise a window of one period is
opened at `now` with count 1 ("the window resets at its own expiry, not on first
breach"). -/
def Increment (cache : Cache) (key : String) (now : Nat) (period : Nat) : Counter × Cache :=
  let counter : Counter :=
    match cache key with
    | some old => if now < old.Expiration then ⟨old.Value + 1, old.Expiration⟩ else ⟨1, now + period⟩
    | none => ⟨1, now + period⟩
  (counter, fun k => if k = key then some counter else cache k)

/-- Modelled from the spec: "if the post-increment count exceeds the max, report reached". -/
def GetContextFromState (rate : limiter.Rate) (counter : Counter) : limiter.Context :=
  if counter.Value ≤ rate.Limit then
    ⟨rate.Limit, rate.Limit - counter.Value, counter.Expiration, false⟩
  else
    ⟨rate.Limit, 0, counter.Expiration, true⟩

/-- Modelled from the spec: the query of the in-memory store, which never fails. -/
def Get (cache : Cache) (now : Nat) (key : String) (rate : limiter.Rate) :
    Except Error limiter.Context × Cache :=
  let r := Increment cache key now rate.Period
  (Except.ok (GetContextFromState rate r.1), r.2)

/-- The constructor `memory.NewStore()`: a store without counters. -/
def NewStore : limiter.Store Cache := ⟨fun _ => none, Get⟩

end memory

namespace time

/-- The Go constant `time.Minute`, in nanoseconds. -/
def Minute : Nat := 60000000000

end time

/-! ## POST /antifroad/rotate-keys -/

namespace antifroad_rotate_keys_post_handler

def handlerName : String := "antifroad_rotate_keys_post_handler"

/-- The interface `antifroadService`: an implementation with a state of type `σ`;
`RotateKeys` returns the error, if any, and the next state. -/
structure antifroadService (σ : Type) where
  state : σ
  RotateKeys : σ → String → Option Error × σ

/-- The handler. Its logger is represented by the `Log` effects of `Handle`. -/
structure Handler (σ τ : Type) where
  antifroadService : antifroadService σ
  limiter : limiter.Limiter τ

structure Request where
  Password : String
deriving DecidableEq, Repr

def newRequest (c : gin.Context) : Except Error Request :=
  let password := c.Query "password"
  if password = "" then
    Except.error (fmt.Errorf "password can not be empty")
  else
    Except.ok ⟨password⟩

def handleError (ctx : Ctx) (err : Error) : List Effect :=
  let status := http.StatusInternalServerError
  let message := "something went wrong"
  let (message, status) :=
    if antifroad_service.IsWrongPasswordError err then (err.text, http.StatusUnauthorized)
    else (message, status)
  let ctx := Logger.WithStatusCode ctx status
  [Effect.Log Level.Error (Logger.WithError ctx err),
   Effect.WriteError status (Message.text message)]

/-- The part of `Handle` after the rate limiter has let the request through: validation of
the request and the call of the service. -/
def serve {σ : Type} (svc : antifroadService σ) (ctx : Ctx) (c : gin.Context) :
    List Effect × antifroadService σ :=
  match newRequest c with
  | Except.error err =>
    ([Effect.Log Level.Warning (Logger.WithError ctx err),
      Effect.WriteError http.StatusBadRequest (Message.error err)], svc)
  | Except.ok req =>
    match svc.RotateKeys svc.state req.Password with
    | (some err, s) => (Effect.RotateKeys req.Password :: handleError ctx err, ⟨s, svc.RotateKeys⟩)
    | (none, s) => ([Effect.RotateKeys req.Password], ⟨s, svc.RotateKeys⟩)

/-- The method `Handler.Handle` run at time `now`: the effects and the handler afterwards. -/
def Handle {σ τ : Type} (h : Handler σ τ) (now : Nat) (c : gin.Context) :
    List Effect × Handler σ τ :=
  let ctx := Logger.WithHandlerName c.RequestContext handlerName
  match h.limiter.Get now handlerName with
  | (Except.error err, l) =>
    ([Effect.Log Level.Error (Logger.WithError ctx err),
      Effect.WriteError http.StatusBadRequest (Message.error err)], ⟨h.antifroadService, l⟩)
  | (Except.ok limiterCtx, l) =>
    if limiterCtx.Reached then
      ([Effect.Log Level.Warning (Logger.WithStatusCode ctx http.StatusTooManyRequests),
        Effect.WriteError http.StatusTooManyRequests (Message.text "too many requests")],
       ⟨h.antifroadService, l⟩)
    else
      let r := serve h.antifroadService ctx c
      (r.1, ⟨r.2, l⟩)

def New {σ : Type} (service : antifroadService σ) : Handler σ memory.Cache :=
  let rate : limiter.Rate := ⟨1 * time.Minute, 1⟩
  let store := memory.NewStore
  let limitInstance := limiter.New store rate
  ⟨service, limitInstance⟩

end antifroad_rotate_keys_post_handler

/-! ## GET /antifroad/key -/

namespace models

/-- The field of `models.AntifroadKey` the handlers read. -/
structure AntifroadKey where
  Value : String
deriving DecidableEq, Repr

end models

namespace antifroad_key_get_handler

def handlerName : String := "antifroad_key_get_handler"

/-- The interface `antifroadService`: `GetKey` returns the Go pair of a key pointer and an
error, and the next state of the implementation. -/
structure antifroadService (σ : Type) where
  state : σ
  GetKey : σ → String → (Option models.AntifroadKey × Option Error) × σ

/-- The handler. Its logger is represented by the `Log` effects of `Handle`. -/
structure Handler (σ τ : Type) where
  antifroadService : antifroadService σ
  limiter : limiter.Limiter τ

structure ResponseBody where
  Key : String
deriving DecidableEq, Repr

structure Request where
  Password : String
deriving DecidableEq, Repr

def newRequest (c : gin.Context) : Except Error Request :=
  let password := c.Query "password"
  if password = "" then
    Except.error (fmt.Errorf "password can not be empty")
  else
    Except.ok ⟨password⟩

def handleError (ctx : Ctx) (err : Error) : List Effect :=
  let status := http.StatusInternalServerError
  let message := "something went wrong"
  let (message, status) :=
    if antifroad_service.IsWrongPasswordError err then (err.text, http.StatusUnauthorized)
    else (message, status)
  let ctx := Logger.WithStatusCode ctx status
  [Effect.Log Level.Error (Logger.WithError ctx err),
   Effect.WriteError status (Message.text message)]

def newResponseBody (key : models.AntifroadKey) : ResponseBody := ⟨key.Value⟩

/-- The part of `Handle` after the rate limiter has let the request through: validation of
the request, the call of the service and the response. -/
def serve {σ : Type} (svc : antifroadService σ) (ctx : Ctx) (c : gin.Context) :
    List Effect × antifroadService σ :=
  match newRequest c with
  | Except.error err =>
    ([Effect.Log Level.Warning (Logger.WithError ctx err),
      Effect.WriteError http.StatusBadRequest (Message.error err)], svc)
  | Except.ok req =>
    match svc.GetKey svc.state req.Password with
    | ((_, some err), s) => (Effect.GetKey req.Password :: handleError ctx err, ⟨s, svc.GetKey⟩)
    | ((none, none), s) =>
      ([Effect.GetKey req.Password,
        Effect.Log Level.Error (Logger.WithMsg ctx "antifroad key not found"),
        Effect.WriteError http.StatusNotFound (Message.text "key not found")], ⟨s, svc.GetKey⟩)
    | ((some key, none), s) =>
      if key.Value = "" then
        ([Effect.GetKey req.Password,
          Effect.Log Level.Error (Logger.WithMsg ctx "antifroad key not found"),
          Effect.WriteError http.StatusNotFound (Message.text "key not found")], ⟨s, svc.GetKey⟩)
      else
        let out := newResponseBody key
        ([Effect.GetKey req.Password, Effect.WriteJSON http.StatusOK out.Key], ⟨s, svc.GetKey⟩)

/-- The method `Handler.Handle` run at time `now`: the effects and the handler afterwards. -/
def Handle {σ τ : Type} (h : Handler σ τ) (now : Nat) (c : gin.Context) :
    List Effect × Handler σ τ :=
  let ctx := Logger.WithHandlerName c.RequestContext handlerName
  match h.limiter.Get now handlerName with
  | (Except.error err, l) =>
    ([Effect.Log Level.Error (Logger.WithError ctx err),
      Effect.WriteError http.StatusBadRequest (Message.error err)], ⟨h.antifroadService, l⟩)
  | (Except.ok limiterCtx, l) =>
    if limiterCtx.Reached then
      ([Effect.Log Level.Warning (Logger.WithStatusCode ctx http.StatusTooManyRequests),
        Effect.WriteError http.StatusTooManyRequests (Message.text "too many requests")],
       ⟨h.antifroadService, l⟩)
    else
      let r := serve h.antifroadService ctx c
      (r.1, ⟨r.2, l⟩)

def New {σ : Type} (antifroadService : antifroadService σ) : Handler σ memory.Cache :=
  let rate : limiter.Rate := ⟨1 * time.Minute, 1⟩
  let store := memory.NewStore
  let limitInstance := limiter.New store rate
  ⟨antifroadService, limitInstance⟩

end antifroad_key_get_handler

/-! ## POST /auth/refresh -/

namespace auth_service

structure RefreshIn where
  RefreshToken : String
deriving DecidableEq, Repr

structure RefreshOut where
  AccessToken : String
  RefreshToken : String
deriving DecidableEq, Repr

structure LogoutIn where
  AccessToken : String
  RefreshToken : String
deriving DecidableEq, Repr

end auth_service

namespace auth_refresh_post_handler

def handlerName : String := "auth_refresh_post_handler"

/-- The interface `refresher`: `Refresh` returns the Go pair of a result pointer and an
error, and the next state of the implementation. -/
structure refresher (σ : Type) where
  state : σ
  Refresh : σ → auth_service.RefreshIn → (Option auth_service.RefreshOut × Option Error) × σ

/-- The handler. Its cookie manager and logger are represented by the cookie and `Log`
effects of `Handle`. -/
structure Handler (σ : Type) where
  refresher : refresher σ

def New {σ : Type} (refresher : refresher σ) : Handler σ := ⟨refresher⟩

def makeRefreshIn (c : gin.Context) : auth_service.RefreshIn := ⟨api.GetRefreshToken c⟩

/-- The method `makeOut`; both of its arguments are Go pointers and may be nil. -/
def makeOut (c : Option gin.Context) (out : Option auth_service.RefreshOut) : List Effect :=
  match c, out with
  | some _, some out =>
    [Effect.SetAccessToken out.AccessToken, Effect.SetRefreshToken out.RefreshToken]
  | _, _ =>
    [Effect.WriteError http.StatusInternalServerError (Message.text "something went wrong")]

def handleError (ctx : Ctx) (err : Error) : List Effect :=
  let status := http.StatusInternalServerError
  let message := "something went wrong"
  let (status, message) :=
    if auth_service.IsSessionNotFoundError err then (http.StatusNotFound, "session not found")
    else if auth_service.IsSessionExpiredError err then
      (http.StatusUnauthorized, "session expired")
    else (status, message)
  let ctx := Logger.WithError (Logger.WithStatusCode ctx status) err
  let level :=
    if status = http.StatusNotFound ∨ status = http.StatusUnauthorized then Level.Warning
    else Level.Error
  [Effect.Log level ctx, Effect.WriteError status (Message.text message)]

def Handle {σ : Type} (h : Handler σ) (c : gin.Context) : List Effect × Handler σ :=
  let ctx := Logger.WithHandlerName c.RequestContext handlerName
  let i := makeRefreshIn c
  match h.refresher.Refresh h.refresher.state i with
  | ((_, some err), s) =>
    (Effect.Refresh i.RefreshToken :: handleError ctx err, ⟨⟨s, h.refresher.Refresh⟩⟩)
  | ((out, none), s) =>
    (Effect.Refresh i.RefreshToken :: makeOut (some c) out, ⟨⟨s, h.refresher.Refresh⟩⟩)

end auth_refresh_post_handler

/-! ## POST /auth/logout -/

namespace auth_logout_post_handler

def handlerName : String := "auth_logout_post_handler"

/-- The interface `authService`: `Logout` returns the error, if any, and the next state
of the implementation. -/
structure authService (σ : Type) where
  state : σ
  Logout : σ → auth_service.LogoutIn → Option Error × σ

/-- The interface `oauth`: `Logout` returns the error, if any, and the next state. -/
structure oauth (ω : Type) where
  state : ω
  Logout : ω → gin.Context → Option Error × ω

/-- The handler. Its cookie manager and logger are represented by the cookie and `Log`
effects of `Handle`. -/
structure Handler (σ ω : Type) where
  authService : authService σ
  oauth : oauth ω

def New {σ ω : Type} (authService : authService σ) (oauth : oauth ω) : Handler σ ω :=
  ⟨authService, oauth⟩

def makeLogoutIn (c : gin.Context) : auth_service.LogoutIn :=
  ⟨api.GetAccessToken c, api.GetRefreshToken c⟩

def handleError (ctx : Ctx) (err : Error) : List Effect :=
  let status := http.StatusInternalServerError
  let message := "something went wrong"
  let (status, message) :=
    if auth_service.IsSessionNotFoundError err then (http.StatusNotFound, "session not found")
    else if auth_service.IsSessionExpiredError err then
      (http.StatusUnauthorized, "session expired")
    else (status, message)
  let ctx := Logger.WithError (Logger.WithStatusCode ctx status) err
  let level :=
    if status = http.StatusNotFound ∨ status = http.StatusUnauthorized then Level.Warning
    else Level.Error
  [Effect.Log level ctx, Effect.WriteError status (Message.text message)]

def Handle {σ ω : Type} (h : Handler σ ω) (c : gin.Context) : List Effect × Handler σ ω :=
  let ctx := Logger.WithHandlerName c.RequestContext handlerName
  match h.oauth.Logout h.oauth.state c with
  | (some err, o) =>
    let ctx := Logger.WithStatusCode ctx http.StatusInternalServerError
    ([Effect.OAuthLogout,
      Effect.Log Level.Error (Logger.WithError ctx err),
      Effect.WriteError http.StatusInternalServerError (Message.text "something went wrong")],
     ⟨h.authService, ⟨o, h.oauth.Logout⟩⟩)
  | (none, o) =>
    let i := makeLogoutIn c
    match h.authService.Logout h.authService.state i with
    | (some err, s) =>
      (Effect.OAuthLogout :: Effect.Logout i.AccessToken i.RefreshToken :: handleError ctx err,
       ⟨⟨s, h.authService.Logout⟩, ⟨o, h.oauth.Logout⟩⟩)
    | (none, s) =>
      ([Effect.OAuthLogout, Effect.Logout i.AccessToken i.RefreshToken,
        Effect.DeleteAccessToken, Effect.DeleteRefreshToken],
       ⟨⟨s, h.authService.Logout⟩, ⟨o, h.oauth.Logout⟩⟩)

end auth_logout_post_handler

/-! ## Routes: `Method`, `Path` and `Middleware` of the core handlers -/

namespace middleware

/-- The names of the middlewares, constants of the package `api/middleware`, which is not
part of the sources: they are taken as given. -/
structure Names where
  Auth : String
  RefreshToken : String
  Registration : String
deriving DecidableEq, Repr

end middleware

namespace http

def MethodGet : String := "GET"
def MethodPost : String := "POST"
def MethodPatch : String := "PATCH"
def MethodDelete : String := "DELETE"

end http

namespace auth_refresh_post_handler

def Method : String := http.MethodPost

def Path : String := "/auth/refresh"

def Middleware (m : middleware.Names) : List String := [m.RefreshToken]

end auth_refresh_post_handler

namespace auth_logout_post_handler

def Method : String := http.MethodPost

def Path : String := "/auth/logout"

def Middleware (m : middleware.Names) : List String := [m.Auth]

end auth_logout_post_handler

namespace auth_ping_get_handler

/-- The handler of GET /auth/ping answers 200 with the body `pong`. -/
def Handle : Nat × String := (http.StatusOK, "pong")

def Method : String := http.MethodGet

def Path : String := "/auth/ping"

def Middleware (m : middleware.Names) : List String := [m.Auth]

end auth_ping_get_handler

namespace antifroad_key_get_handler

def Method : String := http.MethodGet

def Path : String := "/antifroad/key"

/-- The method `Middleware` returns nil. -/
def Middleware (_ : middleware.Names) : List String := []

end antifroad_key_get_handler

namespace antifroad_rotate_keys_post_handler

def Method : String := http.MethodPost

def Path : String := "/antifroad/rotate-keys"

/-- The method `Middleware` returns nil. -/
def Middleware (_ : middleware.Names) : List String := []

end antifroad_rotate_keys_post_handler

/-! ## GET /users/username-availability -/

namespace errors

/-- The Go call `errors.New(text)`: a plain error with that text. -/
def New (text : String) : Error := ⟨ErrorKind.Untagged, text⟩

end errors

namespace users_username_availability_get_handler

def handlerName : String := "users_username_availability_get_handler"

structure Request where
  Username : String
deriving DecidableEq, Repr

structure ResponseBody where
  Available : Bool
deriving DecidableEq, Repr

/-- The interface `availabilityService`: `IsUsernameAvailable` returns the Go pair of a
boolean and an error, and the next state of the implementation. -/
structure availabilityService (σ : Type) where
  state : σ
  IsUsernameAvailable : σ → String → (Bool × Option Error) × σ

/-- The handler. Its logger is represented by the `Log` effects of `Handle`. -/
structure Handler (σ : Type) where
  availabilityService : availabilityService σ

def newRequest (c : gin.Context) : Except Error Request :=
  let username := c.Query "username"
  if username = "" then
    Except.error (errors.New "username is required")
  else
    Except.ok ⟨username⟩

def newResponseBody (isAvailable : Bool) : ResponseBody := ⟨isAvailable⟩

def Handle {σ : Type} (h : Handler σ) (c : gin.Context) : List Effect × Handler σ :=
  let ctx := Logger.WithHandlerName c.RequestContext handlerName
  match newRequest c with
  | Except.error err =>
    let ctx := Logger.WithStatusCode ctx http.StatusBadRequest
    ([Effect.Log Level.Warning (Logger.WithError ctx err),
      Effect.WriteError http.StatusBadRequest (Message.error err)], h)
  | Except.ok req =>
    match h.availabilityService.IsUsernameAvailable h.availabilityService.state req.Username with
    | ((_, some err), s) =>
      let ctx := Logger.WithStatusCode ctx http.StatusInternalServerError
      ([Effect.IsUsernameAvailable req.Username,
        Effect.Log Level.Error (Logger.WithError ctx err),
        Effect.WriteError http.StatusInternalServerError (Message.error err)],
       ⟨⟨s, h.availabilityService.IsUsernameAvailable⟩⟩)
    | ((isAvailable, none), s) =>
      let body := newResponseBody isAvailable
      ([Effect.IsUsernameAvailable req.Username, Effect.JSON http.StatusOK body.Available],
       ⟨⟨s, h.availabilityService.IsUsernameAvailable⟩⟩)

def Method : String := http.MethodGet

def Path : String := "/users/username-availability"

/-- The method `Middleware` returns nil. -/
def Middleware (_ : middleware.Names) : List String := []

def New {σ : Type} (availabilityService : availabilityService σ) : Handler σ :=
  ⟨availabilityService⟩

end users_username_availability_get_handler

/-! ## GET /auth/:provider/callback -/

namespace url

/-- A parsed URL as far as `buildErrorURL` touches it: the query, and what stands before
and after it. -/
structure URL where
  Head : String
  RawQuery : String
  Fragment : String
deriving DecidableEq, Repr

/-- The method `URL.String()`: the parts put together again, the query after a `?` when
there is one, the fragment after a `#` when there is one. -/
def URL.String (u : URL) : String :=
  u.Head ++ (if u.RawQuery = "" then "" else "?" ++ u.RawQuery)
    ++ (if u.Fragment = "" then "" else "#" ++ u.Fragment)

/-- A `url.Values` holding single values, in the order `Encode` writes them. -/
abbrev Values := List (String × String)

/-- The method `Values.Add(key, value)`. -/
def Values.Add (v : Values) (key value : String) : Values := v ++ [(key, value)]

/-- The method `Values.Encode()` for keys and values that need no escaping. -/
def Values.Encode (v : Values) : String :=
  "&".intercalate (v.map (fun kv => kv.1 ++ "=" ++ kv.2))

end url

namespace strconv

/-- The Go call `strconv.Itoa(n)` for a natural number. -/
def Itoa (n : Nat) : String := toString n

end strconv

namespace oauth

/-- The fields of `oauth.User` the callback handler reads. -/
structure User where
  ID : String
  Email : String
  Provider : String
deriving DecidableEq, Repr

end oauth

namespace auth_service

structure CallbackIn where
  Email : String
  Provider : String
deriving DecidableEq, Repr

/-- The result of `Callback`: its three token pointers, and the answers of its methods
`IsRegistration()` and `IsLogin()`, which are declared in a package that is not part of the
sources and are taken as given with the value. -/
structure CallbackOut where
  RegistrationToken : Option String
  AccessToken : Option String
  RefreshToken : Option String
  IsRegistration : Bool
  IsLogin : Bool
deriving DecidableEq, Repr

end auth_service

namespace auth_provider_callback_post_handler

/-- The constant `EmailIsAlreadyTaken` of type `Status`. -/
def EmailIsAlreadyTaken : Nat := 1

def statusParamName : String := "status"

def handlerName : String := "auth_provider_callback_post_handler"

/-- The input of the handler, built by `newIn`. -/
structure In where
  Provider : String
deriving DecidableEq, Repr

/-- What the handler uses and the sources do not hold: the function `newIn` of its own
package, and `url.Parse` of the Go library. They are taken as given. -/
structure Imports where
  newIn : gin.Context → Except Error In
  Parse : String → Except Error url.URL

/-- The interface `authService`. -/
structure authService (σ : Type) where
  state : σ
  Callback : σ → auth_service.CallbackIn →
    (Option auth_service.CallbackOut × Option Error) × σ

/-- The interface `oauthManager`. -/
structure oauthManager (ω : Type) where
  state : ω
  Complete : ω → gin.Context → String → (Option oauth.User × Option Error) × ω

/-- The handler. Its cookie manager and logger are represented by the cookie and `Log`
effects of `Handle`. -/
structure Handler (σ ω : Type) where
  oauthManager : oauthManager ω
  authService : authService σ
  loggedInURL : String
  registrationURL : String
  errorURL : String

def New {σ ω : Type} (authService : authService σ) (oauthManager : oauthManager ω)
    (loggedInURL registrationURL errorURL : String) : Handler σ ω :=
  ⟨oauthManager, authService, loggedInURL, registrationURL, errorURL⟩

/-- The method `buildErrorURL`; `Except.error` stands for its panic. -/
def buildErrorURL {σ ω : Type} (p : Imports) (h : Handler σ ω) (status : Nat) :
    Except Error String :=
  match p.Parse h.errorURL with
  | Except.error err => Except.error err
  | Except.ok u =>
    let params : url.Values := []
    let params := params.Add statusParamName (strconv.Itoa status)
    let u : url.URL := ⟨u.Head, params.Encode, u.Fragment⟩
    Except.ok u.String

def handleError {σ ω : Type} (p : Imports) (h : Handler σ ω) (err : Error) : List Effect :=
  if auth_service.IsEmailAlreadyTakenError err then
    match buildErrorURL p h EmailIsAlreadyTaken with
    | Except.ok location => [Effect.Redirect http.StatusPermanentRedirect location]
    | Except.error _ => [Effect.Panic]
  else
    [Effect.Redirect http.StatusPermanentRedirect h.errorURL]

/-- The end of `Handle`, once the auth service has returned a result without error. -/
def finish {σ ω : Type} (h : Handler σ ω) (ctx : Ctx) (out : auth_service.CallbackOut) :
    List Effect :=
  if out.IsRegistration then
    match out.RegistrationToken with
    | none => [Effect.Panic]
    | some registrationToken =>
      [Effect.SetRegistrationToken registrationToken,
       Effect.Redirect http.StatusPermanentRedirect h.registrationURL]
  else if out.IsLogin then
    match out.AccessToken with
    | none => [Effect.Panic]
    | some accessToken =>
      match out.RefreshToken with
      | none => [Effect.SetAccessToken accessToken, Effect.Panic]
      | some refreshToken =>
        [Effect.SetAccessToken accessToken, Effect.SetRefreshToken refreshToken,
         Effect.Redirect http.StatusPermanentRedirect h.loggedInURL]
  else
    [Effect.Log Level.Error (Logger.WithField ctx "msg" "out is not registration and login"),
     Effect.Redirect http.StatusPermanentRedirect h.errorURL]

def Handle {σ ω : Type} (p : Imports) (h : Handler σ ω) (c : gin.Context) :
    List Effect × Handler σ ω :=
  let ctx := Logger.WithHandlerName c.RequestContext handlerName
  match p.newIn c with
  | Except.error err =>
    ([Effect.Log Level.Error (Logger.WithError ctx err),
      Effect.Redirect http.StatusPermanentRedirect h.errorURL], h)
  | Except.ok i =>
    let ctx := Logger.WithField ctx "provider" i.Provider
    match h.oauthManager.Complete h.oauthManager.state c i.Provider with
    | ((_, some err), o) =>
      ([Effect.Complete i.Provider,
        Effect.Log Level.Error (Logger.WithError ctx err),
        Effect.Redirect http.StatusPermanentRedirect h.errorURL],
       ⟨⟨o, h.oauthManager.Complete⟩, h.authService, h.loggedInURL, h.registrationURL,
        h.errorURL⟩)
    | ((none, none), o) =>
      ([Effect.Complete i.Provider,
        Effect.Log Level.Error (Logger.WithField ctx "msg" "oauth user is nil"),
        Effect.Redirect http.StatusPermanentRedirect h.errorURL],
       ⟨⟨o, h.oauthManager.Complete⟩, h.authService, h.loggedInURL, h.registrationURL,
        h.errorURL⟩)
    | ((some user, none), o) =>
      let ctx := Logger.WithField ctx "external_user_id" user.ID
      let r := h.authService.Callback h.authService.state ⟨user.Email, user.Provider⟩
      let h2 : Handler σ ω :=
        ⟨⟨o, h.oauthManager.Complete⟩, ⟨r.2, h.authService.Callback⟩, h.loggedInURL,
         h.registrationURL, h.errorURL⟩
      let called := [Effect.Complete i.Provider, Effect.Callback user.Email user.Provider]
      match r.1 with
      | (_, some err) =>
        (called ++ Effect.Log Level.Error (Logger.WithError ctx err) :: handleError p h err, h2)
      | (none, none) =>
        (called ++
          [Effect.Log Level.Error (Logger.WithField ctx "msg" "auth service response is nil"),
           Effect.Redirect http.StatusPermanentRedirect h.errorURL], h2)
      | (some out, none) => (called ++ finish h ctx out, h2)

def Method : String := http.MethodGet

def Path : String := "/auth/:provider/callback"

/-- The method `Middleware` returns nil. -/
def Middleware (_ : middleware.Names) : List String := []

end auth_provider_callback_post_handler

/-! ## Configuration (`app/config`) -/

namespace config

structure Postgres where
  Connection : String
  Migrations : String
deriving DecidableEq, Repr

structure Antifroad where
  IsDisabled : Bool
  MaxKeys : Int
  RotationInterval : String
  Password : String
deriving DecidableEq, Repr

/-- The sections of `Config` that `App.Run` and the antifraud service read. -/
structure Config where
  Postgres : Postgres
  Antifroad : Antifroad
deriving DecidableEq, Repr

/-- The longest match of the pattern `\${([^}]+)}` at the very start of a text, with what
follows it: the text has to open with `${`, go on with at least one character other than
`}` and reach a `}`, where the match ends. -/
def matchAt : List Char → Option (List Char × List Char)
  | '$' :: '{' :: rest =>
    match rest.span (fun ch => ch != '}') with
    | ([], _) => none
    | (name, '}' :: after) => some ('$' :: '{' :: name ++ ['}'], after)
    | (_, _) => none
  | _ => none

/-- The method `Regexp.ReplaceAllFunc` for that pattern, with `fuel` steps: the text is
read from the left, every match is replaced by its image under `repl` and the reading goes
on behind it; a character at which no match starts is kept. -/
def replaceAllFrom (repl : List Char → List Char) : Nat → List Char → List Char
  | 0, text => text
  | _ + 1, [] => []
  | fuel + 1, ch :: rest =>
    match matchAt (ch :: rest) with
    | some (found, after) => repl found ++ replaceAllFrom repl fuel after
    | none => ch :: replaceAllFrom repl fuel rest

/-- The method `Regexp.ReplaceAllFunc`: one step for every character is enough. -/
def ReplaceAllFunc (text : List Char) (repl : List Char → List Char) : List Char :=
  replaceAllFrom repl text.length text

end config

namespace strings

/-- The Go call `strings.Trim(s, cutset)`: `s` without its leading and trailing characters
that occur in `cutset`. -/
def Trim (s : List Char) (cutset : List Char) : List Char :=
  ((s.dropWhile (fun ch => cutset.contains ch)).reverse.dropWhile
    (fun ch => cutset.contains ch)).reverse

end strings

namespace config

/-- The function `expandEnvVars`, with `LookupEnv` for `os.LookupEnv`. -/
def expandEnvVars (LookupEnv : String → Option String) (content : String) : String :=
  String.mk (ReplaceAllFunc content.data (fun found =>
    let envVar := String.mk (strings.Trim found ['$', '{', '}'])
    match LookupEnv envVar with
    | some value => value.data
    | none => found))

end config

/-! ## Process start (`app/app.go`) -/

namespace app

/-- The calls `Run` makes to its collaborators: `config.MustParse`, `di.NewContainer`, the
accessors of the container (`Logger`, `Postgres`, `Redis`, `Scheduler`, `AntifroadService`,
`Server`) and the methods of what they return. -/
inductive Call where
  | MustParse
  | NewContainer
  | Logger
  | Postgres
  | PostgresMustConnect
  | PostgresMustClose
  | PostgresMustMigrate
  | Redis
  | RedisMustConnect
  | RedisMustClose
  | Scheduler
  | SchedulerStart
  | SchedulerStop
  | AntifroadService
  | AntifroadInit
  | Server
  | ServerMustRun
deriving DecidableEq, Repr

/-- What a run of the process does, in order. -/
inductive Event where
  | Call (call : Call)
  | Info (msg : String)
  | Panic
deriving DecidableEq, Repr

/-- The world `Run` starts in: the configuration `MustParse` returns, which of the calls
panic, and the error, if any, that `Init` of the antifraud service returns. -/
structure Env where
  cfg : config.Config
  panics : Call → Bool
  Init : Option Error

/-- A call followed by the rest of the body, which is not reached when the call panics. -/
def call (env : Env) (c : Call) (rest : List Event) : List Event :=
  if env.panics c then [Event.Call c, Event.Panic] else Event.Call c :: rest

/-- A `defer`: the deferred call runs when the rest of the body has returned or panicked. -/
def defer (env : Env) (c : Call) (rest : List Event) : List Event :=
  rest ++ (if env.panics c then [Event.Call c, Event.Panic] else [Event.Call c])

/-- The section `// HTTP server` of `Run`. -/
def serverSection (env : Env) : List Event :=
  call env Call.Server <|
  call env Call.ServerMustRun [Event.Info "server stopped"]

/-- The section `// Antifroad` of `Run`, followed by the server section. -/
def antifroadSection (env : Env) : List Event :=
  if !env.cfg.Antifroad.IsDisabled then
    call env Call.AntifroadService <|
    call env Call.AntifroadInit
      (match env.Init with
       | some _ => [Event.Panic]
       | none => Event.Info "antifroad service initialized" :: serverSection env)
  else
    serverSection env

/-- The method `App.Run`. -/
def Run (env : Env) : List Event :=
  call env Call.MustParse <|
  call env Call.NewContainer <|
  call env Call.Logger <|
  Event.Info "di container created" ::
  (call env Call.Postgres <|
   call env Call.PostgresMustConnect <|
   defer env Call.PostgresMustClose <|
   call env Call.PostgresMustMigrate <|
   Event.Info "connected to postgres" ::
   (call env Call.Redis <|
    call env Call.RedisMustConnect <|
    defer env Call.RedisMustClose <|
    Event.Info "connected to redis" ::
    (call env Call.Scheduler <|
     call env Call.SchedulerStart <|
     defer env Call.SchedulerStop <|
     Event.Info "scheduler started" :: antifroadSection env)))

end app

/-! ## Session service (spec 4.1) -/

namespace session_service

/-- Modelled from the spec: a Session of the data model, as far as refresh reads it: the
user, the refresh-token value and the expiry. The session service and its store are not
part of the sources. -/
structure Session where
  userID : Nat
  refreshToken : String
  expiry : Nat
deriving DecidableEq, Repr

/-- Modelled from the spec: the Token Codec and the source of fresh refresh-token values,
as functions of the user and the time, and of the number of values issued so far. -/
structure Codec where
  accessToken : Nat → Nat → String
  refreshToken : Nat → String

/-- Modelled from the spec: the state of the session service: the Session Store, the
clock and the number of refresh-token values issued so far. -/
structure State where
  sessions : List Session
  clock : Nat
  issued : Nat
deriving DecidableEq, Repr

/-- Modelled from the spec: `Refresh` "looks up the Session by refresh-token value. Fails
with `SessionNotFound` if absent. Fails with `SessionExpired` if the session's expiry has
passed (and the expired session is deleted as a side effect). On success: generates a new
refresh-token value, overwrites the session record atomically (replace-by-old-value),
mints a new access token, and returns the new pair". -/
def Refresh (codec : Codec) (s : State) (i : auth_service.RefreshIn) :
    (Option auth_service.RefreshOut × Option Error) × State :=
  match s.sessions.find? (fun session => session.refreshToken == i.RefreshToken) with
  | none => ((none, some ⟨ErrorKind.SessionNotFound, "session not found"⟩), s)
  | some session =>
    if session.expiry ≤ s.clock then
      ((none, some ⟨ErrorKind.SessionExpired, "session expired"⟩),
       ⟨s.sessions.filter (fun x => x.refreshToken != i.RefreshToken), s.clock, s.issued⟩)
    else
      let fresh := codec.refreshToken s.issued
      ((some ⟨codec.accessToken session.userID s.clock, fresh⟩, none),
       ⟨s.sessions.map (fun x =>
          if x.refreshToken == i.RefreshToken then ⟨x.userID, fresh, x.expiry⟩ else x),
        s.clock, s.issued + 1⟩)

/-- The session service behind the interface `refresher` of the refresh handler. -/
def asRefresher (codec : Codec) (s : State) : auth_refresh_post_handler.refresher State :=
  ⟨s, Refresh codec⟩

/-- Modelled from the spec: a BlockedAccessToken of the data model: the identifier of a
revoked access token and the time until which it is blocked. -/
structure BlockedAccessToken where
  tokenID : String
  blockUntil : Nat
deriving DecidableEq, Repr

/-- Modelled from the spec: what the Token Codec reads off an access token: the identifier
"derived from the token itself" and the expiry claim of the token. -/
structure Claims where
  tokenID : String → String
  expiresAt : String → Nat

/-- Modelled from the spec: the state on which `Logout` works: the state of the session
service and the Token Blocklist. -/
structure Revocable where
  service : State
  blocklist : List BlockedAccessToken
deriving DecidableEq, Repr

/-- Modelled from the spec: `Logout` "deletes the Session by refresh-token value (fails
silently if already gone — logout is idempotent) and inserts the access token's identifier
into the Token Blocklist with block-until equal to the access token's own expiry claim".
The spec names no failure of `Logout`. -/
def Logout (claims : Claims) (s : Revocable) (i : auth_service.LogoutIn) :
    Option Error × Revocable :=
  (none,
   ⟨⟨s.service.sessions.filter (fun x => x.refreshToken != i.RefreshToken), s.service.clock,
     s.service.issued⟩,
    ⟨claims.tokenID i.AccessToken, claims.expiresAt i.AccessToken⟩ :: s.blocklist⟩)

/-- The session service behind the interface `authService` of the logout handler. -/
def asLogout (claims : Claims) (s : Revocable) :
    auth_logout_post_handler.authService Revocable :=
  ⟨s, Logout claims⟩

end session_service

/-! ## Antifraud key service (spec 4.3) -/

namespace antifroad_service

/-- Modelled from the spec: the state of the antifraud key service: the keys of the
Antifraud Key Store, the most recently created first, and the number of keys generated so
far. The service and its store are not part of the sources. -/
structure State where
  keys : List models.AntifroadKey
  generated : Nat
deriving DecidableEq, Repr

/-- Modelled from the spec: rotation "generates one new cryptographically random key,
inserts it as current, and if the resulting count exceeds N, evicts the oldest (by
created-at) until count == N". The generator gives the key for the number of keys
generated so far. -/
def Rotate (cfg : config.Antifroad) (generate : Nat → String) (s : State) : State :=
  ⟨(⟨generate s.generated⟩ :: s.keys).take cfg.MaxKeys.toNat, s.generated + 1⟩

/-- Modelled from the spec: `RotateKeys(password)`: "same password gate", then the
rotation. -/
def RotateKeys (cfg : config.Antifroad) (generate : Nat → String) (s : State)
    (password : String) : Option Error × State :=
  if password = cfg.Password then (none, Rotate cfg generate s)
  else (some ⟨ErrorKind.WrongPassword, "wrong password"⟩, s)

/-- Modelled from the spec: `GetKey(password)`: "on mismatch returns `WrongPassword`; on
match returns the most-recently-created key. Returns `KeyNotFound` if the store is
empty". -/
def GetKey (cfg : config.Antifroad) (s : State) (password : String) :
    (Option models.AntifroadKey × Option Error) × State :=
  if password = cfg.Password then
    match s.keys with
    | [] => ((none, some ⟨ErrorKind.Untagged, "key not found"⟩), s)
    | key :: _ => ((some key, none), s)
  else ((none, some ⟨ErrorKind.WrongPassword, "wrong password"⟩), s)

/-- Modelled from the spec: `Init(ctx)`: "if the store is empty, seeds it with one freshly
generated key". -/
def Init (generate : Nat → String) (s : State) : State :=
  match s.keys with
  | [] => ⟨[⟨generate s.generated⟩], s.generated + 1⟩
  | _ :: _ => s

/-- The antifraud key service behind the interface `antifroadService` of the rotate-keys
handler. -/
def asRotator (cfg : config.Antifroad) (generate : Nat → String) (s : State) :
    antifroad_rotate_keys_post_handler.antifroadService State :=
  ⟨s, RotateKeys cfg generate⟩

end antifroad_service

/-! ## GET /users/me/statistics -/

namespace time

/-- A `time.Duration`: a number of nanoseconds. -/
abbrev Duration := Int

/-- The method `Duration.Milliseconds()`: the integer division of Go, towards zero. -/
def Duration.Milliseconds (d : Duration) : Int := Int.tdiv d 1000000

/-- The method `Duration.Microseconds()`. -/
def Duration.Microseconds (d : Duration) : Int := Int.tdiv d 1000

end time

namespace models

/-- The fields of `models.Statistics` that `newResponseBody` reads; the type is declared
outside the sources at hand. `Duration` and `UncompletedTestsTotalDuration` carry the method
`Milliseconds` and so are of type `time.Duration`; `φ` is the type of the floating-point
values, which the handler copies. Conversions between integer types are left out. -/
structure Statistics (φ : Type) where
  ID : Nat
  WPM : φ
  CPM : φ
  Accuracy : φ
  Duration : time.Duration
  PlayedAt : Nat
  Language : String
  Mode : String
  SubMode : String
  IsPunctuation : Bool
  UncompletedTestsCount : Int
  UncompletedTestsTotalDuration : time.Duration
deriving DecidableEq, Repr

end models

namespace users_me_statistics_get_handler

/-- The type `Stats` of the response; the description of `Duration` in its tag reads
"Duration in microseconds". -/
structure Stats (φ : Type) where
  ID : Nat
  WPM : φ
  CPM : φ
  Accuracy : φ
  Duration : Int
  PlayedAt : String
  Language : String
  Mode : String
  SubMode : String
  IsPunctuation : Bool
  UncompletedTestsCount : Int
  UncompletedTestsTotalDuration : Int
deriving DecidableEq, Repr

structure ResponseBody (φ : Type) where
  Statistics : List (Stats φ)
deriving DecidableEq, Repr

/-- The method `newResponseBody`, with `MarshalTime` for `proto.MarshalTime`, which is not
part of the sources. -/
def newResponseBody {φ : Type} (MarshalTime : Nat → String)
    (stats : List (models.Statistics φ)) : ResponseBody φ :=
  ⟨stats.map (fun stat =>
    { ID := stat.ID
      WPM := stat.WPM
      CPM := stat.CPM
      Accuracy := stat.Accuracy
      Duration := stat.Duration.Milliseconds
      PlayedAt := MarshalTime stat.PlayedAt
      Language := stat.Language
      Mode := stat.Mode
      SubMode := stat.SubMode
      IsPunctuation := stat.IsPunctuation
      UncompletedTestsCount := stat.UncompletedTestsCount
      UncompletedTestsTotalDuration := stat.UncompletedTestsTotalDuration.Milliseconds })⟩

end users_me_statistics_get_handler

/-! ## PATCH /users/me/username -/

namespace users_me_username_patch_handler

def handlerName : String := "users_me_username_patch_handler"

structure RequestBody where
  Username : String
deriving DecidableEq, Repr

structure Request where
  Username : String
  UserID : Nat
deriving DecidableEq, Repr

/-- What the handler uses and the sources do not hold: the method
`c.ShouldBindBodyWithJSON` of gin and the function `api.GetUserID`. They are taken as
given. -/
structure Imports where
  ShouldBindBodyWithJSON : gin.Context → Except Error RequestBody
  GetUserID : gin.Context → Nat

/-- The interface `userService`. -/
structure userService (σ : Type) where
  state : σ
  ChangeUsername : σ → Nat → String → Option Error × σ

/-- The handler. Its logger is represented by the `Log` effects of `Handle`. -/
structure Handler (σ : Type) where
  userService : userService σ

def newRequest (p : Imports) (c : gin.Context) : Except Error Request :=
  match p.ShouldBindBodyWithJSON c with
  | Except.error err => Except.error err
  | Except.ok body =>
    let userID := p.GetUserID c
    Except.ok ⟨body.Username, userID⟩

def handleError (ctx : Ctx) (err : Error) : List Effect :=
  let status := http.StatusInternalServerError
  let message := "something went wrong serverside"
  let (status, message) :=
    if models.IsValidationError err || models.IsSameUsernameError err then
      (http.StatusBadRequest, err.text)
    else if models.IsUsernameAlreadyTakenError err then (http.StatusConflict, err.text)
    else if models.IsTooMuchUsernameChangesError err then
      (http.StatusTooManyRequests, err.text)
    else (status, message)
  let ctx := Logger.WithError (Logger.WithStatusCode ctx status) err
  let level :=
    if status = http.StatusBadRequest ∨ status = http.StatusConflict ∨
        status = http.StatusTooManyRequests then Level.Warning
    else Level.Error
  [Effect.Log level ctx, Effect.WriteError status (Message.text message)]

def Handle {σ : Type} (p : Imports) (h : Handler σ) (c : gin.Context) :
    List Effect × Handler σ :=
  let ctx := Logger.WithHandlerName c.RequestContext handlerName
  match newRequest p c with
  | Except.error err =>
    let ctx := Logger.WithStatusCode ctx http.StatusBadRequest
    ([Effect.WriteError http.StatusBadRequest (Message.error err),
      Effect.Log Level.Warning (Logger.WithError ctx err)], h)
  | Except.ok req =>
    match h.userService.ChangeUsername h.userService.state req.UserID req.Username with
    | (some err, s) =>
      (Effect.ChangeUsername req.UserID req.Username :: handleError ctx err,
       ⟨⟨s, h.userService.ChangeUsername⟩⟩)
    | (none, s) =>
      ([Effect.ChangeUsername req.UserID req.Username], ⟨⟨s, h.userService.ChangeUsername⟩⟩)

def Method : String := http.MethodPatch

def Path : String := "users/me/username"

def Middleware (m : middleware.Names) : List String := [m.Auth]

def New {σ : Type} (userService : userService σ) : Handler σ := ⟨userService⟩

end users_me_username_patch_handler

/-! ## POST /auth/register -/

namespace auth_service

structure RegisterIn where
  Nickname : String
  Token : String
deriving DecidableEq, Repr

structure RegisterOut where
  AccessToken : String
  RefreshToken : String
deriving DecidableEq, Repr

end auth_service

namespace auth_register_post_handler

def handlerName : String := "auth_register_post_handler"

structure RequestBody where
  Nickname : String
deriving DecidableEq, Repr

structure Request where
  Nickname : String
  Token : String
deriving DecidableEq, Repr

/-- What the handler uses and the sources at hand do not hold: the method
`c.ShouldBindBodyWithJSON` of gin and the function `api.GetRegistrationToken`. They are
taken as given. -/
structure Imports where
  ShouldBindBodyWithJSON : gin.Context → Except Error RequestBody
  GetRegistrationToken : gin.Context → String

/-- The interface `authService`: `Register` returns the Go pair of a result pointer and an
error, and the next state of the implementation. -/
structure authService (σ : Type) where
  state : σ
  Register : σ → auth_service.RegisterIn →
    (Option auth_service.RegisterOut × Option Error) × σ

/-- The handler. Its cookie manager and logger are represented by the cookie and `Log`
effects of `Handle`. -/
structure Handler (σ : Type) where
  authService : authService σ

def New {σ : Type} (authService : authService σ) : Handler σ := ⟨authService⟩

def newRequest (p : Imports) (c : gin.Context) : Except Error Request :=
  match p.ShouldBindBodyWithJSON c with
  | Except.error _ => Except.error (errors.New "failed to parse json body")
  | Except.ok body => Except.ok ⟨body.Nickname, p.GetRegistrationToken c⟩

/-- The method `writeResponse`; its argument is a Go pointer, and reading a field of a nil
pointer panics. -/
def writeResponse (out : Option auth_service.RegisterOut) : List Effect :=
  Effect.DeleteRegistrationToken ::
    (match out with
     | none => [Effect.Panic]
     | some out =>
       [Effect.SetAccessToken out.AccessToken, Effect.SetRefreshToken out.RefreshToken])

def handleError (ctx : Ctx) (err : Error) : List Effect :=
  let status := http.StatusInternalServerError
  let message := "something went wrong serverside"
  let (status, message) :=
    if models.IsValidationError err then (http.StatusBadRequest, err.text)
    else if user_service.IsUserAlreadyExistsError err then
      (http.StatusConflict, "user already exists")
    else (status, message)
  let ctx := Logger.WithError (Logger.WithStatusCode ctx status) err
  let level :=
    if status = http.StatusBadRequest ∨ status = http.StatusConflict then Level.Warning
    else Level.Error
  [Effect.Log level ctx, Effect.WriteError status (Message.text message)]

def Handle {σ : Type} (p : Imports) (h : Handler σ) (c : gin.Context) :
    List Effect × Handler σ :=
  let ctx := Logger.WithHandlerName c.RequestContext handlerName
  match newRequest p c with
  | Except.error err =>
    ([Effect.Log Level.Warning (Logger.WithError ctx err),
      Effect.WriteError http.StatusBadRequest (Message.error err)], h)
  | Except.ok r =>
    match h.authService.Register h.authService.state ⟨r.Nickname, r.Token⟩ with
    | ((_, some err), s) =>
      (Effect.Register r.Nickname r.Token :: handleError ctx err,
       ⟨⟨s, h.authService.Register⟩⟩)
    | ((out, none), s) =>
      (Effect.Register r.Nickname r.Token :: writeResponse out, ⟨⟨s, h.authService.Register⟩⟩)

def Path : String := "/auth/register"

def Method : String := http.MethodPost

def Middleware (m : middleware.Names) : List String := [m.Registration]

end auth_register_post_handler

/-! ## GET /auth/:provider -/

namespace auth_provider_get_handler

def handlerName : String := "auth_provider_get_handler"

/-- The struct `in`. -/
structure In where
  Provider : String
deriving DecidableEq, Repr

/-- What the handler uses and the sources at hand do not hold: the method `c.Param` of
gin. It is taken as given. -/
structure Imports where
  Param : gin.Context → String → String

def newIn (p : Imports) (c : gin.Context) : Except Error In :=
  let provider := p.Param c "provider"
  if provider = "" then Except.error (errors.New "provider is required")
  else Except.ok ⟨provider⟩

/-- The method `Handle`. The interface `oauthHandler` has the one method `Begin`, which
returns nothing; its logger is represented by the `Log` effects. -/
def Handle (p : Imports) (c : gin.Context) : List Effect :=
  let ctx := Logger.WithHandlerName c.RequestContext handlerName
  match newIn p c with
  | Except.error err =>
    [Effect.Log Level.Warning (Logger.WithError ctx err),
     Effect.WriteError http.StatusBadRequest (Message.error err)]
  | Except.ok i => [Effect.Begin i.Provider]

def Method : String := http.MethodGet

def Path : String := "/auth/:provider"

/-- The method `Middleware` returns nil. -/
def Middleware (_ : middleware.Names) : List String := []

end auth_provider_get_handler

/-! ## GET /users/me -/

namespace models

/-- The fields of `models.User` that the handler of GET /users/me reads; the type is
declared outside the sources at hand. -/
structure User where
  Email : String
  Nickname : String
  CreatedAt : Nat
deriving DecidableEq, Repr

end models

namespace users_me_get_handler

def handlerName : String := "users_me_get_handler"

/-- The interface `userService`: `GetByID` returns the Go pair of a user pointer and an
error, and the next state of the implementation. -/
structure userService (σ : Type) where
  state : σ
  GetByID : σ → Nat → (Option models.User × Option Error) × σ

structure User where
  Email : String
  Username : String
  JoinedAt : String
deriving DecidableEq, Repr

structure ResponseBody where
  User : User
deriving DecidableEq, Repr

structure Request where
  ID : Nat
deriving DecidableEq, Repr

/-- The handler. Its logger is represented by the `Log` effects of `Handle`. -/
structure Handler (σ : Type) where
  userService : userService σ

/-- What the handler uses and the sources at hand do not hold: `api.GetUserID`,
`proto.MarshalTime`, and the JSON text that `proto.WriteJSON` writes for a body. They are
taken as given. -/
structure Imports where
  GetUserID : gin.Context → Nat
  MarshalTime : Nat → String
  Marshal : ResponseBody → String

def newRequest (p : Imports) (c : gin.Context) : Request := ⟨p.GetUserID c⟩

def newResponseBody (p : Imports) (user : models.User) : ResponseBody :=
  ⟨⟨user.Email, user.Nickname, p.MarshalTime user.CreatedAt⟩⟩

def Handle {σ : Type} (p : Imports) (h : Handler σ) (c : gin.Context) :
    List Effect × Handler σ :=
  let ctx := Logger.WithHandlerName c.RequestContext handlerName
  let req := newRequest p c
  match h.userService.GetByID h.userService.state req.ID with
  | ((_, some err), s) =>
    let ctx := Logger.WithStatusCode ctx http.StatusInternalServerError
    ([Effect.GetByID req.ID,
      Effect.Log Level.Error (Logger.WithError ctx err),
      Effect.WriteError http.StatusInternalServerError (Message.text "something went wrong")],
     ⟨⟨s, h.userService.GetByID⟩⟩)
  | ((none, none), s) =>
    let ctx := Logger.WithStatusCode ctx http.StatusNotFound
    ([Effect.GetByID req.ID,
      Effect.Log Level.Warning (Logger.WithMsg ctx "user not found"),
      Effect.WriteError http.StatusNotFound (Message.text "user not found")],
     ⟨⟨s, h.userService.GetByID⟩⟩)
  | ((some user, none), s) =>
    let body := newResponseBody p user
    ([Effect.GetByID req.ID, Effect.WriteBody http.StatusOK (p.Marshal body)],
     ⟨⟨s, h.userService.GetByID⟩⟩)

def Method : String := http.MethodGet

def Path : String := "/users/me"

def Middleware (m : middleware.Names) : List String := [m.Auth]

def New {σ : Type} (userService : userService σ) : Handler σ := ⟨userService⟩

end users_me_get_handler

/-! ## DELETE /users/me/statistics -/

namespace users_me_statistics_delete_handler

def handlerName : String := "users_me_statistics_delete_handler"

/-- The interface `statisticsService`. -/
structure statisticsService (σ : Type) where
  state : σ
  DeleteAllForUser : σ → Nat → Option Error × σ

/-- The handler. Its logger is represented by the `Log` effects of `Handle`. -/
structure Handler (σ : Type) where
  statisticsService : statisticsService σ

structure Request where
  userID : Nat
deriving DecidableEq, Repr

/-- What the handler uses and the sources at hand do not hold: `api.GetUserID`. -/
structure Imports where
  GetUserID : gin.Context → Nat

def newRequest (p : Imports) (c : gin.Context) : Request := ⟨p.GetUserID c⟩

def handleError (ctx : Ctx) (err : Error) : List Effect :=
  let status := http.StatusInternalServerError
  let message := "something went wrong serverside"
  let (status, message) :=
    if models.IsUserNotFoundError err then (http.StatusNotFound, "user not found")
    else (status, message)
  let ctx := Logger.WithError (Logger.WithStatusCode ctx status) err
  let level := if status = http.StatusInternalServerError then Level.Error else Level.Warning
  [Effect.Log level ctx, Effect.WriteError status (Message.text message)]

def Handle {σ : Type} (p : Imports) (h : Handler σ) (c : gin.Context) :
    List Effect × Handler σ :=
  let ctx := Logger.WithHandlerName c.RequestContext handlerName
  let req := newRequest p c
  match h.statisticsService.DeleteAllForUser h.statisticsService.state req.userID with
  | (some err, s) =>
    (Effect.DeleteAllForUser req.userID :: handleError ctx err,
     ⟨⟨s, h.statisticsService.DeleteAllForUser⟩⟩)
  | (none, s) =>
    ([Effect.DeleteAllForUser req.userID], ⟨⟨s, h.statisticsService.DeleteAllForUser⟩⟩)

def Method : String := http.MethodDelete

def Path : String := "/users/me/statistics"

def Middleware (m : middleware.Names) : List String := [m.Auth]

def New {σ : Type} (statisticsService : statisticsService σ) : Handler σ :=
  ⟨statisticsService⟩

end users_me_statistics_delete_handler

/-! ## GET /users/me/statistics: the handler -/

namespace statistics_service

/-- The fields of `statistics_service.GetByUserIn` as the handler fills them; the type is
declared outside the sources at hand. -/
structure GetByUserIn where
  UserID : Nat
  DateFrom : Option Nat
deriving DecidableEq, Repr

end statistics_service

namespace users_me_statistics_get_handler

def handlerName : String := "users_me_statistics_get_handler"

structure Request where
  UserID : Nat
  DateFrom : Option Nat
deriving DecidableEq, Repr

/-- The interface `statisticsGetter`: `GetByUser` returns the Go pair of a slice and an
error, and the next state of the implementation. -/
structure statisticsGetter (σ φ : Type) where
  state : σ
  GetByUser : σ → statistics_service.GetByUserIn →
    (List (models.Statistics φ) × Option Error) × σ

/-- The handler. Its logger is represented by the `Log` effects of `Handle`. -/
structure Handler (σ φ : Type) where
  statisticsGetter : statisticsGetter σ φ

/-- What the handler uses and the sources at hand do not hold: `api.GetUserID`,
`proto.UnmarshalTime`, `proto.MarshalTime`, and the JSON text that `proto.WriteJSON` writes
for a body. They are taken as given. -/
structure Imports (φ : Type) where
  GetUserID : gin.Context → Nat
  UnmarshalTime : String → Except Error Nat
  MarshalTime : Nat → String
  Marshal : ResponseBody φ → String

def newRequest {φ : Type} (p : Imports φ) (c : gin.Context) : Except Error Request :=
  let r : Request := ⟨p.GetUserID c, none⟩
  let dateFromString := c.Query "dateFrom"
  if dateFromString = "" then Except.ok r
  else
    match p.UnmarshalTime dateFromString with
    | Except.error err => Except.error err
    | Except.ok dateFrom => Except.ok ⟨r.UserID, some dateFrom⟩

def newStatisticsGetByUser (r : Request) : statistics_service.GetByUserIn :=
  ⟨r.UserID, r.DateFrom⟩

def handleError (ctx : Ctx) (err : Error) : List Effect :=
  let status := http.StatusInternalServerError
  let message := "something went wrong serverside"
  let (status, message) :=
    if statistics_service.IsUserNotFoundError err then (http.StatusNotFound, "user not found")
    else (status, message)
  let ctx := Logger.WithError (Logger.WithStatusCode ctx status) err
  let level := if status = http.StatusNotFound then Level.Warning else Level.Error
  [Effect.Log level ctx, Effect.WriteError status (Message.text message)]

def Handle {σ φ : Type} (p : Imports φ) (h : Handler σ φ) (c : gin.Context) :
    List Effect × Handler σ φ :=
  let ctx := Logger.WithHandlerName c.RequestContext handlerName
  match newRequest p c with
  | Except.error err =>
    let ctx := Logger.WithStatusCode ctx http.StatusBadRequest
    ([Effect.Log Level.Warning (Logger.WithError ctx err),
      Effect.WriteError http.StatusBadRequest (Message.error err)], h)
  | Except.ok r =>
    let i := newStatisticsGetByUser r
    match h.statisticsGetter.GetByUser h.statisticsGetter.state i with
    | ((_, some err), s) =>
      (Effect.GetByUser i.UserID i.DateFrom :: handleError ctx err,
       ⟨⟨s, h.statisticsGetter.GetByUser⟩⟩)
    | ((stats, none), s) =>
      let out := newResponseBody p.MarshalTime stats
      ([Effect.GetByUser i.UserID i.DateFrom, Effect.WriteBody http.StatusOK (p.Marshal out)],
       ⟨⟨s, h.statisticsGetter.GetByUser⟩⟩)

def Method : String := http.MethodGet

def Path : String := "/users/me/statistics"

def Middleware (m : middleware.Names) : List String := [m.Auth]

def New {σ φ : Type} (statisticsGetter : statisticsGetter σ φ) : Handler σ φ :=
  ⟨statisticsGetter⟩

end users_me_statistics_get_handler

/-! ## POST /users/me/statistics -/

namespace pointer

/-- The function `GetUint64` of the library `github.com/AlekSi/pointer`: the value of the
pointer, and zero for nil. -/
def GetUint64 (value : Option Nat) : Nat := value.getD 0

end pointer

namespace statistics_service

/-- The fields of `statistics_service.SaveIn` as the handler fills them; the type is
declared outside the sources at hand. `φ` is the type of the floating-point values. -/
structure SaveIn (φ : Type) where
  UserID : Nat
  WPM : φ
  CPM : φ
  Accuracy : φ
  Duration : time.Duration
  Language : String
  Mode : String
  SubMode : String
  IsPunctuation : Bool
  UncompletedTestsCount : Nat
  UncompletedTestsDurationMs : time.Duration
  UID : String
  Sign : String
  CreatedAt : Nat
  StartedAt : Nat
  FinishedAt : Nat
deriving DecidableEq, Repr

/-- The fields of `statistics_service.SaveOut` that the handler reads. -/
structure SaveOut (φ : Type) where
  IsPB : Bool
  WPMShift : φ
deriving DecidableEq, Repr

end statistics_service

namespace users_me_statistics_post_handler

def handlerName : String := "users_me_statistics_post_handler"

/-- The interface `statisticsSaver`: `Save` returns the Go pair of a result pointer and an
error, and the next state of the implementation. -/
structure statisticsSaver (σ φ : Type) where
  state : σ
  Save : σ → statistics_service.SaveIn φ →
    (Option (statistics_service.SaveOut φ) × Option Error) × σ

structure RequestBody (φ : Type) where
  WPM : φ
  CPM : φ
  Accuracy : φ
  DurationMs : Nat
  Language : String
  Mode : String
  SubMode : String
  IsPunctuation : Bool
  UncompletedTestsCount : Option Nat
  UncompletedTestsDurationMs : Option Nat
  UID : String
  Sign : String
  CreatedAt : String
  StartedAt : String
  FinishedAt : String
deriving DecidableEq, Repr

structure Request (φ : Type) where
  body : RequestBody φ
  userID : Nat
deriving DecidableEq, Repr

structure ResponseBody (φ : Type) where
  IsPersonalBest : Bool
  WPMShift : φ
deriving DecidableEq, Repr

/-- The handler. Its logger is represented by the `Log` effects of `Handle`. -/
structure Handler (σ φ : Type) where
  statisticsSaver : statisticsSaver σ φ

/-- What the handler uses and the sources at hand do not hold: the method
`c.ShouldBindBodyWithJSON` of gin, `api.GetUserID`, `proto.UnmarshalTime`,
`proto.ParseMilliseconds`, and the JSON text that `proto.WriteJSON` writes for a body. They
are taken as given. -/
structure Imports (φ : Type) where
  ShouldBindBodyWithJSON : gin.Context → Except Error (RequestBody φ)
  GetUserID : gin.Context → Nat
  UnmarshalTime : String → Except Error Nat
  ParseMilliseconds : Option Nat → time.Duration
  Marshal : ResponseBody φ → String

def newRequest {φ : Type} (p : Imports φ) (c : gin.Context) : Except Error (Request φ) :=
  match p.ShouldBindBodyWithJSON c with
  | Except.error err => Except.error err
  | Except.ok body => Except.ok ⟨body, p.GetUserID c⟩

def newSaveIn {φ : Type} (p : Imports φ) (r : Request φ) :
    Except Error (statistics_service.SaveIn φ) :=
  match p.UnmarshalTime r.body.CreatedAt with
  | Except.error err => Except.error err
  | Except.ok createdAt =>
    match p.UnmarshalTime r.body.StartedAt with
    | Except.error err => Except.error err
    | Except.ok startedAt =>
      match p.UnmarshalTime r.body.FinishedAt with
      | Except.error err => Except.error err
      | Except.ok finishedAt =>
        Except.ok
          { UserID := r.userID
            WPM := r.body.WPM
            CPM := r.body.CPM
            Accuracy := r.body.Accuracy
            Duration := p.ParseMilliseconds (some r.body.DurationMs)
            Language := r.body.Language
            Mode := r.body.Mode
            SubMode := r.body.SubMode
            IsPunctuation := r.body.IsPunctuation
            UncompletedTestsCount := pointer.GetUint64 r.body.UncompletedTestsCount
            UncompletedTestsDurationMs := p.ParseMilliseconds r.body.UncompletedTestsDurationMs
            UID := r.body.UID
            Sign := r.body.Sign
            CreatedAt := createdAt
            StartedAt := startedAt
            FinishedAt := finishedAt }

def newResponseBody {φ : Type} (out : statistics_service.SaveOut φ) : ResponseBody φ :=
  ⟨out.IsPB, out.WPMShift⟩

def handleError (ctx : Ctx) (err : Error) : List Effect :=
  let status := http.StatusInternalServerError
  let message := "something went wrong serverside"
  let (status, message) :=
    if statistics_service.IsUserNotFoundError err then (http.StatusNotFound, "user not found")
    else if models.IsValidationError err then (http.StatusBadRequest, err.text)
    else if statistics_service.IsFroadError err then (http.StatusBadRequest, "froad detected")
    else if statistics_service.IsAlreadyHandledError err then
      (http.StatusConflict, "stats already handled")
    else (status, message)
  let ctx := Logger.WithError (Logger.WithStatusCode ctx status) err
  let level := if status = http.StatusInternalServerError then Level.Error else Level.Warning
  [Effect.Log level ctx, Effect.WriteError status (Message.text message)]

def Handle {σ φ : Type} (p : Imports φ) (h : Handler σ φ) (c : gin.Context) :
    List Effect × Handler σ φ :=
  let ctx := Logger.WithHandlerName c.RequestContext handlerName
  match newRequest p c with
  | Except.error err =>
    let ctx := Logger.WithStatusCode ctx http.StatusBadRequest
    ([Effect.Log Level.Warning (Logger.WithError ctx err),
      Effect.WriteError http.StatusBadRequest (Message.error err)], h)
  | Except.ok r =>
    match newSaveIn p r with
    | Except.error err =>
      let ctx := Logger.WithStatusCode ctx http.StatusBadRequest
      ([Effect.Log Level.Warning (Logger.WithError ctx err),
        Effect.WriteError http.StatusBadRequest (Message.error err)], h)
    | Except.ok i =>
      match h.statisticsSaver.Save h.statisticsSaver.state i with
      | ((_, some err), s) =>
        (Effect.Save i.UserID i.UID i.Sign :: handleError ctx err,
         ⟨⟨s, h.statisticsSaver.Save⟩⟩)
      | ((none, none), s) =>
        ([Effect.Save i.UserID i.UID i.Sign, Effect.Panic], ⟨⟨s, h.statisticsSaver.Save⟩⟩)
      | ((some saveOut, none), s) =>
        let responseBody := newResponseBody saveOut
        ([Effect.Save i.UserID i.UID i.Sign,
          Effect.WriteBody http.StatusCreated (p.Marshal responseBody)],
         ⟨⟨s, h.statisticsSaver.Save⟩⟩)

def Method : String := http.MethodPost

def Path : String := "/users/me/statistics"

def Middleware (m : middleware.Names) : List String := [m.Auth]

def New {σ φ : Type} (statisticsSaver : statisticsSaver σ φ) : Handler σ φ :=
  ⟨statisticsSaver⟩

end users_me_statistics_post_handler

/-! ## GET /users/:username/profile -/

namespace models

/-- The fields of `models.PersonalBest` that the profile handler reads; the type is
declared outside the sources at hand. -/
structure PersonalBest (φ : Type) where
  Language : String
  Mode : String
  SubMode : String
  WPM : φ
  Accuracy : φ
  PlayedAt : Nat
deriving DecidableEq, Repr

/-- The fields of `models.LanguageStats` that the profile handler reads. -/
structure LanguageStats where
  Language : String
  TestsCompleted : Nat
  TestsStarted : Nat
  TimePlayed : time.Duration
deriving DecidableEq, Repr

/-- The fields of `models.Profile` that the profile handler reads. -/
structure Profile (φ : Type) where
  Username : String
  JoinedAt : Nat
  StartedTests : Nat
  CompletedTests : Nat
  TimePlayed : time.Duration
  PersonalBests : List (PersonalBest φ)
  LanguageStats : List LanguageStats
deriving DecidableEq, Repr

end models

namespace profile_service

/-- The field of `profile_service.GetIn` as the handler fills it. -/
structure GetIn where
  Username : String
deriving DecidableEq, Repr

end profile_service

namespace users_username_profile_get_handler

def handlerName : String := "users_username_profile_get_handler"

structure Request where
  Username : String
deriving DecidableEq, Repr

structure PersonalBest (φ : Type) where
  Language : String
  Mode : String
  SubMode : String
  WPM : φ
  Accuracy : φ
  PlayedAt : String
deriving DecidableEq, Repr

structure LanguageStats where
  Language : String
  TestsCompleted : Nat
  TestsStarted : Nat
  TimePlayedMs : Int
deriving DecidableEq, Repr

structure Profile (φ : Type) where
  Username : String
  JoinedAt : String
  CompletedTests : Nat
  StartedTests : Nat
  TimePlayed : Int
  PersonalBests : List (PersonalBest φ)
  LanguageStats : List LanguageStats
deriving DecidableEq, Repr

structure ResponseBody (φ : Type) where
  Profile : Profile φ
deriving DecidableEq, Repr

/-- The interface `profileGetter`: `Get` returns the Go pair of a profile pointer and an
error, and the next state of the implementation. -/
structure profileGetter (σ φ : Type) where
  state : σ
  Get : σ → profile_service.GetIn → (Option (models.Profile φ) × Option Error) × σ

/-- The handler. Its logger is represented by the `Log` effects of `Handle`. -/
structure Handler (σ φ : Type) where
  profileGetter : profileGetter σ φ

/-- What the handler uses and the sources at hand do not hold: the method `c.Param` of gin,
`proto.MarshalTime`, and the JSON text that `c.JSON` writes for a body. They are taken as
given. -/
structure Imports (φ : Type) where
  Param : gin.Context → String → String
  MarshalTime : Nat → String
  Marshal : ResponseBody φ → String

def newRequest {φ : Type} (p : Imports φ) (c : gin.Context) : Except Error Request :=
  let username := p.Param c "username"
  if username = "" then Except.error (errors.New "username is empty")
  else Except.ok ⟨username⟩

def newLanguageStats (stats : models.LanguageStats) : LanguageStats :=
  ⟨stats.Language, stats.TestsCompleted, stats.TestsStarted, stats.TimePlayed.Milliseconds⟩

def newPersonalBest {φ : Type} (p : Imports φ) (personalBest : models.PersonalBest φ) :
    PersonalBest φ :=
  ⟨personalBest.Language, personalBest.Mode, personalBest.SubMode, personalBest.WPM,
   personalBest.Accuracy, p.MarshalTime personalBest.PlayedAt⟩

def newProfile {φ : Type} (p : Imports φ) (profile : models.Profile φ) : Profile φ :=
  let personalBests := profile.PersonalBests.map (newPersonalBest p)
  let languageStats := profile.LanguageStats.map newLanguageStats
  { Username := profile.Username
    JoinedAt := p.MarshalTime profile.JoinedAt
    StartedTests := profile.StartedTests
    CompletedTests := profile.CompletedTests
    TimePlayed := profile.TimePlayed.Milliseconds
    PersonalBests := personalBests
    LanguageStats := languageStats }

def newResponseBody {φ : Type} (p : Imports φ) (profile : models.Profile φ) :
    ResponseBody φ :=
  ⟨newProfile p profile⟩

def newProfileServiceGetIn (request : Request) : profile_service.GetIn := ⟨request.Username⟩

def handleError (ctx : Ctx) (err : Error) : List Effect :=
  let status := http.StatusInternalServerError
  let message := "something went wrong"
  let (status, message) :=
    if profile_service.IsUserNotFoundError err then (http.StatusNotFound, "user not found")
    else (status, message)
  let ctx := Logger.WithError (Logger.WithStatusCode ctx status) err
  let level := if status = http.StatusInternalServerError then Level.Error else Level.Warning
  [Effect.Log level ctx, Effect.WriteError status (Message.text message)]

/-- The method `Handle`; `newResponseBody` reads the fields of the profile, so a nil profile
without an error ends in a panic. -/
def Handle {σ φ : Type} (p : Imports φ) (h : Handler σ φ) (c : gin.Context) :
    List Effect × Handler σ φ :=
  let ctx := Logger.WithHandlerName c.RequestContext handlerName
  match newRequest p c with
  | Except.error err =>
    let ctx := Logger.WithStatusCode ctx http.StatusBadRequest
    ([Effect.Log Level.Warning (Logger.WithError ctx err),
      Effect.WriteError http.StatusBadRequest (Message.error err)], h)
  | Except.ok request =>
    let i := newProfileServiceGetIn request
    match h.profileGetter.Get h.profileGetter.state i with
    | ((_, some err), s) =>
      (Effect.ProfileGet i.Username :: handleError ctx err, ⟨⟨s, h.profileGetter.Get⟩⟩)
    | ((none, none), s) =>
      ([Effect.ProfileGet i.Username, Effect.Panic], ⟨⟨s, h.profileGetter.Get⟩⟩)
    | ((some profile, none), s) =>
      let body := newResponseBody p profile
      ([Effect.ProfileGet i.Username, Effect.JSONBody http.StatusOK (p.Marshal body)],
       ⟨⟨s, h.profileGetter.Get⟩⟩)

def Method : String := http.MethodGet

def Path : String := "/users/:username/profile"

/-- The method `Middleware` returns nil. -/
def Middleware (_ : middleware.Names) : List String := []

def New {σ φ : Type} (profileGetter : profileGetter σ φ) : Handler σ φ := ⟨profileGetter⟩

end users_username_profile_get_handler

/-! ## Examples used in the statements below -/

/-- A request without query parameters. -/
def bareRequest : gin.Context := ⟨[], [], "access", "refresh"⟩

/-- A request whose query is `password=12345`. -/
def passwordRequest : gin.Context := ⟨[], [("password", "12345")], "access", "refresh"⟩

/-- A rotation service that accepts every password. -/
def acceptingRotation : antifroad_rotate_keys_post_handler.antifroadService Unit :=
  ⟨(), fun s _ => (none, s)⟩

namespace antifroad_rotate_keys_post_handler

/-- The handler built by `New` once the store of its limiter holds `cache`. -/
def running {σ : Type} (service : antifroadService σ) (cache : memory.Cache) :
    Handler σ memory.Cache :=
  ⟨service, ⟨⟨cache, memory.Get⟩, (New service).limiter.Rate⟩⟩

/-- The context in which `Handle` logs for the request `c`. -/
def logCtx (c : gin.Context) : Ctx := Logger.WithHandlerName c.RequestContext handlerName

end antifroad_rotate_keys_post_handler

namespace antifroad_key_get_handler

/-- The context in which `Handle` logs for the request `c`. -/
def logCtx (c : gin.Context) : Ctx := Logger.WithHandlerName c.RequestContext handlerName

end antifroad_key_get_handler

/-- A key service that rejects every password with the `WrongPassword` tag. -/
def rejectingKeys : antifroad_key_get_handler.antifroadService Unit :=
  ⟨(), fun s _ => ((none, some ⟨ErrorKind.WrongPassword, "wrong password"⟩), s)⟩

/-- A key service whose store is empty: no error and no key. -/
def emptyKeys : antifroad_key_get_handler.antifroadService Unit :=
  ⟨(), fun s _ => ((none, none), s)⟩

/-- A key service that returns the key `k1` for every password. -/
def servingKeys : antifroad_key_get_handler.antifroadService Unit :=
  ⟨(), fun s _ => ((some ⟨"k1"⟩, none), s)⟩

/-- A rotation service that rejects every password with the `WrongPassword` tag. -/
def rejectingRotation : antifroad_rotate_keys_post_handler.antifroadService Unit :=
  ⟨(), fun s _ => (some ⟨ErrorKind.WrongPassword, "wrong password"⟩, s)⟩

namespace auth_refresh_post_handler

/-- The context in which `Handle` logs for the request `c`. -/
def logCtx (c : gin.Context) : Ctx := Logger.WithHandlerName c.RequestContext handlerName

end auth_refresh_post_handler

namespace auth_logout_post_handler

/-- The context in which `Handle` logs for the request `c`. -/
def logCtx (c : gin.Context) : Ctx := Logger.WithHandlerName c.RequestContext handlerName

end auth_logout_post_handler

/-- A refresher that answers every refresh token with the pair `a2`, `r2`. -/
def rotatingRefresher : auth_refresh_post_handler.refresher Unit :=
  ⟨(), fun s _ => ((some ⟨"a2", "r2"⟩, none), s)⟩

/-- A refresher that knows no session. -/
def forgetfulRefresher : auth_refresh_post_handler.refresher Unit :=
  ⟨(), fun s _ => ((none, some ⟨ErrorKind.SessionNotFound, "no session"⟩), s)⟩

/-- An OAuth layer whose `Logout` always succeeds. -/
def acceptingOAuth : auth_logout_post_handler.oauth Unit := ⟨(), fun s _ => (none, s)⟩

/-- The session service behind the logout handler, at time 10, holding the one session of
user 7 under the refresh token `refresh` and an empty blocklist; the identifier of an access
token is the token after `id-`, and every access token expires at time 60. -/
def sessionLogout : auth_logout_post_handler.authService session_service.Revocable :=
  session_service.asLogout ⟨fun token => "id-" ++ token, fun _ => 60⟩
    ⟨⟨[⟨7, "refresh", 100⟩], 10, 0⟩, []⟩

namespace users_username_availability_get_handler

/-- The context in which `Handle` logs for the request `c`. -/
def logCtx (c : gin.Context) : Ctx := Logger.WithHandlerName c.RequestContext handlerName

end users_username_availability_get_handler

/-- A request whose query is `username=ffh`, with no other datum of a caller. -/
def usernameRequest : gin.Context := ⟨[], [("username", "ffh")], "", ""⟩

/-- A limiter store that is out of order: every query fails. -/
def failingStore : limiter.Store Unit :=
  ⟨(), fun s _ _ _ => (Except.error ⟨ErrorKind.Untagged, "store is down"⟩, s)⟩

/-- The handler of GET /antifroad/key over the limiter store that is out of order. -/
def keyHandlerWithoutStore : antifroad_key_get_handler.Handler Unit Unit :=
  ⟨servingKeys, limiter.New failingStore ⟨1 * time.Minute, 1⟩⟩

/-- The handler of POST /antifroad/rotate-keys over the limiter store that is out of
order. -/
def rotateHandlerWithoutStore : antifroad_rotate_keys_post_handler.Handler Unit Unit :=
  ⟨acceptingRotation, limiter.New failingStore ⟨1 * time.Minute, 1⟩⟩

/-- An availability service whose database is down. -/
def failingAvailability : users_username_availability_get_handler.availabilityService Unit :=
  ⟨(), fun s _ => ((false, some ⟨ErrorKind.Untagged, "pq: connection refused"⟩), s)⟩

/-- An availability service for which every username is free. -/
def generousAvailability : users_username_availability_get_handler.availabilityService Unit :=
  ⟨(), fun s _ => ((true, none), s)⟩

/-- An OAuth layer whose `Logout` always fails. -/
def failingOAuth : auth_logout_post_handler.oauth Unit :=
  ⟨(), fun s _ => (some ⟨ErrorKind.Untagged, "provider is down"⟩, s)⟩

namespace app

/-- In `trace` the event `a` occurs, and no `b` occurs before the first `a`. -/
def before (a b : Event) (trace : List Event) : Bool :=
  trace.contains a && !(trace.takeWhile (fun e => e != a)).contains b

/-- A configuration with the antifraud module switched on. -/
def enabledConfig : config.Config := ⟨⟨"postgres://db", "migrations"⟩, ⟨false, 3, "1h", "pw"⟩⟩

/-- A configuration with the antifraud module switched off. -/
def disabledConfig : config.Config := ⟨⟨"postgres://db", "migrations"⟩, ⟨true, 3, "1h", "pw"⟩⟩

end app

namespace session_service

/-- The state of the session service when the clock has moved to `t`. -/
def State.atTime (s : State) (t : Nat) : State := ⟨s.sessions, t, s.issued⟩

/-- A codec for the examples: the access token names the user, the refresh tokens are
numbered. -/
def numbering : Codec := ⟨fun userID _ => "access-" ++ toString userID,
  fun issued => "refresh-" ++ toString issued⟩

/-- A store with the one session of user 7, under the refresh token `refresh`, valid
until time 100, at time 10. -/
def oneSession : State := ⟨[⟨7, "refresh", 100⟩], 10, 0⟩

end session_service

namespace antifroad_service

/-- The state after `n` successive calls of `RotateKeys` with the same password. -/
def rotateMany (cfg : config.Antifroad) (generate : Nat → String) (password : String) :
    Nat → State → State
  | 0, s => s
  | n + 1, s => rotateMany cfg generate password n (RotateKeys cfg generate s password).2

/-- A key generator for the examples: the keys are numbered. -/
def numbered (generated : Nat) : String := "key-" ++ toString generated

/-- The antifraud section of a configuration with at most three keys. -/
def threeKeys : config.Antifroad := ⟨false, 3, "1h", "pw"⟩

end antifroad_service

/-- The redirects of a run, in order: status and location. -/
def redirects : List Effect → List (Nat × String)
  | [] => []
  | Effect.Redirect status location :: rest => (status, location) :: redirects rest
  | _ :: rest => redirects rest

namespace auth_provider_callback_post_handler

/-- The context in which `Handle` logs for the request `c`. -/
def logCtx (c : gin.Context) : Ctx := Logger.WithHandlerName c.RequestContext handlerName

/-- Imports for the examples: the provider is `google`, and a URL without `?` and `#` is
parsed as it stands. -/
def plainImports : Imports := ⟨fun _ => Except.ok ⟨"google"⟩, fun raw => Except.ok ⟨raw, "", ""⟩⟩

/-- An OAuth manager that completes every request with the same user. -/
def completing : oauthManager Unit :=
  ⟨(), fun s _ provider => ((some ⟨"u1", "user@example.org", provider⟩, none), s)⟩

/-- An OAuth manager for which the provider has refused the request. -/
def refusing : oauthManager Unit :=
  ⟨(), fun s _ _ => ((none, some ⟨ErrorKind.Untagged, "access denied"⟩), s)⟩

/-- An auth service that answers with a registration. -/
def registering : authService Unit :=
  ⟨(), fun s _ => ((some ⟨some "reg-1", none, none, true, false⟩, none), s)⟩

/-- An auth service that answers with a login. -/
def loggingIn : authService Unit :=
  ⟨(), fun s _ => ((some ⟨none, some "a-1", some "r-1", false, true⟩, none), s)⟩

/-- An auth service for which the email belongs to another account. -/
def emailTaken : authService Unit :=
  ⟨(), fun s _ => ((none, some ⟨ErrorKind.EmailAlreadyTaken, "email is taken"⟩), s)⟩

/-- The handler of the examples over an auth service and an OAuth manager. -/
def example_handler {σ ω : Type} (svc : authService σ) (om : oauthManager ω) : Handler σ ω :=
  New svc om "https://front.example/home" "https://front.example/register"
    "https://front.example/error"

/-- Imports whose `Parse` does the first step of `url.Parse` of the Go library: a URL that
holds an ASCII control character is rejected ("net/url: invalid control character in URL");
every other URL is parsed as by `plainImports`. -/
def strictImports : Imports :=
  ⟨fun _ => Except.ok ⟨"google"⟩, fun raw =>
    if raw.data.any (fun ch => ch.toNat < 32 || ch.toNat == 127) then
      Except.error ⟨ErrorKind.Untagged, "net/url: invalid control character in URL"⟩
    else Except.ok ⟨raw, "", ""⟩⟩

/-- A handler whose error URL was configured with a line feed at its end. -/
def misconfigured {σ ω : Type} (svc : authService σ) (om : oauthManager ω) : Handler σ ω :=
  New svc om "https://front.example/home" "https://front.example/register"
    "https://front.example/error\n"

end auth_provider_callback_post_handler

namespace config

/-- An environment for the examples: `A` is set to `1`, nothing else is set. -/
def onlyA (name : String) : Option String := if name = "A" then some "1" else none

end config

namespace models

/-- A test of one second and a half, played by hand: the duration is in nanoseconds. -/
def Statistics.sample : Statistics Nat :=
  { ID := 1
    WPM := 42
    CPM := 210
    Accuracy := 98
    Duration := 1500000000
    PlayedAt := 0
    Language := "english"
    Mode := "time"
    SubMode := "30s"
    IsPunctuation := true
    UncompletedTestsCount := 0
    UncompletedTestsTotalDuration := 0 }

end models

namespace users_me_username_patch_handler

/-- The context in which `Handle` logs for the request `c`. -/
def logCtx (c : gin.Context) : Ctx := Logger.WithHandlerName c.RequestContext handlerName

/-- Imports for the examples: every body asks for the username `ffh255`, and the caller is
the user 7. -/
def plainImports : Imports := ⟨fun _ => Except.ok ⟨"ffh255"⟩, fun _ => 7⟩

/-- A user service that refuses every change with the error `err`. -/
def refusing (err : Error) : userService Unit := ⟨(), fun s _ _ => (some err, s)⟩

end users_me_username_patch_handler

namespace auth_register_post_handler

/-- The context in which `Handle` logs for the request `c`. -/
def logCtx (c : gin.Context) : Ctx := Logger.WithHandlerName c.RequestContext handlerName

/-- Imports for the examples: every body holds the nickname `ffh255`, and the registration
token of the caller is `reg`. -/
def plainImports : Imports := ⟨fun _ => Except.ok ⟨"ffh255"⟩, fun _ => "reg"⟩

/-- Imports under which no body is readable. -/
def unreadableImports : Imports :=
  ⟨fun _ => Except.error ⟨ErrorKind.Untagged, "unexpected end of JSON input"⟩, fun _ => "reg"⟩

/-- An auth service that registers every caller and hands out the tokens `a1` and `r1`. -/
def registering : authService Unit := ⟨(), fun s _ => ((some ⟨"a1", "r1"⟩, none), s)⟩

/-- An auth service that refuses every registration with the error `err`. -/
def refusing (err : Error) : authService Unit := ⟨(), fun s _ => ((none, some err), s)⟩

end auth_register_post_handler

/-- The answer to an unexpected failure: a record at error level that carries the status
500 and the error, then the status 500 with a fixed message. -/
def internalFailure (ctx : Ctx) (err : Error) (message : String) : List Effect :=
  [Effect.Log Level.Error (ctx ++ [Field.StatusCode 500] ++ [Field.Err err]),
   Effect.WriteError 500 (Message.text message)]

namespace auth_provider_get_handler

/-- The context in which `Handle` logs for the request `c`. -/
def logCtx (c : gin.Context) : Ctx := Logger.WithHandlerName c.RequestContext handlerName

end auth_provider_get_handler

namespace users_me_get_handler

/-- The context in which `Handle` logs for the request `c`. -/
def logCtx (c : gin.Context) : Ctx := Logger.WithHandlerName c.RequestContext handlerName

/-- Imports for the examples: the caller is the user 7, a time is written as its number,
and a body as the email of its user. -/
def plainImports : Imports := ⟨fun _ => 7, fun t => toString t, fun body => body.User.Email⟩

/-- A user service whose database is down. -/
def failing : userService Unit :=
  ⟨(), fun s _ => ((none, some ⟨ErrorKind.Untagged, "pq: connection refused"⟩), s)⟩

end users_me_get_handler

namespace users_me_statistics_delete_handler

/-- The context in which `Handle` logs for the request `c`. -/
def logCtx (c : gin.Context) : Ctx := Logger.WithHandlerName c.RequestContext handlerName

/-- Imports for the examples: the caller is the user 7. -/
def plainImports : Imports := ⟨fun _ => 7⟩

/-- A statistics service whose database is down. -/
def failing : statisticsService Unit :=
  ⟨(), fun s _ => (some ⟨ErrorKind.Untagged, "pq: connection refused"⟩, s)⟩

end users_me_statistics_delete_handler

namespace users_me_statistics_get_handler

/-- The context in which `Handle` logs for the request `c`. -/
def logCtx (c : gin.Context) : Ctx := Logger.WithHandlerName c.RequestContext handlerName

end users_me_statistics_get_handler

namespace users_me_statistics_post_handler

/-- The context in which `Handle` logs for the request `c`. -/
def logCtx (c : gin.Context) : Ctx := Logger.WithHandlerName c.RequestContext handlerName

end users_me_statistics_post_handler

namespace users_username_profile_get_handler

/-- The context in which `Handle` logs for the request `c`. -/
def logCtx (c : gin.Context) : Ctx := Logger.WithHandlerName c.RequestContext handlerName

/-- Imports for the examples: the username of every request is `ffh`, a time is written as
its number, and a body as the username of its profile. -/
def plainImports : Imports Nat :=
  ⟨fun _ _ => "ffh", fun t => toString t, fun body => body.Profile.Username⟩

/-- A profile service whose database is down. -/
def failing : profileGetter Unit Nat :=
  ⟨(), fun s _ => ((none, some ⟨ErrorKind.Untagged, "pq: connection refused"⟩), s)⟩

end users_username_profile_get_handler

/-! ## Properties -/

section RateLimiter

open antifroad_rotate_keys_post_handler

/-- A key without an open window is let through by the in-memory store, which opens a
window of one period for it. -/
theorem memory_Get_closed (cache : memory.Cache) (now : Nat) (key : String) (period : Nat)
    (hclosed : ∀ counter, cache key = some counter → counter.Expiration < now) :
    (memory.Get cache now key ⟨period, 1⟩).1 = Except.ok ⟨1, 0, now + period, false⟩ ∧
    (memory.Get cache now key ⟨period, 1⟩).2 key = some ⟨1, now + period⟩ := by
  cases hc : cache key with
  | none => simp [memory.Get, memory.Increment, memory.GetContextFromState, hc]
  | some old =>
    have hlt : ¬ now < old.Expiration := Nat.not_lt.mpr (Nat.le_of_lt (hclosed old hc))
    simp [memory.Get, memory.Increment, memory.GetContextFromState, hc, hlt]

/-- While the window of a key is open and its limit of one is used up, the in-memory
store reports the limit as reached and keeps the expiry of the window. -/
theorem memory_Get_open (cache : memory.Cache) (now : Nat) (key : String) (period : Nat)
    (old : memory.Counter) (hc : cache key = some old) (hpos : 1 ≤ old.Value)
    (hopen : now < old.Expiration) :
    (∃ lctx, (memory.Get cache now key ⟨period, 1⟩).1 = Except.ok lctx ∧ lctx.Reached = true) ∧
    (memory.Get cache now key ⟨period, 1⟩).2 key = some ⟨old.Value + 1, old.Expiration⟩ := by
  have hgt : ¬ old.Value + 1 ≤ 1 := by omega
  simp [memory.Get, memory.Increment, memory.GetContextFromState, hc, hopen, hgt]

end RateLimiter

section RotateKeys

open antifroad_rotate_keys_post_handler

theorem rotate_handleError_eq (ctx : Ctx) (err : Error) :
    antifroad_rotate_keys_post_handler.handleError ctx err =
      if antifroad_service.IsWrongPasswordError err = true then
        [Effect.Log Level.Error (ctx ++ [Field.StatusCode 401] ++ [Field.Err err]),
         Effect.WriteError 401 (Message.text err.text)]
      else
        [Effect.Log Level.Error (ctx ++ [Field.StatusCode 500] ++ [Field.Err err]),
         Effect.WriteError 500 (Message.text "something went wrong")] := by
  unfold antifroad_rotate_keys_post_handler.handleError
  split <;> simp_all [Logger.WithStatusCode, Logger.WithError, http.StatusUnauthorized,
    http.StatusInternalServerError]

theorem rotate_serve_calls {σ : Type} (svc : antifroadService σ) (ctx : Ctx) (c : gin.Context) :
    rotateKeysCalls (serve svc ctx c).1 =
      if c.Query "password" = "" then [] else [c.Query "password"] := by
  unfold serve newRequest
  by_cases hp : c.Query "password" = ""
  · simp [hp, rotateKeysCalls]
  · simp only [hp, if_false]
    rcases hr : svc.RotateKeys svc.state (c.Query "password") with ⟨_ | err, s⟩
    · simp [rotateKeysCalls]
    · simp only [rotate_handleError_eq]
      split <;> simp [rotateKeysCalls]

theorem rotate_serve_empty {σ : Type} (svc : antifroadService σ) (ctx : Ctx) (c : gin.Context)
    (hp : c.Query "password" = "") :
    serve svc ctx c =
      ([Effect.Log Level.Warning (ctx ++ [Field.Err (fmt.Errorf "password can not be empty")]),
        Effect.WriteError 400 (Message.error (fmt.Errorf "password can not be empty"))], svc) := by
  simp [serve, newRequest, hp, Logger.WithError, http.StatusBadRequest]

theorem rotate_Handle_pass {σ τ : Type} (h : Handler σ τ) (now : Nat) (c : gin.Context)
    (lctx : limiter.Context) (hl : (h.limiter.Get now handlerName).1 = Except.ok lctx)
    (hr : lctx.Reached = false) :
    Handle h now c = ((serve h.antifroadService (logCtx c) c).1,
      ⟨(serve h.antifroadService (logCtx c) c).2, (h.limiter.Get now handlerName).2⟩) := by
  unfold Handle
  rcases hg : h.limiter.Get now handlerName with ⟨res, l⟩
  rw [hg] at hl
  simp only at hl
  subst hl
  simp [hr, logCtx]

theorem rotate_Handle_reached {σ τ : Type} (h : Handler σ τ) (now : Nat) (c : gin.Context)
    (lctx : limiter.Context) (hl : (h.limiter.Get now handlerName).1 = Except.ok lctx)
    (hr : lctx.Reached = true) :
    Handle h now c =
      ([Effect.Log Level.Warning (logCtx c ++ [Field.StatusCode 429]),
        Effect.WriteError 429 (Message.text "too many requests")],
       ⟨h.antifroadService, (h.limiter.Get now handlerName).2⟩) := by
  unfold Handle
  rcases hg : h.limiter.Get now handlerName with ⟨res, l⟩
  rw [hg] at hl
  simp only at hl
  subst hl
  simp [hr, logCtx, Logger.WithStatusCode, http.StatusTooManyRequests]

/-- The handler built by `New` is the running handler whose store is still empty. -/
theorem New_eq_running {σ : Type} (svc : antifroadService σ) :
    New svc = running svc (fun _ => none) := rfl

theorem running_limiter_Get {σ : Type} (svc : antifroadService σ) (cache : memory.Cache)
    (now : Nat) :
    (running svc cache).limiter.Get now handlerName =
      ((memory.Get cache now handlerName ⟨time.Minute, 1⟩).1,
       (running svc (memory.Get cache now handlerName ⟨time.Minute, 1⟩).2).limiter) := by
  simp [running, limiter.Limiter.Get, New, limiter.New]

theorem running_Handle_closed {σ : Type} (svc : antifroadService σ) (cache : memory.Cache)
    (now : Nat) (c : gin.Context)
    (hclosed : ∀ counter, cache handlerName = some counter → counter.Expiration < now) :
    Handle (running svc cache) now c =
      ((serve svc (logCtx c) c).1,
       running (serve svc (logCtx c) c).2
         (memory.Get cache now handlerName ⟨time.Minute, 1⟩).2) := by
  have hg := memory_Get_closed cache now handlerName time.Minute hclosed
  rw [rotate_Handle_pass (running svc cache) now c _
    (by rw [running_limiter_Get]; exact hg.1) rfl, running_limiter_Get]
  rfl

theorem running_Handle_open {σ : Type} (svc : antifroadService σ) (cache : memory.Cache)
    (now : Nat) (c : gin.Context) (old : memory.Counter)
    (hc : cache handlerName = some old) (hpos : 1 ≤ old.Value) (hopen : now < old.Expiration) :
    Handle (running svc cache) now c =
      ([Effect.Log Level.Warning (logCtx c ++ [Field.StatusCode 429]),
        Effect.WriteError 429 (Message.text "too many requests")],
       running svc (memory.Get cache now handlerName ⟨time.Minute, 1⟩).2) := by
  obtain ⟨⟨lctx, hl, hr⟩, _⟩ := memory_Get_open cache now handlerName time.Minute old hc hpos hopen
  rw [rotate_Handle_reached (running svc cache) now c lctx
    (by rw [running_limiter_Get]; exact hl) hr, running_limiter_Get]
  rfl

end RotateKeys

section ClaimC1

open antifroad_rotate_keys_post_handler

/-- C1, the claim as stated fails: on the handler built by `New`, a first request without
a password is let through by the limiter but is answered 400 and never passed on to
`RotateKeys`; the request with a password that follows it one nanosecond later finds the
window used up and is answered 429. -/
theorem rotate_keys_first_request_without_password :
    rotateKeysCalls (Handle (New acceptingRotation) 0 bareRequest).1 = [] ∧
    statuses (Handle (New acceptingRotation) 0 bareRequest).1 = [400] ∧
    statuses (Handle (Handle (New acceptingRotation) 0 bareRequest).2 1 passwordRequest).1
      = [429] := by
  decide

/-- C1, amended: take the rotate-keys handler with the limiter built by `New` (one request
per minute) at a moment `t1` when no window is open. A request at `t1` is let through by
the limiter, and it is passed on to `RotateKeys`, with its password, exactly when that
password is not empty (with an empty password it is answered 400). A second request at `t2` within the minute is answered 429
"too many requests" with a warning and without calling `RotateKeys`. A request at `t3`,
after the window has elapsed, is let through again and passed on to `RotateKeys` when its
password is not empty. -/
theorem rotate_keys_rate_limit_window {σ : Type} (svc : antifroadService σ)
    (cache : memory.Cache) (t1 t2 t3 : Nat) (c1 c2 c3 : gin.Context)
    (hclosed : ∀ counter, cache handlerName = some counter → counter.Expiration < t1)
    (hwin : t2 < t1 + time.Minute) (hafter : t1 + time.Minute < t3) :
    (Handle (running svc cache) t1 c1).1 = (serve svc (logCtx c1) c1).1 ∧
    rotateKeysCalls (Handle (running svc cache) t1 c1).1 =
      (if c1.Query "password" = "" then [] else [c1.Query "password"]) ∧
    (c1.Query "password" = "" → statuses (Handle (running svc cache) t1 c1).1 = [400]) ∧
    (Handle (Handle (running svc cache) t1 c1).2 t2 c2).1 =
      [Effect.Log Level.Warning (logCtx c2 ++ [Field.StatusCode 429]),
       Effect.WriteError 429 (Message.text "too many requests")] ∧
    rotateKeysCalls (Handle (Handle (running svc cache) t1 c1).2 t2 c2).1 = [] ∧
    (Handle (Handle (Handle (running svc cache) t1 c1).2 t2 c2).2 t3 c3).1 =
      (serve (Handle (running svc cache) t1 c1).2.antifroadService (logCtx c3) c3).1 ∧
    rotateKeysCalls (Handle (Handle (Handle (running svc cache) t1 c1).2 t2 c2).2 t3 c3).1 =
      (if c3.Query "password" = "" then [] else [c3.Query "password"]) := by
  have e1 := running_Handle_closed svc cache t1 c1 hclosed
  have k1 := (memory_Get_closed cache t1 handlerName time.Minute hclosed).2
  have e2 := running_Handle_open (serve svc (logCtx c1) c1).2 _ t2 c2 _ k1 (Nat.le_refl 1) hwin
  have k2 := (memory_Get_open _ t2 handlerName time.Minute _ k1 (Nat.le_refl 1) hwin).2
  have e3 := running_Handle_closed (serve svc (logCtx c1) c1).2
    (memory.Get (memory.Get cache t1 handlerName ⟨time.Minute, 1⟩).2 t2 handlerName
      ⟨time.Minute, 1⟩).2 t3 c3
    (fun counter hc => by
      rw [k2] at hc
      cases hc
      exact hafter)
  rw [e1]
  simp only
  rw [e2]
  simp only
  rw [e3]
  simp only [rotate_serve_calls]
  refine ⟨trivial, trivial, fun hp => ?_, trivial, ?_, ?_, trivial⟩
  · rw [rotate_serve_empty svc (logCtx c1) c1 hp]
    rfl
  · rfl
  · rfl

/-- C1, the amended statement at an instance: the handler just built by `New`, with
requests at 0, half a minute and two minutes. -/
theorem rotate_keys_rate_limit_window_witness :
    rotateKeysCalls (Handle (New acceptingRotation) 0 passwordRequest).1 = ["12345"] ∧
    (Handle (Handle (New acceptingRotation) 0 passwordRequest).2
        30000000000 passwordRequest).1 =
      [Effect.Log Level.Warning (logCtx passwordRequest ++ [Field.StatusCode 429]),
       Effect.WriteError 429 (Message.text "too many requests")] ∧
    rotateKeysCalls (Handle (Handle (Handle (New acceptingRotation) 0 passwordRequest).2
        30000000000 passwordRequest).2 120000000000 passwordRequest).1 = ["12345"] :=
  have h := rotate_keys_rate_limit_window acceptingRotation (fun _ => none)
    0 30000000000 120000000000 passwordRequest passwordRequest passwordRequest
    (by intro counter hc; cases hc) (by decide) (by decide)
  ⟨h.2.1, h.2.2.2.1, h.2.2.2.2.2.2⟩

end ClaimC1

section KeyGet

open antifroad_key_get_handler

theorem key_handleError_eq (ctx : Ctx) (err : Error) :
    antifroad_key_get_handler.handleError ctx err =
      if antifroad_service.IsWrongPasswordError err = true then
        [Effect.Log Level.Error (ctx ++ [Field.StatusCode 401] ++ [Field.Err err]),
         Effect.WriteError 401 (Message.text err.text)]
      else
        [Effect.Log Level.Error (ctx ++ [Field.StatusCode 500] ++ [Field.Err err]),
         Effect.WriteError 500 (Message.text "something went wrong")] := by
  unfold antifroad_key_get_handler.handleError
  split <;> simp_all [Logger.WithStatusCode, Logger.WithError, http.StatusUnauthorized,
    http.StatusInternalServerError]

/-- The effects of `Handle`, by the answer of the limiter. -/
theorem key_Handle_trace {σ τ : Type} (h : Handler σ τ) (now : Nat) (c : gin.Context) :
    (Handle h now c).1 =
      match (h.limiter.Get now handlerName).1 with
      | Except.error err =>
        [Effect.Log Level.Error (logCtx c ++ [Field.Err err]),
         Effect.WriteError 400 (Message.error err)]
      | Except.ok lctx =>
        if lctx.Reached = true then
          [Effect.Log Level.Warning (logCtx c ++ [Field.StatusCode 429]),
           Effect.WriteError 429 (Message.text "too many requests")]
        else (serve h.antifroadService (logCtx c) c).1 := by
  unfold Handle
  rcases hg : h.limiter.Get now handlerName with ⟨err | lctx, l⟩
  · simp [logCtx, Logger.WithError, http.StatusBadRequest]
  · by_cases hr : lctx.Reached = true <;>
      simp [hr, logCtx, Logger.WithStatusCode, http.StatusTooManyRequests]

/-- The effects of the part of `Handle` behind the limiter, by the password and the answer
of the service. -/
theorem key_serve_trace {σ : Type} (svc : antifroadService σ) (ctx : Ctx) (c : gin.Context) :
    (serve svc ctx c).1 =
      if c.Query "password" = "" then
        [Effect.Log Level.Warning (ctx ++ [Field.Err (fmt.Errorf "password can not be empty")]),
         Effect.WriteError 400 (Message.error (fmt.Errorf "password can not be empty"))]
      else
        match (svc.GetKey svc.state (c.Query "password")).1 with
        | (_, some err) => Effect.GetKey (c.Query "password") :: handleError ctx err
        | (none, none) =>
          [Effect.GetKey (c.Query "password"),
           Effect.Log Level.Error (ctx ++ [Field.Msg "antifroad key not found"]),
           Effect.WriteError 404 (Message.text "key not found")]
        | (some key, none) =>
          if key.Value = "" then
            [Effect.GetKey (c.Query "password"),
             Effect.Log Level.Error (ctx ++ [Field.Msg "antifroad key not found"]),
             Effect.WriteError 404 (Message.text "key not found")]
          else [Effect.GetKey (c.Query "password"), Effect.WriteJSON 200 key.Value] := by
  unfold serve newRequest
  by_cases hp : c.Query "password" = ""
  · simp [hp, Logger.WithError, http.StatusBadRequest]
  · simp only [hp, if_false]
    rcases hr : svc.GetKey svc.state (c.Query "password") with ⟨⟨_ | key, _ | err⟩, s⟩
    · simp [Logger.WithMsg, http.StatusNotFound]
    · simp
    · by_cases hv : key.Value = "" <;>
        simp [hv, Logger.WithMsg, http.StatusNotFound, http.StatusOK, newResponseBody]
    · simp

/-- The state in which `Handle` leaves the service, by the answer of the limiter. -/
theorem key_Handle_state {σ τ : Type} (h : Handler σ τ) (now : Nat) (c : gin.Context) :
    (Handle h now c).2.antifroadService.state =
      match (h.limiter.Get now handlerName).1 with
      | Except.error _ => h.antifroadService.state
      | Except.ok lctx =>
        if lctx.Reached = true then h.antifroadService.state
        else if c.Query "password" = "" then h.antifroadService.state
        else (h.antifroadService.GetKey h.antifroadService.state (c.Query "password")).2 := by
  unfold Handle
  rcases hg : h.limiter.Get now handlerName with ⟨err | lctx, l⟩
  · simp
  · by_cases hr : lctx.Reached = true
    · simp [hr]
    · simp only [hr, if_false]
      unfold serve newRequest
      by_cases hp : c.Query "password" = ""
      · simp [hp]
      · simp only [hp, if_false]
        rcases hs : h.antifroadService.GetKey h.antifroadService.state (c.Query "password")
          with ⟨⟨_ | key, _ | err⟩, s⟩
        · simp
        · simp
        · by_cases hv : key.Value = "" <;> simp [hv]
        · simp

theorem key_Handle_limiter {σ τ : Type} (h : Handler σ τ) (now : Nat) (c : gin.Context) :
    (Handle h now c).2.limiter = (h.limiter.Get now handlerName).2 := by
  unfold Handle
  rcases hg : h.limiter.Get now handlerName with ⟨err | lctx, l⟩
  · simp
  · by_cases hr : lctx.Reached = true <;> simp [hr]

end KeyGet

section RotateKeysTrace

open antifroad_rotate_keys_post_handler

/-- The effects of `Handle`, by the answer of the limiter. -/
theorem rotate_Handle_trace {σ τ : Type} (h : Handler σ τ) (now : Nat) (c : gin.Context) :
    (Handle h now c).1 =
      match (h.limiter.Get now handlerName).1 with
      | Except.error err =>
        [Effect.Log Level.Error (logCtx c ++ [Field.Err err]),
         Effect.WriteError 400 (Message.error err)]
      | Except.ok lctx =>
        if lctx.Reached = true then
          [Effect.Log Level.Warning (logCtx c ++ [Field.StatusCode 429]),
           Effect.WriteError 429 (Message.text "too many requests")]
        else (serve h.antifroadService (logCtx c) c).1 := by
  unfold Handle
  rcases hg : h.limiter.Get now handlerName with ⟨err | lctx, l⟩
  · simp [logCtx, Logger.WithError, http.StatusBadRequest]
  · by_cases hr : lctx.Reached = true <;>
      simp [hr, logCtx, Logger.WithStatusCode, http.StatusTooManyRequests]

/-- The effects of the part of `Handle` behind the limiter, by the password and the answer
of the service. -/
theorem rotate_serve_trace {σ : Type} (svc : antifroadService σ) (ctx : Ctx)
    (c : gin.Context) :
    (serve svc ctx c).1 =
      if c.Query "password" = "" then
        [Effect.Log Level.Warning (ctx ++ [Field.Err (fmt.Errorf "password can not be empty")]),
         Effect.WriteError 400 (Message.error (fmt.Errorf "password can not be empty"))]
      else
        match (svc.RotateKeys svc.state (c.Query "password")).1 with
        | some err => Effect.RotateKeys (c.Query "password") :: handleError ctx err
        | none => [Effect.RotateKeys (c.Query "password")] := by
  unfold serve newRequest
  by_cases hp : c.Query "password" = ""
  · simp [hp, Logger.WithError, http.StatusBadRequest]
  · simp only [hp, if_false]
    rcases hr : svc.RotateKeys svc.state (c.Query "password") with ⟨_ | err, s⟩ <;> simp

/-- The state in which `Handle` leaves the service, by the answer of the limiter. -/
theorem rotate_Handle_state {σ τ : Type} (h : Handler σ τ) (now : Nat) (c : gin.Context) :
    (Handle h now c).2.antifroadService.state =
      match (h.limiter.Get now handlerName).1 with
      | Except.error _ => h.antifroadService.state
      | Except.ok lctx =>
        if lctx.Reached = true then h.antifroadService.state
        else if c.Query "password" = "" then h.antifroadService.state
        else (h.antifroadService.RotateKeys h.antifroadService.state (c.Query "password")).2 := by
  unfold Handle
  rcases hg : h.limiter.Get now handlerName with ⟨err | lctx, l⟩
  · simp
  · by_cases hr : lctx.Reached = true
    · simp [hr]
    · simp only [hr, if_false]
      unfold serve newRequest
      by_cases hp : c.Query "password" = ""
      · simp [hp]
      · simp only [hp, if_false]
        rcases hs : h.antifroadService.RotateKeys h.antifroadService.state (c.Query "password")
          with ⟨_ | err, s⟩ <;> simp

theorem rotate_Handle_limiter {σ τ : Type} (h : Handler σ τ) (now : Nat) (c : gin.Context) :
    (Handle h now c).2.limiter = (h.limiter.Get now handlerName).2 := by
  unfold Handle
  rcases hg : h.limiter.Get now handlerName with ⟨err | lctx, l⟩
  · simp
  · by_cases hr : lctx.Reached = true <;> simp [hr]

end RotateKeysTrace

/-- The value `c.Query(key)` is empty exactly when the parameter is absent or its first
value is empty. -/
theorem Query_eq_empty (c : gin.Context) (key : String) :
    c.Query key = "" ↔ (c.query.lookup key = none ∨ c.query.lookup key = some "") := by
  unfold gin.Context.Query
  cases c.query.lookup key <;> simp

section ClaimC2

open antifroad_key_get_handler

/-- C2: when the service behind GET /antifroad/key answers the password of the request
with an error, the handler writes exactly one response, an error status, and no
`ResponseBody`, so no key; and when `GetKey` has been called, the effects are the call
followed by `handleError`, whose status is 401 for a `WrongPassword` error (500 for any
other error). -/
theorem key_get_service_error {σ τ : Type} (h : Handler σ τ) (now : Nat) (c : gin.Context)
    (key : Option models.AntifroadKey) (err : Error)
    (hsvc : (h.antifroadService.GetKey h.antifroadService.state (c.Query "password")).1
      = (key, some err)) :
    keysWritten (Handle h now c).1 = [] ∧
    (∀ status k, Effect.WriteJSON status k ∉ (Handle h now c).1) ∧
    (∃ status, statuses (Handle h now c).1 = [status] ∧ 400 ≤ status) ∧
    (getKeyCalls (Handle h now c).1 ≠ [] →
      (Handle h now c).1 = Effect.GetKey (c.Query "password") :: handleError (logCtx c) err ∧
      statuses (Handle h now c).1 =
        [if antifroad_service.IsWrongPasswordError err = true then 401 else 500]) := by
  rw [key_Handle_trace, key_serve_trace, hsvc]
  rcases (h.limiter.Get now handlerName).1 with lerr | lctx
  · simp [keysWritten, statuses, getKeyCalls]
  · by_cases hr : lctx.Reached = true
    · simp [hr, keysWritten, statuses, getKeyCalls]
    · by_cases hp : c.Query "password" = ""
      · simp [hr, hp, keysWritten, statuses, getKeyCalls]
      · by_cases hw : antifroad_service.IsWrongPasswordError err = true <;>
          simp [hr, hp, hw, key_handleError_eq, keysWritten, statuses, getKeyCalls]

/-- C2 at an instance: a key service that rejects every password, asked with `12345`. -/
theorem key_get_service_error_witness :
    keysWritten (Handle (New rejectingKeys) 0 passwordRequest).1 = [] ∧
    statuses (Handle (New rejectingKeys) 0 passwordRequest).1 = [401] :=
  have h := key_get_service_error (New rejectingKeys) 0 passwordRequest none
    ⟨ErrorKind.WrongPassword, "wrong password"⟩ rfl
  ⟨h.1, (h.2.2.2 (by decide)).2⟩

end ClaimC2

section ClaimC3

open antifroad_key_get_handler

/-- C3: when the service behind GET /antifroad/key is called and returns no error but a
nil key or a key with an empty `Value`, the handler logs "antifroad key not found" at
error level and responds 404 "key not found"; and every `ResponseBody` the handler writes
has status 200 and carries a non-empty key that is exactly the `Value` of the key the
service returned, without error, for the password of the request. -/
theorem key_get_missing_key {σ τ : Type} (h : Handler σ τ) (now : Nat) (c : gin.Context) :
    (∀ key : Option models.AntifroadKey,
      (h.antifroadService.GetKey h.antifroadService.state (c.Query "password")).1
        = (key, none) →
      (key = none ∨ ∃ k, key = some k ∧ k.Value = "") →
      getKeyCalls (Handle h now c).1 ≠ [] →
      (Handle h now c).1 =
        [Effect.GetKey (c.Query "password"),
         Effect.Log Level.Error (logCtx c ++ [Field.Msg "antifroad key not found"]),
         Effect.WriteError 404 (Message.text "key not found")]) ∧
    (∀ status value, Effect.WriteJSON status value ∈ (Handle h now c).1 →
      status = 200 ∧ value ≠ "" ∧ (Handle h now c).1 =
        [Effect.GetKey (c.Query "password"), Effect.WriteJSON 200 value] ∧
      ∃ key : models.AntifroadKey, key.Value = value ∧
        (h.antifroadService.GetKey h.antifroadService.state (c.Query "password")).1
          = (some key, none)) := by
  rw [key_Handle_trace, key_serve_trace]
  rcases (h.limiter.Get now handlerName).1 with lerr | lctx
  · simp [getKeyCalls]
  · by_cases hr : lctx.Reached = true
    · simp [hr, getKeyCalls]
    · by_cases hp : c.Query "password" = ""
      · simp [hr, hp, getKeyCalls]
      · simp only [hr, hp, if_false]
        rcases hs : (h.antifroadService.GetKey h.antifroadService.state (c.Query "password")).1
          with ⟨_ | key, _ | err⟩
        · simp
        · by_cases hw : antifroad_service.IsWrongPasswordError err = true <;>
            simp [hw, key_handleError_eq]
        · by_cases hv : key.Value = ""
          · simp [hv]
          · refine ⟨?_, ?_⟩
            · intro key2 hk hnil _
              rcases hnil with hnil | ⟨k, hk2, hkv⟩
              · simp [hnil] at hk
              · simp only [hk2, Prod.mk.injEq, Option.some.injEq, and_true] at hk
                exact absurd (hk ▸ hkv) hv
            · intro status value hmem
              simp only [hv, if_false, List.mem_cons, List.mem_singleton, Effect.WriteJSON.injEq,
                reduceCtorEq, false_or, List.mem_nil_iff, or_false] at hmem
              obtain ⟨rfl, rfl⟩ := hmem
              simp [hv]
        · by_cases hw : antifroad_service.IsWrongPasswordError err = true <;>
            simp [hw, key_handleError_eq]

/-- C3 at an instance: a key service with an empty store answers 404, one that holds the
key `k1` answers 200 with `k1`. -/
theorem key_get_missing_key_witness :
    (Handle (New emptyKeys) 0 passwordRequest).1 =
      [Effect.GetKey "12345",
       Effect.Log Level.Error (logCtx passwordRequest ++ [Field.Msg "antifroad key not found"]),
       Effect.WriteError 404 (Message.text "key not found")] ∧
    (Handle (New servingKeys) 0 passwordRequest).1 =
      [Effect.GetKey "12345", Effect.WriteJSON 200 "k1"] :=
  ⟨(key_get_missing_key (New emptyKeys) 0 passwordRequest).1 none rfl (Or.inl rfl)
      (by decide),
   ((key_get_missing_key (New servingKeys) 0 passwordRequest).2 200 "k1" (by decide)).2.2.1⟩

end ClaimC3

section ClaimC4

/-- C4: in both antifraud handlers `newRequest` fails exactly when the `password` query
parameter is absent or empty. A request that the rate limiter lets through with an empty
password is answered with a warning and status 400 and the service is not called (no call
among the effects, its state unchanged); one that the limiter lets through with a
non-empty password makes exactly one call of the service, with exactly that password. -/
theorem antifraud_password_validation {σ τ σ2 τ2 : Type}
    (hk : antifroad_key_get_handler.Handler σ τ)
    (hr : antifroad_rotate_keys_post_handler.Handler σ2 τ2)
    (now : Nat) (c : gin.Context) :
    ((∃ err, antifroad_key_get_handler.newRequest c = Except.error err) ↔
      (c.query.lookup "password" = none ∨ c.query.lookup "password" = some "")) ∧
    ((∃ err, antifroad_rotate_keys_post_handler.newRequest c = Except.error err) ↔
      (c.query.lookup "password" = none ∨ c.query.lookup "password" = some "")) ∧
    (c.Query "password" ≠ "" →
      antifroad_key_get_handler.newRequest c = Except.ok ⟨c.Query "password"⟩ ∧
      antifroad_rotate_keys_post_handler.newRequest c = Except.ok ⟨c.Query "password"⟩) ∧
    (∀ lctx, (hk.limiter.Get now antifroad_key_get_handler.handlerName).1 = Except.ok lctx →
      lctx.Reached = false →
      (c.Query "password" = "" →
        statuses (antifroad_key_get_handler.Handle hk now c).1 = [400] ∧
        levels (antifroad_key_get_handler.Handle hk now c).1 = [Level.Warning] ∧
        getKeyCalls (antifroad_key_get_handler.Handle hk now c).1 = [] ∧
        (antifroad_key_get_handler.Handle hk now c).2.antifroadService.state
          = hk.antifroadService.state) ∧
      (c.Query "password" ≠ "" →
        getKeyCalls (antifroad_key_get_handler.Handle hk now c).1 = [c.Query "password"] ∧
        (antifroad_key_get_handler.Handle hk now c).2.antifroadService.state
          = (hk.antifroadService.GetKey hk.antifroadService.state (c.Query "password")).2)) ∧
    (∀ lctx,
      (hr.limiter.Get now antifroad_rotate_keys_post_handler.handlerName).1 = Except.ok lctx →
      lctx.Reached = false →
      (c.Query "password" = "" →
        statuses (antifroad_rotate_keys_post_handler.Handle hr now c).1 = [400] ∧
        levels (antifroad_rotate_keys_post_handler.Handle hr now c).1 = [Level.Warning] ∧
        rotateKeysCalls (antifroad_rotate_keys_post_handler.Handle hr now c).1 = [] ∧
        (antifroad_rotate_keys_post_handler.Handle hr now c).2.antifroadService.state
          = hr.antifroadService.state) ∧
      (c.Query "password" ≠ "" →
        rotateKeysCalls (antifroad_rotate_keys_post_handler.Handle hr now c).1
          = [c.Query "password"] ∧
        (antifroad_rotate_keys_post_handler.Handle hr now c).2.antifroadService.state
          = (hr.antifroadService.RotateKeys hr.antifroadService.state
              (c.Query "password")).2)) := by
  refine ⟨?_, ?_, ?_, ?_, ?_⟩
  · rw [← Query_eq_empty]
    unfold antifroad_key_get_handler.newRequest
    by_cases hp : c.Query "password" = "" <;> simp [hp]
  · rw [← Query_eq_empty]
    unfold antifroad_rotate_keys_post_handler.newRequest
    by_cases hp : c.Query "password" = "" <;> simp [hp]
  · intro hp
    simp [antifroad_key_get_handler.newRequest, antifroad_rotate_keys_post_handler.newRequest, hp]
  · intro lctx hl hreach
    rw [key_Handle_trace, key_Handle_state, key_serve_trace, hl]
    refine ⟨fun hp => ?_, fun hp => ?_⟩
    · simp [hreach, hp, statuses, levels, getKeyCalls]
    · simp only [hreach, hp, if_false, Bool.false_eq_true, and_true]
      rcases (hk.antifroadService.GetKey hk.antifroadService.state (c.Query "password")).1
        with ⟨_ | key, _ | err⟩
      · simp [getKeyCalls]
      · by_cases hw : antifroad_service.IsWrongPasswordError err = true <;>
          simp [hw, key_handleError_eq, getKeyCalls]
      · by_cases hv : key.Value = "" <;> simp [hv, getKeyCalls]
      · by_cases hw : antifroad_service.IsWrongPasswordError err = true <;>
          simp [hw, key_handleError_eq, getKeyCalls]
  · intro lctx hl hreach
    rw [rotate_Handle_trace, rotate_Handle_state, rotate_serve_trace, hl]
    refine ⟨fun hp => ?_, fun hp => ?_⟩
    · simp [hreach, hp, statuses, levels, rotateKeysCalls]
    · simp only [hreach, hp, if_false, Bool.false_eq_true, and_true]
      rcases (hr.antifroadService.RotateKeys hr.antifroadService.state (c.Query "password")).1
        with _ | err
      · simp [rotateKeysCalls]
      · by_cases hw : antifroad_service.IsWrongPasswordError err = true <;>
          simp [hw, rotate_handleError_eq, rotateKeysCalls]

/-- C4 at an instance: on freshly built handlers, a request without the parameter is
answered 400 and a request with `password=12345` reaches each service with `12345`. -/
theorem antifraud_password_validation_witness :
    statuses (antifroad_key_get_handler.Handle
      (antifroad_key_get_handler.New servingKeys) 0 bareRequest).1 = [400] ∧
    getKeyCalls (antifroad_key_get_handler.Handle
      (antifroad_key_get_handler.New servingKeys) 0 passwordRequest).1 = ["12345"] ∧
    statuses (antifroad_rotate_keys_post_handler.Handle
      (antifroad_rotate_keys_post_handler.New acceptingRotation) 0 bareRequest).1 = [400] ∧
    rotateKeysCalls (antifroad_rotate_keys_post_handler.Handle
      (antifroad_rotate_keys_post_handler.New acceptingRotation) 0 passwordRequest).1
        = ["12345"] :=
  ⟨((antifraud_password_validation (antifroad_key_get_handler.New servingKeys)
      (antifroad_rotate_keys_post_handler.New acceptingRotation) 0 bareRequest).2.2.2.1
        ⟨1, 0, 60000000000, false⟩ rfl rfl).1 (by decide) |>.1,
   ((antifraud_password_validation (antifroad_key_get_handler.New servingKeys)
      (antifroad_rotate_keys_post_handler.New acceptingRotation) 0 passwordRequest).2.2.2.1
        ⟨1, 0, 60000000000, false⟩ rfl rfl).2 (by decide) |>.1,
   ((antifraud_password_validation (antifroad_key_get_handler.New servingKeys)
      (antifroad_rotate_keys_post_handler.New acceptingRotation) 0 bareRequest).2.2.2.2
        ⟨1, 0, 60000000000, false⟩ rfl rfl).1 (by decide) |>.1,
   ((antifraud_password_validation (antifroad_key_get_handler.New servingKeys)
      (antifroad_rotate_keys_post_handler.New acceptingRotation) 0 passwordRequest).2.2.2.2
        ⟨1, 0, 60000000000, false⟩ rfl rfl).2 (by decide) |>.1⟩

end ClaimC4

section ClaimC5

/-- C5: in both antifraud handlers the limiter is queried with the constant name of the
handler as its key and nothing of the request: whatever the request, the limiter is left
in the state of one query under that key, so two requests arriving at the same handler
state leave the same limiter behind, and whether the answer is 429 is the same for both. -/
theorem antifraud_limiter_key_constant {σ τ σ2 τ2 : Type}
    (hk : antifroad_key_get_handler.Handler σ τ)
    (hr : antifroad_rotate_keys_post_handler.Handler σ2 τ2)
    (now : Nat) (c1 c2 : gin.Context) :
    (antifroad_key_get_handler.Handle hk now c1).2.limiter
      = (hk.limiter.Get now "antifroad_key_get_handler").2 ∧
    (antifroad_key_get_handler.Handle hk now c1).2.limiter
      = (antifroad_key_get_handler.Handle hk now c2).2.limiter ∧
    (statuses (antifroad_key_get_handler.Handle hk now c1).1 = [429] ↔
      statuses (antifroad_key_get_handler.Handle hk now c2).1 = [429]) ∧
    (statuses (antifroad_key_get_handler.Handle hk now c1).1 = [429] ↔
      ∃ lctx, (hk.limiter.Get now "antifroad_key_get_handler").1 = Except.ok lctx ∧
        lctx.Reached = true) ∧
    (antifroad_rotate_keys_post_handler.Handle hr now c1).2.limiter
      = (hr.limiter.Get now "antifroad_rotate_keys_post_handler").2 ∧
    (antifroad_rotate_keys_post_handler.Handle hr now c1).2.limiter
      = (antifroad_rotate_keys_post_handler.Handle hr now c2).2.limiter ∧
    (statuses (antifroad_rotate_keys_post_handler.Handle hr now c1).1 = [429] ↔
      statuses (antifroad_rotate_keys_post_handler.Handle hr now c2).1 = [429]) ∧
    (statuses (antifroad_rotate_keys_post_handler.Handle hr now c1).1 = [429] ↔
      ∃ lctx, (hr.limiter.Get now "antifroad_rotate_keys_post_handler").1 = Except.ok lctx ∧
        lctx.Reached = true) := by
  have key429 : ∀ c : gin.Context,
      (statuses (antifroad_key_get_handler.Handle hk now c).1 = [429] ↔
        ∃ lctx, (hk.limiter.Get now "antifroad_key_get_handler").1 = Except.ok lctx ∧
          lctx.Reached = true) := by
    intro c
    rw [key_Handle_trace, key_serve_trace]
    change _ ↔ ∃ lctx, (hk.limiter.Get now antifroad_key_get_handler.handlerName).1
      = Except.ok lctx ∧ lctx.Reached = true
    rcases (hk.limiter.Get now antifroad_key_get_handler.handlerName).1 with lerr | lctx
    · simp [statuses]
    · by_cases hreach : lctx.Reached = true
      · simp [hreach, statuses]
      · by_cases hp : c.Query "password" = ""
        · simp [hreach, hp, statuses]
        · simp only [hreach, hp, if_false]
          rcases (hk.antifroadService.GetKey hk.antifroadService.state (c.Query "password")).1
            with ⟨_ | key, _ | err⟩
          · simp [statuses, hreach]
          · simp only [key_handleError_eq]
            by_cases hw : antifroad_service.IsWrongPasswordError err = true <;>
              simp [hw, statuses, hreach]
          · by_cases hv : key.Value = "" <;> simp [hv, statuses, hreach]
          · simp only [key_handleError_eq]
            by_cases hw : antifroad_service.IsWrongPasswordError err = true <;>
              simp [hw, statuses, hreach]
  have rot429 : ∀ c : gin.Context,
      (statuses (antifroad_rotate_keys_post_handler.Handle hr now c).1 = [429] ↔
        ∃ lctx, (hr.limiter.Get now "antifroad_rotate_keys_post_handler").1 = Except.ok lctx ∧
          lctx.Reached = true) := by
    intro c
    rw [rotate_Handle_trace, rotate_serve_trace]
    change _ ↔ ∃ lctx, (hr.limiter.Get now antifroad_rotate_keys_post_handler.handlerName).1
      = Except.ok lctx ∧ lctx.Reached = true
    rcases (hr.limiter.Get now antifroad_rotate_keys_post_handler.handlerName).1
      with lerr | lctx
    · simp [statuses]
    · by_cases hreach : lctx.Reached = true
      · simp [hreach, statuses]
      · by_cases hp : c.Query "password" = ""
        · simp [hreach, hp, statuses]
        · simp only [hreach, hp, if_false]
          rcases (hr.antifroadService.RotateKeys hr.antifroadService.state
            (c.Query "password")).1 with _ | err
          · simp [statuses, hreach]
          · simp only [rotate_handleError_eq]
            by_cases hw : antifroad_service.IsWrongPasswordError err = true <;>
              simp [hw, statuses, hreach]
  refine ⟨key_Handle_limiter hk now c1, ?_, ?_, key429 c1,
    rotate_Handle_limiter hr now c1, ?_, ?_, rot429 c1⟩
  · rw [key_Handle_limiter, key_Handle_limiter]
  · rw [key429 c1, key429 c2]
  · rw [rotate_Handle_limiter, rotate_Handle_limiter]
  · rw [rot429 c1, rot429 c2]

end ClaimC5

section Sessions

theorem refresh_handleError_eq (ctx : Ctx) (err : Error) :
    auth_refresh_post_handler.handleError ctx err =
      if auth_service.IsSessionNotFoundError err = true then
        [Effect.Log Level.Warning (ctx ++ [Field.StatusCode 404] ++ [Field.Err err]),
         Effect.WriteError 404 (Message.text "session not found")]
      else if auth_service.IsSessionExpiredError err = true then
        [Effect.Log Level.Warning (ctx ++ [Field.StatusCode 401] ++ [Field.Err err]),
         Effect.WriteError 401 (Message.text "session expired")]
      else
        [Effect.Log Level.Error (ctx ++ [Field.StatusCode 500] ++ [Field.Err err]),
         Effect.WriteError 500 (Message.text "something went wrong")] := by
  unfold auth_refresh_post_handler.handleError
  by_cases h1 : auth_service.IsSessionNotFoundError err = true
  · simp [h1, Logger.WithStatusCode, Logger.WithError, http.StatusNotFound]
  · by_cases h2 : auth_service.IsSessionExpiredError err = true <;>
      simp [h1, h2, Logger.WithStatusCode, Logger.WithError, http.StatusNotFound,
        http.StatusUnauthorized, http.StatusInternalServerError]

theorem logout_handleError_eq (ctx : Ctx) (err : Error) :
    auth_logout_post_handler.handleError ctx err =
      if auth_service.IsSessionNotFoundError err = true then
        [Effect.Log Level.Warning (ctx ++ [Field.StatusCode 404] ++ [Field.Err err]),
         Effect.WriteError 404 (Message.text "session not found")]
      else if auth_service.IsSessionExpiredError err = true then
        [Effect.Log Level.Warning (ctx ++ [Field.StatusCode 401] ++ [Field.Err err]),
         Effect.WriteError 401 (Message.text "session expired")]
      else
        [Effect.Log Level.Error (ctx ++ [Field.StatusCode 500] ++ [Field.Err err]),
         Effect.WriteError 500 (Message.text "something went wrong")] := by
  unfold auth_logout_post_handler.handleError
  by_cases h1 : auth_service.IsSessionNotFoundError err = true
  · simp [h1, Logger.WithStatusCode, Logger.WithError, http.StatusNotFound]
  · by_cases h2 : auth_service.IsSessionExpiredError err = true <;>
      simp [h1, h2, Logger.WithStatusCode, Logger.WithError, http.StatusNotFound,
        http.StatusUnauthorized, http.StatusInternalServerError]

/-- The effects of the refresh handler, by the answer of the service. -/
theorem refresh_Handle_trace {σ : Type} (h : auth_refresh_post_handler.Handler σ)
    (c : gin.Context) :
    (auth_refresh_post_handler.Handle h c).1 =
      match (h.refresher.Refresh h.refresher.state ⟨c.refreshToken⟩).1 with
      | (_, some err) =>
        Effect.Refresh c.refreshToken ::
          auth_refresh_post_handler.handleError (auth_refresh_post_handler.logCtx c) err
      | (some out, none) =>
        [Effect.Refresh c.refreshToken, Effect.SetAccessToken out.AccessToken,
         Effect.SetRefreshToken out.RefreshToken]
      | (none, none) =>
        [Effect.Refresh c.refreshToken,
         Effect.WriteError 500 (Message.text "something went wrong")] := by
  unfold auth_refresh_post_handler.Handle
  simp only [auth_refresh_post_handler.makeRefreshIn, api.GetRefreshToken]
  rcases h.refresher.Refresh h.refresher.state ⟨c.refreshToken⟩ with ⟨⟨_ | out, _ | err⟩, s⟩ <;>
    simp [auth_refresh_post_handler.makeOut, auth_refresh_post_handler.logCtx,
      http.StatusInternalServerError]

/-- The effects of the logout handler, by the answers of the OAuth layer and the service. -/
theorem logout_Handle_trace {σ ω : Type} (h : auth_logout_post_handler.Handler σ ω)
    (c : gin.Context) :
    (auth_logout_post_handler.Handle h c).1 =
      match (h.oauth.Logout h.oauth.state c).1 with
      | some err =>
        [Effect.OAuthLogout,
         Effect.Log Level.Error
           (auth_logout_post_handler.logCtx c ++ [Field.StatusCode 500] ++ [Field.Err err]),
         Effect.WriteError 500 (Message.text "something went wrong")]
      | none =>
        match (h.authService.Logout h.authService.state ⟨c.accessToken, c.refreshToken⟩).1 with
        | some err =>
          Effect.OAuthLogout :: Effect.Logout c.accessToken c.refreshToken ::
            auth_logout_post_handler.handleError (auth_logout_post_handler.logCtx c) err
        | none =>
          [Effect.OAuthLogout, Effect.Logout c.accessToken c.refreshToken,
           Effect.DeleteAccessToken, Effect.DeleteRefreshToken] := by
  unfold auth_logout_post_handler.Handle
  simp only [auth_logout_post_handler.makeLogoutIn, api.GetRefreshToken, api.GetAccessToken]
  rcases h.oauth.Logout h.oauth.state c with ⟨_ | oerr, o⟩
  · rcases h.authService.Logout h.authService.state ⟨c.accessToken, c.refreshToken⟩
      with ⟨_ | err, s⟩ <;> simp [auth_logout_post_handler.logCtx]
  · simp [auth_logout_post_handler.logCtx, Logger.WithStatusCode, Logger.WithError,
      http.StatusInternalServerError]

end Sessions

section ClaimC6

open auth_refresh_post_handler

/-- C6: when the service behind POST /auth/refresh returns a non-nil result and no error,
the handler sets the access-token cookie to the `AccessToken` of the result and then the
refresh-token cookie to its `RefreshToken`, and writes no status; when the service returns
an error, or neither an error nor a result, the handler sets no cookie and writes exactly
one status, an error status (500 for the nil result). -/
theorem refresh_sets_cookies {σ : Type} (h : Handler σ) (c : gin.Context) :
    (∀ out, (h.refresher.Refresh h.refresher.state (makeRefreshIn c)).1 = (some out, none) →
      (Handle h c).1 =
        [Effect.Refresh (api.GetRefreshToken c), Effect.SetAccessToken out.AccessToken,
         Effect.SetRefreshToken out.RefreshToken] ∧
      cookies (Handle h c).1 =
        [Effect.SetAccessToken out.AccessToken, Effect.SetRefreshToken out.RefreshToken] ∧
      statuses (Handle h c).1 = []) ∧
    (∀ out err, (h.refresher.Refresh h.refresher.state (makeRefreshIn c)).1 = (out, some err) →
      cookies (Handle h c).1 = [] ∧
      ∃ status, statuses (Handle h c).1 = [status] ∧ 400 ≤ status) ∧
    ((h.refresher.Refresh h.refresher.state (makeRefreshIn c)).1 = (none, none) →
      cookies (Handle h c).1 = [] ∧ statuses (Handle h c).1 = [500]) := by
  rw [refresh_Handle_trace]
  simp only [makeRefreshIn, api.GetRefreshToken]
  refine ⟨fun out hs => ?_, fun out err hs => ?_, fun hs => ?_⟩
  · rw [hs]
    simp [cookies, Effect.isCookie, statuses]
  · rw [hs]
    simp only [refresh_handleError_eq]
    by_cases h1 : auth_service.IsSessionNotFoundError err = true
    · simp [h1, cookies, Effect.isCookie, statuses]
    · by_cases h2 : auth_service.IsSessionExpiredError err = true <;>
        simp [h1, h2, cookies, Effect.isCookie, statuses]
  · rw [hs]
    simp [cookies, Effect.isCookie, statuses]

/-- C6 at an instance: a refresher that answers with the pair `a2`, `r2`, and one that
knows no session. -/
theorem refresh_sets_cookies_witness :
    cookies (Handle (New rotatingRefresher) bareRequest).1 =
      [Effect.SetAccessToken "a2", Effect.SetRefreshToken "r2"] ∧
    cookies (Handle (New forgetfulRefresher) bareRequest).1 = [] :=
  ⟨((refresh_sets_cookies (New rotatingRefresher) bareRequest).1 ⟨"a2", "r2"⟩ rfl).2.1,
   ((refresh_sets_cookies (New forgetfulRefresher) bareRequest).2.1 none
      ⟨ErrorKind.SessionNotFound, "no session"⟩ rfl).1⟩

end ClaimC6

section ClaimC7

/-- C7: in the refresh and the logout handler an error of the service is handed to
`handleError`, which maps it by its tag in both handlers alike: `SessionNotFound` gives a
warning and status 404 with "session not found", `SessionExpired` gives a warning and
status 401 with "session expired", and every other error gives a record at error level and
status 500 with the fixed message "something went wrong". -/
theorem session_error_mapping {σ σ2 ω : Type} (hr : auth_refresh_post_handler.Handler σ)
    (hl : auth_logout_post_handler.Handler σ2 ω) (c : gin.Context) (ctx : Ctx) (err : Error) :
    (∀ out, (hr.refresher.Refresh hr.refresher.state
        (auth_refresh_post_handler.makeRefreshIn c)).1 = (out, some err) →
      (auth_refresh_post_handler.Handle hr c).1 =
        Effect.Refresh (api.GetRefreshToken c) ::
          auth_refresh_post_handler.handleError (auth_refresh_post_handler.logCtx c) err) ∧
    ((hl.oauth.Logout hl.oauth.state c).1 = none →
      (hl.authService.Logout hl.authService.state
        (auth_logout_post_handler.makeLogoutIn c)).1 = some err →
      (auth_logout_post_handler.Handle hl c).1 =
        Effect.OAuthLogout :: Effect.Logout (api.GetAccessToken c) (api.GetRefreshToken c) ::
          auth_logout_post_handler.handleError (auth_logout_post_handler.logCtx c) err) ∧
    (auth_service.IsSessionNotFoundError err = true →
      auth_refresh_post_handler.handleError ctx err =
        [Effect.Log Level.Warning (ctx ++ [Field.StatusCode 404] ++ [Field.Err err]),
         Effect.WriteError 404 (Message.text "session not found")] ∧
      auth_logout_post_handler.handleError ctx err =
        [Effect.Log Level.Warning (ctx ++ [Field.StatusCode 404] ++ [Field.Err err]),
         Effect.WriteError 404 (Message.text "session not found")]) ∧
    (auth_service.IsSessionExpiredError err = true →
      auth_refresh_post_handler.handleError ctx err =
        [Effect.Log Level.Warning (ctx ++ [Field.StatusCode 401] ++ [Field.Err err]),
         Effect.WriteError 401 (Message.text "session expired")] ∧
      auth_logout_post_handler.handleError ctx err =
        [Effect.Log Level.Warning (ctx ++ [Field.StatusCode 401] ++ [Field.Err err]),
         Effect.WriteError 401 (Message.text "session expired")]) ∧
    (auth_service.IsSessionNotFoundError err = false →
      auth_service.IsSessionExpiredError err = false →
      auth_refresh_post_handler.handleError ctx err =
        [Effect.Log Level.Error (ctx ++ [Field.StatusCode 500] ++ [Field.Err err]),
         Effect.WriteError 500 (Message.text "something went wrong")] ∧
      auth_logout_post_handler.handleError ctx err =
        [Effect.Log Level.Error (ctx ++ [Field.StatusCode 500] ++ [Field.Err err]),
         Effect.WriteError 500 (Message.text "something went wrong")]) := by
  refine ⟨fun out hs => ?_, fun ho hs => ?_, fun h1 => ?_, fun h2 => ?_, fun h1 h2 => ?_⟩
  · rw [refresh_Handle_trace]
    simp only [auth_refresh_post_handler.makeRefreshIn, api.GetRefreshToken] at hs ⊢
    rw [hs]
    cases out <;> rfl
  · rw [logout_Handle_trace]
    simp only [auth_logout_post_handler.makeLogoutIn, api.GetRefreshToken,
      api.GetAccessToken] at hs ⊢
    rw [ho, hs]
  · simp [refresh_handleError_eq, logout_handleError_eq, h1]
  · have h1 : auth_service.IsSessionNotFoundError err = false := by
      simp only [auth_service.IsSessionExpiredError, decide_eq_true_eq] at h2
      simp [auth_service.IsSessionNotFoundError, h2]
    simp [refresh_handleError_eq, logout_handleError_eq, h1, h2]
  · simp [refresh_handleError_eq, logout_handleError_eq, h1, h2]

/-- C7 at instances: an error of each of the three kinds. -/
theorem session_error_mapping_witness :
    statuses (auth_refresh_post_handler.handleError []
      ⟨ErrorKind.SessionNotFound, "no session"⟩) = [404] ∧
    statuses (auth_logout_post_handler.handleError []
      ⟨ErrorKind.SessionExpired, "too late"⟩) = [401] ∧
    levels (auth_logout_post_handler.handleError []
      ⟨ErrorKind.Untagged, "database is down"⟩) = [Level.Error] :=
  ⟨congrArg statuses ((session_error_mapping (auth_refresh_post_handler.New rotatingRefresher)
      (auth_logout_post_handler.New sessionLogout acceptingOAuth) bareRequest []
      ⟨ErrorKind.SessionNotFound, "no session"⟩).2.2.1 rfl).1,
   congrArg statuses ((session_error_mapping (auth_refresh_post_handler.New rotatingRefresher)
      (auth_logout_post_handler.New sessionLogout acceptingOAuth) bareRequest []
      ⟨ErrorKind.SessionExpired, "too late"⟩).2.2.2.1 rfl).2,
   congrArg levels ((session_error_mapping (auth_refresh_post_handler.New rotatingRefresher)
      (auth_logout_post_handler.New sessionLogout acceptingOAuth) bareRequest []
      ⟨ErrorKind.Untagged, "database is down"⟩).2.2.2.2 rfl rfl).2⟩

end ClaimC7

section ClaimC8

open auth_logout_post_handler

/-- C8: when the OAuth layer and the auth service both accept a logout request, the
handler calls `Logout` of the auth service with exactly the access token and the refresh
token of the request, then deletes the access-token cookie and the refresh-token cookie,
and writes no error status. -/
theorem logout_clears_cookies {σ ω : Type} (h : Handler σ ω) (c : gin.Context)
    (ho : (h.oauth.Logout h.oauth.state c).1 = none)
    (hs : (h.authService.Logout h.authService.state (makeLogoutIn c)).1 = none) :
    makeLogoutIn c = ⟨api.GetAccessToken c, api.GetRefreshToken c⟩ ∧
    (Handle h c).1 =
      [Effect.OAuthLogout, Effect.Logout (api.GetAccessToken c) (api.GetRefreshToken c),
       Effect.DeleteAccessToken, Effect.DeleteRefreshToken] ∧
    cookies (Handle h c).1 = [Effect.DeleteAccessToken, Effect.DeleteRefreshToken] ∧
    statuses (Handle h c).1 = [] := by
  rw [logout_Handle_trace]
  simp only [makeLogoutIn, api.GetRefreshToken, api.GetAccessToken] at hs ⊢
  rw [ho, hs]
  simp [cookies, Effect.isCookie, statuses]

/-- C8 at an instance: the first logout of the session with the token `refresh`. -/
theorem logout_clears_cookies_witness :
    cookies (Handle (New sessionLogout acceptingOAuth) bareRequest).1 =
      [Effect.DeleteAccessToken, Effect.DeleteRefreshToken] :=
  (logout_clears_cookies (New sessionLogout acceptingOAuth) bareRequest rfl
    (by decide)).2.2.1

end ClaimC8

section ClaimC9

open auth_logout_post_handler

/-- C9: logout is idempotent. `Logout` of the session service returns no error whether or
not the session of the refresh token is in the store, leaves no session of that refresh
token behind, and leaves a store without such a session as it is. So the logout handler
answers a request whose session is already gone as it answers any other: its effects are
the same for every content of the store, and when the OAuth layer accepts the request they
are those of a successful logout, the call of the service followed by the deletion of both
cookies, with no status written. Logging out twice in a row with the same request, accepted
by the OAuth layer both times, has the same effects the second time as the first. -/
theorem logout_idempotent {ω : Type} (claims : session_service.Claims)
    (s : session_service.Revocable) (o : oauth ω) (c : gin.Context) :
    (session_service.Logout claims s (makeLogoutIn c)).1 = none ∧
    (∀ x ∈ (session_service.Logout claims s (makeLogoutIn c)).2.service.sessions,
      x.refreshToken ≠ api.GetRefreshToken c) ∧
    ((∀ x ∈ s.service.sessions, x.refreshToken ≠ api.GetRefreshToken c) →
      (session_service.Logout claims s (makeLogoutIn c)).2.service = s.service) ∧
    (∀ s2, (Handle (New (session_service.asLogout claims s) o) c).1 =
      (Handle (New (session_service.asLogout claims s2) o) c).1) ∧
    ((o.Logout o.state c).1 = none →
      (Handle (New (session_service.asLogout claims s) o) c).1 =
        [Effect.OAuthLogout, Effect.Logout (api.GetAccessToken c) (api.GetRefreshToken c),
         Effect.DeleteAccessToken, Effect.DeleteRefreshToken] ∧
      cookies (Handle (New (session_service.asLogout claims s) o) c).1 =
        [Effect.DeleteAccessToken, Effect.DeleteRefreshToken] ∧
      statuses (Handle (New (session_service.asLogout claims s) o) c).1 = []) ∧
    ((o.Logout o.state c).1 = none → (o.Logout (o.Logout o.state c).2 c).1 = none →
      (Handle (Handle (New (session_service.asLogout claims s) o) c).2 c).1 =
        (Handle (New (session_service.asLogout claims s) o) c).1) := by
  have htrace : ∀ (ω2 : Type) (o2 : oauth ω2) (t : session_service.Revocable),
      (o2.Logout o2.state c).1 = none →
      (Handle (New (session_service.asLogout claims t) o2) c).1 =
        [Effect.OAuthLogout, Effect.Logout (api.GetAccessToken c) (api.GetRefreshToken c),
         Effect.DeleteAccessToken, Effect.DeleteRefreshToken] := by
    intro ω2 o2 t ho
    rw [logout_Handle_trace]
    simp only [New, session_service.asLogout, session_service.Logout, api.GetAccessToken,
      api.GetRefreshToken]
    rw [ho]
  refine ⟨rfl, ?_, ?_, ?_, ?_, ?_⟩
  · intro x hx
    simp only [session_service.Logout, makeLogoutIn, List.mem_filter, bne_iff_ne] at hx
    exact hx.2
  · intro hgone
    have hf : s.service.sessions.filter
        (fun x => x.refreshToken != (makeLogoutIn c).RefreshToken) = s.service.sessions := by
      rw [List.filter_eq_self]
      intro x hx
      simpa [makeLogoutIn] using hgone x hx
    simp only [session_service.Logout, hf]
  · intro s2
    rw [logout_Handle_trace, logout_Handle_trace]
    simp only [New, session_service.asLogout, session_service.Logout]
  · intro ho
    rw [htrace ω o s ho]
    exact ⟨rfl, rfl, rfl⟩
  · intro ho ho2
    rw [htrace ω o s ho]
    have hstate : (Handle (New (session_service.asLogout claims s) o) c).2 =
        New (session_service.asLogout claims
          (session_service.Logout claims s (makeLogoutIn c)).2)
          ⟨(o.Logout o.state c).2, o.Logout⟩ := by
      unfold Handle
      simp only [New, session_service.asLogout]
      rcases hx : o.Logout o.state c with ⟨_ | e, o3⟩
      · rfl
      · rw [hx] at ho
        simp at ho
    rw [hstate]
    exact htrace ω _ _ ho2

/-- C9 at an instance: the session with the token `refresh`, logged out twice in a row. -/
theorem logout_idempotent_witness :
    (Handle (Handle (New sessionLogout acceptingOAuth) bareRequest).2 bareRequest).1 =
      (Handle (New sessionLogout acceptingOAuth) bareRequest).1 ∧
    cookies (Handle (Handle (New sessionLogout acceptingOAuth) bareRequest).2 bareRequest).1 =
      [Effect.DeleteAccessToken, Effect.DeleteRefreshToken] :=
  have h := logout_idempotent ⟨fun token => "id-" ++ token, fun _ => 60⟩
    ⟨⟨[⟨7, "refresh", 100⟩], 10, 0⟩, []⟩ acceptingOAuth bareRequest
  ⟨h.2.2.2.2.2 rfl rfl, congrArg cookies ((h.2.2.2.2.2 rfl rfl).trans (h.2.2.2.2.1 rfl).1)⟩

end ClaimC9

section ClaimC10

/-- C10, the claim as stated fails: when the service rejects the password with
`WrongPassword`, each antifraud handler writes its one log record at error level. -/
theorem antifraud_wrong_password_level :
    levels (antifroad_key_get_handler.Handle
      (antifroad_key_get_handler.New rejectingKeys) 0 passwordRequest).1 = [Level.Error] ∧
    levels (antifroad_rotate_keys_post_handler.Handle
      (antifroad_rotate_keys_post_handler.New rejectingRotation) 0 passwordRequest).1
        = [Level.Error] := by
  decide

/-- C10, amended: when the antifraud service has been called and rejects the password with
`WrongPassword`, both antifraud handlers log the condition at error level, with status
401, and answer 401 with the text of the error. -/
theorem antifraud_wrong_password_logged_as_error {σ τ σ2 τ2 : Type}
    (hk : antifroad_key_get_handler.Handler σ τ)
    (hr : antifroad_rotate_keys_post_handler.Handler σ2 τ2)
    (now : Nat) (c : gin.Context) (err : Error)
    (hw : antifroad_service.IsWrongPasswordError err = true) :
    (∀ key, (hk.antifroadService.GetKey hk.antifroadService.state (c.Query "password")).1
        = (key, some err) →
      getKeyCalls (antifroad_key_get_handler.Handle hk now c).1 ≠ [] →
      (antifroad_key_get_handler.Handle hk now c).1 =
        [Effect.GetKey (c.Query "password"),
         Effect.Log Level.Error
           (antifroad_key_get_handler.logCtx c ++ [Field.StatusCode 401] ++ [Field.Err err]),
         Effect.WriteError 401 (Message.text err.text)]) ∧
    ((hr.antifroadService.RotateKeys hr.antifroadService.state (c.Query "password")).1
        = some err →
      rotateKeysCalls (antifroad_rotate_keys_post_handler.Handle hr now c).1 ≠ [] →
      (antifroad_rotate_keys_post_handler.Handle hr now c).1 =
        [Effect.RotateKeys (c.Query "password"),
         Effect.Log Level.Error
           (antifroad_rotate_keys_post_handler.logCtx c ++ [Field.StatusCode 401]
             ++ [Field.Err err]),
         Effect.WriteError 401 (Message.text err.text)]) := by
  refine ⟨fun key hs => ?_, fun hs => ?_⟩
  · rw [key_Handle_trace, key_serve_trace, hs]
    simp only [key_handleError_eq, hw, if_true]
    rcases (hk.limiter.Get now antifroad_key_get_handler.handlerName).1 with lerr | lctx
    · simp [getKeyCalls]
    · by_cases hreach : lctx.Reached = true
      · simp [hreach, getKeyCalls]
      · by_cases hp : c.Query "password" = "" <;> simp [hreach, hp, getKeyCalls]
  · rw [rotate_Handle_trace, rotate_serve_trace, hs]
    simp only [rotate_handleError_eq, hw, if_true]
    rcases (hr.limiter.Get now antifroad_rotate_keys_post_handler.handlerName).1
      with lerr | lctx
    · simp [rotateKeysCalls]
    · by_cases hreach : lctx.Reached = true
      · simp [hreach, rotateKeysCalls]
      · by_cases hp : c.Query "password" = "" <;> simp [hreach, hp, rotateKeysCalls]

/-- C10, the amended statement at an instance: services that reject the password `12345`. -/
theorem antifraud_wrong_password_logged_as_error_witness :
    (antifroad_key_get_handler.Handle
      (antifroad_key_get_handler.New rejectingKeys) 0 passwordRequest).1 =
      [Effect.GetKey "12345",
       Effect.Log Level.Error
         [Field.HandlerName "antifroad_key_get_handler", Field.StatusCode 401,
          Field.Err ⟨ErrorKind.WrongPassword, "wrong password"⟩],
       Effect.WriteError 401 (Message.text "wrong password")] ∧
    (antifroad_rotate_keys_post_handler.Handle
      (antifroad_rotate_keys_post_handler.New rejectingRotation) 0 passwordRequest).1 =
      [Effect.RotateKeys "12345",
       Effect.Log Level.Error
         [Field.HandlerName "antifroad_rotate_keys_post_handler", Field.StatusCode 401,
          Field.Err ⟨ErrorKind.WrongPassword, "wrong password"⟩],
       Effect.WriteError 401 (Message.text "wrong password")] :=
  have h := antifraud_wrong_password_logged_as_error
    (antifroad_key_get_handler.New rejectingKeys)
    (antifroad_rotate_keys_post_handler.New rejectingRotation) 0 passwordRequest
    ⟨ErrorKind.WrongPassword, "wrong password"⟩ rfl
  ⟨h.1 none rfl (by decide), h.2 rfl (by decide)⟩

end ClaimC10

section AppRun

open app

theorem count_call (env : Env) (c : Call) (rest : List Event) (x : Event)
    (h1 : x ≠ Event.Call c) (h2 : x ≠ Event.Panic) :
    (call env c rest).count x = if env.panics c = true then 0 else rest.count x := by
  unfold call
  split_ifs <;> simp [List.count_cons, Ne.symm h1, Ne.symm h2]

theorem count_defer (env : Env) (c : Call) (rest : List Event) (x : Event)
    (h1 : x ≠ Event.Call c) (h2 : x ≠ Event.Panic) :
    (defer env c rest).count x = rest.count x := by
  unfold defer
  split_ifs <;> simp [List.count_cons, Ne.symm h1, Ne.symm h2]

theorem mem_call (env : Env) (c : Call) (rest : List Event) (x : Event)
    (h1 : x ≠ Event.Call c) (h2 : x ≠ Event.Panic) :
    x ∈ call env c rest ↔ (env.panics c = false ∧ x ∈ rest) := by
  unfold call
  split_ifs with hp <;> simp [h1, h2, hp]

theorem mem_defer (env : Env) (c : Call) (rest : List Event) (x : Event)
    (h1 : x ≠ Event.Call c) (h2 : x ≠ Event.Panic) :
    x ∈ defer env c rest ↔ x ∈ rest := by
  unfold defer
  split_ifs <;> simp [h1, h2]

theorem panic_mem_call (env : Env) (c : Call) (rest : List Event) :
    Event.Panic ∈ call env c rest ↔ (env.panics c = true ∨ Event.Panic ∈ rest) := by
  unfold call
  split_ifs with hp <;> simp [hp]

theorem panic_mem_defer (env : Env) (c : Call) (rest : List Event) :
    Event.Panic ∈ defer env c rest ↔ (Event.Panic ∈ rest ∨ env.panics c = true) := by
  unfold defer
  split_ifs with hp <;> simp [hp]

theorem before_cons (a b x : Event) (rest : List Event) (h1 : a ≠ x) (h2 : b ≠ x) :
    before a b (x :: rest) = before a b rest := by
  have e1 : (x != a) = true := by simpa using Ne.symm h1
  simp [before, List.takeWhile_cons, e1, Ne.symm h1, Ne.symm h2, h1, h2]

theorem before_append (a b : Event) (rest tail : List Event) (h1 : a ∉ tail) :
    before a b (rest ++ tail) = before a b rest := by
  induction rest with
  | nil =>
    simp [before, h1]
  | cons x rest ih =>
    by_cases hx : a = x
    · subst hx
      simp [before, List.takeWhile_cons]
    · have e1 : (x != a) = true := by simpa using Ne.symm hx
      unfold before at ih ⊢
      simp only [List.cons_append, List.takeWhile_cons, e1, if_true, List.contains_cons,
        Bool.and_eq_true, Bool.or_eq_true] at ih ⊢
      by_cases hb : b = x
      · subst hb
        simp
      · have e2 : (b == x) = false := by simpa using hb
        have e3 : (a == x) = false := by simpa using hx
        simpa [e2, e3] using ih

theorem before_call (env : Env) (c : Call) (rest : List Event) (a b : Event)
    (h1 : a ≠ Event.Call c) (h2 : a ≠ Event.Panic) (h3 : b ≠ Event.Call c) :
    before a b (call env c rest) = (!env.panics c && before a b rest) := by
  unfold call
  split_ifs with hp
  · simp [hp, before, h1, h2]
  · rw [before_cons a b _ rest h1 h3]
    simp [hp]

theorem before_defer (env : Env) (c : Call) (rest : List Event) (a b : Event)
    (h1 : a ≠ Event.Call c) (h2 : a ≠ Event.Panic) :
    before a b (defer env c rest) = before a b rest := by
  unfold defer
  apply before_append
  split_ifs <;> simp [h1, h2]

/-- The server section, by the panics of its two calls. -/
theorem serverSection_eq (env : Env) :
    serverSection env =
      if env.panics Call.Server = true then [Event.Call Call.Server, Event.Panic]
      else if env.panics Call.ServerMustRun = true then
        [Event.Call Call.Server, Event.Call Call.ServerMustRun, Event.Panic]
      else
        [Event.Call Call.Server, Event.Call Call.ServerMustRun, Event.Info "server stopped"] := by
  unfold serverSection call
  cases env.panics Call.Server <;> cases env.panics Call.ServerMustRun <;> rfl

/-- The antifraud section and what follows it, by the configuration, the answer of `Init`
and the panics of the two calls. -/
theorem antifroadSection_eq (env : Env) :
    antifroadSection env =
      if env.cfg.Antifroad.IsDisabled = true then serverSection env
      else if env.panics Call.AntifroadService = true then
        [Event.Call Call.AntifroadService, Event.Panic]
      else if env.panics Call.AntifroadInit = true then
        [Event.Call Call.AntifroadService, Event.Call Call.AntifroadInit, Event.Panic]
      else
        match env.Init with
        | some _ =>
          [Event.Call Call.AntifroadService, Event.Call Call.AntifroadInit, Event.Panic]
        | none =>
          Event.Call Call.AntifroadService :: Event.Call Call.AntifroadInit ::
            Event.Info "antifroad service initialized" :: serverSection env := by
  unfold antifroadSection call
  cases env.cfg.Antifroad.IsDisabled <;> cases env.panics Call.AntifroadService <;>
    cases env.panics Call.AntifroadInit <;> cases env.Init <;> rfl

/-- The early calls of `Run`: those made before the antifraud section is reached. -/
theorem Run_count_init (env : Env) :
    (Run env).count (Event.Call Call.AntifroadInit) =
      if env.panics Call.MustParse = true then 0
      else if env.panics Call.NewContainer = true then 0
      else if env.panics Call.Logger = true then 0
      else if env.panics Call.Postgres = true then 0
      else if env.panics Call.PostgresMustConnect = true then 0
      else if env.panics Call.PostgresMustMigrate = true then 0
      else if env.panics Call.Redis = true then 0
      else if env.panics Call.RedisMustConnect = true then 0
      else if env.panics Call.Scheduler = true then 0
      else if env.panics Call.SchedulerStart = true then 0
      else (antifroadSection env).count (Event.Call Call.AntifroadInit) := by
  unfold Run
  simp only [count_call, count_defer, List.count_cons, ne_eq, Event.Call.injEq,
    reduceCtorEq, not_false_eq_true, beq_iff_eq, if_false, Nat.add_zero]

theorem ite_zero_le (p : Prop) [Decidable p] (a c : Nat) (h : a ≤ c) :
    (if p then 0 else a) ≤ c := by
  split
  · exact Nat.zero_le _
  · exact h

theorem Run_count_init_le (env : Env) :
    (Run env).count (Event.Call Call.AntifroadInit) ≤
      (antifroadSection env).count (Event.Call Call.AntifroadInit) := by
  rw [Run_count_init]
  iterate 10 apply ite_zero_le
  exact Nat.le_refl _

theorem Run_mem_server (env : Env) :
    Event.Call Call.ServerMustRun ∈ Run env ↔
      ((env.panics Call.MustParse = false ∧ env.panics Call.NewContainer = false ∧
          env.panics Call.Logger = false ∧ env.panics Call.Postgres = false ∧
          env.panics Call.PostgresMustConnect = false ∧
          env.panics Call.PostgresMustMigrate = false ∧ env.panics Call.Redis = false ∧
          env.panics Call.RedisMustConnect = false ∧ env.panics Call.Scheduler = false ∧
          env.panics Call.SchedulerStart = false) ∧
        Event.Call Call.ServerMustRun ∈ antifroadSection env) := by
  unfold Run
  simp only [mem_call, mem_defer, List.mem_cons, ne_eq, Event.Call.injEq,
    reduceCtorEq, not_false_eq_true, false_or]
  tauto

theorem Run_before (env : Env) :
    before (Event.Call Call.AntifroadInit) (Event.Call Call.ServerMustRun) (Run env) =
      (!env.panics Call.MustParse && (!env.panics Call.NewContainer &&
        (!env.panics Call.Logger && (!env.panics Call.Postgres &&
        (!env.panics Call.PostgresMustConnect && (!env.panics Call.PostgresMustMigrate &&
        (!env.panics Call.Redis && (!env.panics Call.RedisMustConnect &&
        (!env.panics Call.Scheduler && (!env.panics Call.SchedulerStart &&
          before (Event.Call Call.AntifroadInit) (Event.Call Call.ServerMustRun)
            (antifroadSection env))))))))))) := by
  unfold Run
  simp only [before_call, before_defer, before_cons, ne_eq, Event.Call.injEq,
    reduceCtorEq, not_false_eq_true]

theorem Run_panic (env : Env) (hp : Event.Panic ∈ antifroadSection env) :
    Event.Panic ∈ Run env := by
  unfold Run
  simp only [panic_mem_call, panic_mem_defer, List.mem_cons, reduceCtorEq, false_or]
  tauto

theorem antifroadSection_count_le (env : Env) :
    (antifroadSection env).count (Event.Call Call.AntifroadInit) ≤ 1 := by
  rw [antifroadSection_eq, serverSection_eq]
  cases env.cfg.Antifroad.IsDisabled <;> cases env.Init <;> cases env.panics Call.Server <;>
    cases env.panics Call.ServerMustRun <;> cases env.panics Call.AntifroadService <;>
    cases env.panics Call.AntifroadInit <;> simp

theorem antifroadSection_served (env : Env) (hd : env.cfg.Antifroad.IsDisabled = false)
    (hs : Event.Call Call.ServerMustRun ∈ antifroadSection env) :
    (antifroadSection env).count (Event.Call Call.AntifroadInit) = 1 ∧
    before (Event.Call Call.AntifroadInit) (Event.Call Call.ServerMustRun)
      (antifroadSection env) = true ∧
    env.Init = none := by
  rw [antifroadSection_eq, serverSection_eq] at hs ⊢
  cases hi : env.Init <;> cases hacc : env.panics Call.Server <;>
    cases hsrv : env.panics Call.ServerMustRun <;>
    cases hsvc : env.panics Call.AntifroadService <;>
    cases hin : env.panics Call.AntifroadInit <;>
    simp [hd, hi, hacc, hsrv, hsvc, hin, before, List.takeWhile_cons] at hs ⊢

theorem antifroadSection_init_error (env : Env) (err : Error)
    (hd : env.cfg.Antifroad.IsDisabled = false) (he : env.Init = some err) :
    Event.Panic ∈ antifroadSection env ∧
    Event.Call Call.ServerMustRun ∉ antifroadSection env := by
  rw [antifroadSection_eq]
  cases hsvc : env.panics Call.AntifroadService <;>
    cases hin : env.panics Call.AntifroadInit <;> simp [hd, he, hsvc, hin]

theorem antifroadSection_disabled (env : Env) (hd : env.cfg.Antifroad.IsDisabled = true) :
    (antifroadSection env).count (Event.Call Call.AntifroadInit) = 0 := by
  rw [antifroadSection_eq, serverSection_eq]
  cases hacc : env.panics Call.Server <;> cases hsrv : env.panics Call.ServerMustRun <;>
    simp [hd, hacc, hsrv]

theorem Run_count_init_quiet (env : Env) (hd : env.cfg.Antifroad.IsDisabled = false)
    (hp : ∀ c, env.panics c = false) :
    (Run env).count (Event.Call Call.AntifroadInit) = 1 := by
  rw [Run_count_init, antifroadSection_eq, serverSection_eq]
  simp only [hd, hp]
  cases env.Init <;> simp

end AppRun

section ClaimC12

open app

/-- C12: in a run of `App.Run` with antifraud not disabled, `Init` of the antifraud service
is invoked at most once, and exactly once when no collaborator panics; whenever the HTTP
server is run, `Init` has been invoked exactly once, before the server, and has returned no
error; if `Init` returns an error, the run panics and the server is never run. With
antifraud disabled `Init` is not invoked. -/
theorem run_antifraud_init (env : Env) :
    (env.cfg.Antifroad.IsDisabled = false →
      (Run env).count (Event.Call Call.AntifroadInit) ≤ 1 ∧
      ((∀ c, env.panics c = false) → (Run env).count (Event.Call Call.AntifroadInit) = 1) ∧
      (Event.Call Call.ServerMustRun ∈ Run env →
        (Run env).count (Event.Call Call.AntifroadInit) = 1 ∧
        before (Event.Call Call.AntifroadInit) (Event.Call Call.ServerMustRun) (Run env) = true ∧
        env.Init = none) ∧
      (∀ err, env.Init = some err →
        Event.Panic ∈ Run env ∧ Event.Call Call.ServerMustRun ∉ Run env)) ∧
    (env.cfg.Antifroad.IsDisabled = true → Event.Call Call.AntifroadInit ∉ Run env) := by
  refine ⟨fun hd => ⟨?_, Run_count_init_quiet env hd, fun hs => ?_, fun err he => ⟨?_, ?_⟩⟩,
    fun hd => ?_⟩
  · exact Nat.le_trans (Run_count_init_le env) (antifroadSection_count_le env)
  · rw [Run_mem_server] at hs
    obtain ⟨⟨h1, h2, h3, h4, h5, h6, h7, h8, h9, h10⟩, hs⟩ := hs
    obtain ⟨hc, hb, hi⟩ := antifroadSection_served env hd hs
    rw [Run_count_init, Run_before]
    simp only [h1, h2, h3, h4, h5, h6, h7, h8, h9, h10]
    exact ⟨hc, by simpa using hb, hi⟩
  · exact Run_panic env (antifroadSection_init_error env err hd he).1
  · rw [Run_mem_server]
    exact fun hs => (antifroadSection_init_error env err hd he).2 hs.2
  · have h0 : (Run env).count (Event.Call Call.AntifroadInit) = 0 :=
      Nat.le_zero.mp ((antifroadSection_disabled env hd) ▸ Run_count_init_le env)
    exact List.count_eq_zero.mp h0

/-- C12 at instances: nothing panics and `Init` succeeds; `Init` fails; and antifraud is
disabled. -/
theorem run_antifraud_init_witness :
    before (Event.Call Call.AntifroadInit) (Event.Call Call.ServerMustRun)
      (Run ⟨enabledConfig, fun _ => false, none⟩) = true ∧
    Event.Call Call.ServerMustRun ∉
      Run ⟨enabledConfig, fun _ => false, some ⟨ErrorKind.Untagged, "no database"⟩⟩ ∧
    Event.Call Call.AntifroadInit ∉ Run ⟨disabledConfig, fun _ => false, none⟩ :=
  ⟨(((run_antifraud_init ⟨enabledConfig, fun _ => false, none⟩).1 rfl).2.2.1
      (by decide)).2.1,
   (((run_antifraud_init
      ⟨enabledConfig, fun _ => false, some ⟨ErrorKind.Untagged, "no database"⟩⟩).1 rfl).2.2.2
      ⟨ErrorKind.Untagged, "no database"⟩ rfl).2,
   (run_antifraud_init ⟨disabledConfig, fun _ => false, none⟩).2 rfl⟩

end ClaimC12

section ClaimC13

/-- C13: the five core endpoints carry the method, path and middleware of the table of the
specification: POST /auth/refresh behind the refresh-token middleware only, POST
/auth/logout and GET /auth/ping behind the `Auth` middleware only, GET /antifroad/key and
POST /antifroad/rotate-keys behind no middleware. -/
theorem core_routes (m : middleware.Names) :
    (auth_refresh_post_handler.Method = "POST" ∧
      auth_refresh_post_handler.Path = "/auth/refresh" ∧
      auth_refresh_post_handler.Middleware m = [m.RefreshToken]) ∧
    (auth_logout_post_handler.Method = "POST" ∧
      auth_logout_post_handler.Path = "/auth/logout" ∧
      auth_logout_post_handler.Middleware m = [m.Auth]) ∧
    (auth_ping_get_handler.Method = "GET" ∧
      auth_ping_get_handler.Path = "/auth/ping" ∧
      auth_ping_get_handler.Middleware m = [m.Auth]) ∧
    (antifroad_key_get_handler.Method = "GET" ∧
      antifroad_key_get_handler.Path = "/antifroad/key" ∧
      antifroad_key_get_handler.Middleware m = []) ∧
    (antifroad_rotate_keys_post_handler.Method = "POST" ∧
      antifroad_rotate_keys_post_handler.Path = "/antifroad/rotate-keys" ∧
      antifroad_rotate_keys_post_handler.Middleware m = []) :=
  ⟨⟨rfl, rfl, rfl⟩, ⟨rfl, rfl, rfl⟩, ⟨rfl, rfl, rfl⟩, ⟨rfl, rfl, rfl⟩, ⟨rfl, rfl, rfl⟩⟩

end ClaimC13

section ClaimC14

open session_service

/-- Once a refresh has replaced a token by a different one, no session is found under the
old token. -/
theorem find_replaced (sessions : List Session) (old fresh : String) (hne : fresh ≠ old) :
    (sessions.map (fun x =>
        if x.refreshToken == old then (⟨x.userID, fresh, x.expiry⟩ : Session) else x)).find?
      (fun session => session.refreshToken == old) = none := by
  rw [List.find?_eq_none]
  intro x hx
  rw [List.mem_map] at hx
  obtain ⟨y, _, rfl⟩ := hx
  by_cases hy : y.refreshToken = old
  · simp [hy, hne]
  · simp [hy]

/-- C14: for a valid session (found under the refresh token of the request and not
expired) and a generator whose new value differs from that token, the first refresh
succeeds with a new pair, which the endpoint sets as cookies, and a second refresh with the
original token, at whatever later time, fails with `SessionNotFound`, which the endpoint
answers with 404 and without cookies. -/
theorem refresh_rotation_invalidates_old_token (codec : Codec) (s : State) (c : gin.Context)
    (session : Session) (t2 : Nat)
    (hfound : s.sessions.find? (fun x => x.refreshToken == c.refreshToken) = some session)
    (hvalid : s.clock < session.expiry)
    (hfresh : codec.refreshToken s.issued ≠ c.refreshToken) :
    (Refresh codec s ⟨c.refreshToken⟩).1 =
      (some ⟨codec.accessToken session.userID s.clock, codec.refreshToken s.issued⟩, none) ∧
    (auth_refresh_post_handler.Handle
        (auth_refresh_post_handler.New (asRefresher codec s)) c).1 =
      [Effect.Refresh c.refreshToken,
       Effect.SetAccessToken (codec.accessToken session.userID s.clock),
       Effect.SetRefreshToken (codec.refreshToken s.issued)] ∧
    (∃ err, (Refresh codec ((Refresh codec s ⟨c.refreshToken⟩).2.atTime t2)
        ⟨c.refreshToken⟩).1 = (none, some err) ∧
      auth_service.IsSessionNotFoundError err = true) ∧
    (auth_refresh_post_handler.Handle
        (auth_refresh_post_handler.New
          (asRefresher codec ((Refresh codec s ⟨c.refreshToken⟩).2.atTime t2))) c).1 =
      [Effect.Refresh c.refreshToken,
       Effect.Log Level.Warning
         (auth_refresh_post_handler.logCtx c ++ [Field.StatusCode 404] ++
           [Field.Err ⟨ErrorKind.SessionNotFound, "session not found"⟩]),
       Effect.WriteError 404 (Message.text "session not found")] := by
  have hnot : ¬ session.expiry ≤ s.clock := Nat.not_le.mpr hvalid
  have e1 : Refresh codec s ⟨c.refreshToken⟩ =
      ((some ⟨codec.accessToken session.userID s.clock, codec.refreshToken s.issued⟩, none),
       ⟨s.sessions.map (fun x =>
          if x.refreshToken == c.refreshToken then
            (⟨x.userID, codec.refreshToken s.issued, x.expiry⟩ : Session) else x),
        s.clock, s.issued + 1⟩) := by
    simp [Refresh, hfound, hnot]
  have e2 : Refresh codec ((Refresh codec s ⟨c.refreshToken⟩).2.atTime t2) ⟨c.refreshToken⟩ =
      ((none, some ⟨ErrorKind.SessionNotFound, "session not found"⟩),
       (Refresh codec s ⟨c.refreshToken⟩).2.atTime t2) := by
    rw [e1]
    unfold Refresh
    simp only [State.atTime]
    rw [find_replaced _ _ _ hfresh]
  refine ⟨by rw [e1], ?_,
    ⟨⟨ErrorKind.SessionNotFound, "session not found"⟩, by rw [e2], rfl⟩, ?_⟩
  · rw [refresh_Handle_trace]
    simp only [auth_refresh_post_handler.New, asRefresher]
    rw [e1]
  · rw [refresh_Handle_trace]
    simp only [auth_refresh_post_handler.New, asRefresher]
    rw [e2]
    simp [refresh_handleError_eq, auth_service.IsSessionNotFoundError]

/-- C14 at an instance: the session of user 7 refreshed twice with the token `refresh`. -/
theorem refresh_rotation_invalidates_old_token_witness :
    (Refresh numbering oneSession ⟨"refresh"⟩).1 = (some ⟨"access-7", "refresh-0"⟩, none) ∧
    statuses (auth_refresh_post_handler.Handle
      (auth_refresh_post_handler.New
        (asRefresher numbering ((Refresh numbering oneSession ⟨"refresh"⟩).2.atTime 20)))
      bareRequest).1 = [404] :=
  have h := refresh_rotation_invalidates_old_token numbering oneSession bareRequest
    ⟨7, "refresh", 100⟩ 20 (by decide) (by decide) (by decide)
  ⟨h.1, congrArg statuses h.2.2.2⟩

end ClaimC14

section ClaimC15

open antifroad_service

theorem Rotate_length (cfg : config.Antifroad) (generate : Nat → String) (s : State)
    (hN : 0 ≤ cfg.MaxKeys) : ((Rotate cfg generate s).keys.length : Int) ≤ cfg.MaxKeys := by
  simp only [Rotate, List.length_take, List.length_cons]
  omega

theorem RotateKeys_length (cfg : config.Antifroad) (generate : Nat → String) (s : State)
    (password : String) (hN : 0 ≤ cfg.MaxKeys) (hs : (s.keys.length : Int) ≤ cfg.MaxKeys) :
    ((RotateKeys cfg generate s password).2.keys.length : Int) ≤ cfg.MaxKeys := by
  unfold RotateKeys
  split_ifs
  · exact Rotate_length cfg generate s hN
  · exact hs

theorem rotateMany_length (cfg : config.Antifroad) (generate : Nat → String)
    (password : String) (hN : 0 ≤ cfg.MaxKeys) (n : Nat) :
    ∀ s : State, (s.keys.length : Int) ≤ cfg.MaxKeys →
      ((rotateMany cfg generate password n s).keys.length : Int) ≤ cfg.MaxKeys := by
  induction n with
  | zero => intro s hs; exact hs
  | succ n ih =>
    intro s hs
    exact ih _ (RotateKeys_length cfg generate s password hN hs)

/-- C15: with a configured maximum of at least one key, a store within the maximum stays
within it under `Init`, under a scheduled rotation, under `RotateKeys` with any password
and under any number of successive calls of it; with the maximum 3, after 10 successive
rotations of any store exactly 3 keys exist and `GetKey` returns the key the tenth
rotation created. -/
theorem bounded_key_set (cfg : config.Antifroad) (generate : Nat → String) (s : State)
    (password : String) (hN : 1 ≤ cfg.MaxKeys)
    (hs : (s.keys.length : Int) ≤ cfg.MaxKeys) :
    ((Init generate s).keys.length : Int) ≤ cfg.MaxKeys ∧
    ((Rotate cfg generate s).keys.length : Int) ≤ cfg.MaxKeys ∧
    ((RotateKeys cfg generate s password).2.keys.length : Int) ≤ cfg.MaxKeys ∧
    ((GetKey cfg s password).2.keys.length : Int) ≤ cfg.MaxKeys ∧
    (∀ n, ((rotateMany cfg generate password n s).keys.length : Int) ≤ cfg.MaxKeys) ∧
    (∀ other : State, cfg.MaxKeys = 3 →
      (rotateMany cfg generate cfg.Password 10 other).keys.length = 3 ∧
      (GetKey cfg (rotateMany cfg generate cfg.Password 10 other) cfg.Password).1 =
        (some ⟨generate (other.generated + 9)⟩, none)) := by
  have h0 : 0 ≤ cfg.MaxKeys := by omega
  refine ⟨?_, Rotate_length cfg generate s h0, RotateKeys_length cfg generate s password h0 hs,
    ?_, fun n => rotateMany_length cfg generate password h0 n s hs, fun other h3 => ?_⟩
  · unfold Init
    cases hk : s.keys with
    | nil => simpa using hN
    | cons k ks => simpa [hk] using hs
  · unfold GetKey
    split_ifs
    · cases hk : s.keys <;> simpa [hk] using hs
    · exact hs
  · have e : (rotateMany cfg generate cfg.Password 10 other).keys =
        [⟨generate (other.generated + 9)⟩, ⟨generate (other.generated + 8)⟩,
         ⟨generate (other.generated + 7)⟩] := by
      simp [rotateMany, RotateKeys, Rotate, h3, List.take_succ_cons]
    rw [GetKey, e]
    simp

/-- C15 at an instance: ten rotations of the empty store with the maximum 3. -/
theorem bounded_key_set_witness :
    (rotateMany threeKeys numbered "pw" 10 ⟨[], 0⟩).keys.length = 3 ∧
    (GetKey threeKeys (rotateMany threeKeys numbered "pw" 10 ⟨[], 0⟩) "pw").1 =
      (some ⟨"key-9"⟩, none) :=
  (bounded_key_set threeKeys numbered ⟨[], 0⟩ "pw" (by decide) (by decide)).2.2.2.2.2
    ⟨[], 0⟩ rfl

end ClaimC15

section Callback

open auth_provider_callback_post_handler

/-- The effects of the callback handler, by the answers of its collaborators. -/
theorem callback_Handle_trace {σ ω : Type} (p : Imports) (h : Handler σ ω) (c : gin.Context) :
    (Handle p h c).1 =
      match p.newIn c with
      | Except.error err =>
        [Effect.Log Level.Error (logCtx c ++ [Field.Err err]), Effect.Redirect 308 h.errorURL]
      | Except.ok i =>
        match (h.oauthManager.Complete h.oauthManager.state c i.Provider).1 with
        | (_, some err) =>
          [Effect.Complete i.Provider,
           Effect.Log Level.Error (logCtx c ++ [Field.KV "provider" i.Provider] ++ [Field.Err err]),
           Effect.Redirect 308 h.errorURL]
        | (none, none) =>
          [Effect.Complete i.Provider,
           Effect.Log Level.Error
             (logCtx c ++ [Field.KV "provider" i.Provider] ++ [Field.KV "msg" "oauth user is nil"]),
           Effect.Redirect 308 h.errorURL]
        | (some user, none) =>
          match (h.authService.Callback h.authService.state ⟨user.Email, user.Provider⟩).1 with
          | (_, some err) =>
            [Effect.Complete i.Provider, Effect.Callback user.Email user.Provider,
             Effect.Log Level.Error
               (logCtx c ++ [Field.KV "provider" i.Provider] ++
                 [Field.KV "external_user_id" user.ID] ++ [Field.Err err])] ++
              handleError p h err
          | (none, none) =>
            [Effect.Complete i.Provider, Effect.Callback user.Email user.Provider,
             Effect.Log Level.Error
               (logCtx c ++ [Field.KV "provider" i.Provider] ++
                 [Field.KV "external_user_id" user.ID] ++
                 [Field.KV "msg" "auth service response is nil"]),
             Effect.Redirect 308 h.errorURL]
          | (some out, none) =>
            [Effect.Complete i.Provider, Effect.Callback user.Email user.Provider] ++
              finish h (logCtx c ++ [Field.KV "provider" i.Provider] ++
                [Field.KV "external_user_id" user.ID]) out := by
  unfold Handle
  rcases p.newIn c with err | i
  · simp [logCtx, Logger.WithError, http.StatusPermanentRedirect]
  · simp only
    rcases h.oauthManager.Complete h.oauthManager.state c i.Provider with ⟨⟨_ | user, _ | oerr⟩, o⟩
    · simp [logCtx, Logger.WithField, http.StatusPermanentRedirect]
    · simp [logCtx, Logger.WithField, Logger.WithError, http.StatusPermanentRedirect]
    · simp only
      rcases h.authService.Callback h.authService.state ⟨user.Email, user.Provider⟩
        with ⟨⟨_ | out, _ | err⟩, s⟩ <;>
        simp [logCtx, Logger.WithField, Logger.WithError, http.StatusPermanentRedirect]
    · simp [logCtx, Logger.WithField, Logger.WithError, http.StatusPermanentRedirect]

end Callback

/-- The effects of `handleError` of the callback handler, whatever `url.Parse` answers. -/
theorem callback_handleError_cases {σ ω : Type}
    (p : auth_provider_callback_post_handler.Imports)
    (h : auth_provider_callback_post_handler.Handler σ ω) (err : Error) :
    auth_provider_callback_post_handler.handleError p h err =
      if auth_service.IsEmailAlreadyTakenError err = true then
        match p.Parse h.errorURL with
        | Except.ok u => [Effect.Redirect 308 (url.URL.String ⟨u.Head, "status=1", u.Fragment⟩)]
        | Except.error _ => [Effect.Panic]
      else [Effect.Redirect 308 h.errorURL] := by
  unfold auth_provider_callback_post_handler.handleError
    auth_provider_callback_post_handler.buildErrorURL
  rcases p.Parse h.errorURL with e | u
  · split_ifs <;> simp [http.StatusPermanentRedirect]
  · split_ifs
    · simp only [http.StatusPermanentRedirect]
      rfl
    · simp [http.StatusPermanentRedirect]

section ClaimC16

open auth_provider_callback_post_handler

/-- C16, the claim as stated fails: with an error URL that `url.Parse` rejects, here one
with a line feed at its end, and an auth service that reports the email as taken, `Handle`
logs the error, reaches the panic of `buildErrorURL` and makes no redirect. -/
theorem callback_panics_without_redirect :
    (Handle strictImports (misconfigured emailTaken completing) bareRequest).1 =
      [Effect.Complete "google", Effect.Callback "user@example.org" "google",
       Effect.Log Level.Error
         [Field.HandlerName "auth_provider_callback_post_handler",
          Field.KV "provider" "google", Field.KV "external_user_id" "u1",
          Field.Err ⟨ErrorKind.EmailAlreadyTaken, "email is taken"⟩],
       Effect.Panic] ∧
    redirects (Handle strictImports (misconfigured emailTaken completing) bareRequest).1 = [] ∧
    statuses (Handle strictImports (misconfigured emailTaken completing) bareRequest).1
      = [] := by
  decide

/-- C16, amended: for every request and every outcome of the OAuth completion and of the
auth service, `Handle` of the callback handler ends either in exactly one redirect, with
status 308, as its last effect, or in a panic with no redirect at all. It panics exactly
in these runs: the auth service returns an error with the `EmailAlreadyTaken` tag and
`url.Parse` rejects the configured error URL, so that `buildErrorURL` panics; or the auth
service returns a result that is a registration without a registration token, or that is
no registration but a login without an access token or without a refresh token, so that a
nil pointer is dereferenced. -/
theorem callback_308_or_panic {σ ω : Type} (p : Imports) (h : Handler σ ω) (c : gin.Context) :
    ((∃ location, redirects (Handle p h c).1 = [(308, location)] ∧
        (Handle p h c).1.getLast? = some (Effect.Redirect 308 location) ∧
        statuses (Handle p h c).1 = [308] ∧ Effect.Panic ∉ (Handle p h c).1) ∨
      (redirects (Handle p h c).1 = [] ∧ statuses (Handle p h c).1 = [] ∧
        (Handle p h c).1.getLast? = some Effect.Panic)) ∧
    (Effect.Panic ∈ (Handle p h c).1 ↔
      ∃ i user, p.newIn c = Except.ok i ∧
        (h.oauthManager.Complete h.oauthManager.state c i.Provider).1 = (some user, none) ∧
        ((∃ out err e,
            (h.authService.Callback h.authService.state ⟨user.Email, user.Provider⟩).1 =
              (out, some err) ∧
            auth_service.IsEmailAlreadyTakenError err = true ∧
            p.Parse h.errorURL = Except.error e) ∨
          (∃ out,
            (h.authService.Callback h.authService.state ⟨user.Email, user.Provider⟩).1 =
              (some out, none) ∧
            ((out.IsRegistration = true ∧ out.RegistrationToken = none) ∨
              (out.IsRegistration = false ∧ out.IsLogin = true ∧
                (out.AccessToken = none ∨ out.RefreshToken = none)))))) := by
  rw [callback_Handle_trace]
  rcases hi : p.newIn c with err | i
  · simp [redirects, statuses]
  · simp only [Except.ok.injEq, exists_and_left, exists_eq_left']
    rcases hc : (h.oauthManager.Complete h.oauthManager.state c i.Provider).1
      with ⟨_ | user, _ | oerr⟩
    · simp [hc, redirects, statuses]
    · simp [hc, redirects, statuses]
    · simp only [hc, Prod.mk.injEq, Option.some.injEq, and_true, exists_eq_left']
      rcases hs : (h.authService.Callback h.authService.state ⟨user.Email, user.Provider⟩).1
        with ⟨_ | out, _ | err⟩
      · simp [hs, redirects, statuses]
      · simp only [callback_handleError_cases]
        by_cases he : auth_service.IsEmailAlreadyTakenError err = true
        · rcases hp : p.Parse h.errorURL with e | u
          · simp [hs, he, redirects, statuses]
            exact ⟨_, _, ⟨rfl, rfl⟩, he⟩
          · simp [hs, he, redirects, statuses]
        · simp [hs, he, redirects, statuses]
      · rcases out with ⟨reg, access, refresh, isReg, isLogin⟩
        unfold finish
        cases isReg <;> cases isLogin <;> cases reg <;> cases access <;> cases refresh <;>
          simp [hs, redirects, statuses, Logger.WithField, http.StatusPermanentRedirect]
      · simp only [callback_handleError_cases]
        by_cases he : auth_service.IsEmailAlreadyTakenError err = true
        · rcases hp : p.Parse h.errorURL with e | u
          · simp [hs, he, redirects, statuses]
            exact ⟨_, _, ⟨rfl, rfl⟩, he⟩
          · simp [hs, he, redirects, statuses]
        · simp [hs, he, redirects, statuses]
    · simp [hc, redirects, statuses]

/-- C16, the amended statement at instances: a login with the error URL that is rejected
ends in a redirect, and the email that is taken ends in the panic. -/
theorem callback_308_or_panic_witness :
    Effect.Panic ∉ (Handle strictImports (misconfigured loggingIn completing) bareRequest).1 ∧
    Effect.Panic ∈ (Handle strictImports (misconfigured emailTaken completing) bareRequest).1 :=
  ⟨fun hmem =>
    match (callback_308_or_panic strictImports (misconfigured loggingIn completing)
      bareRequest).2.mp hmem with
    | ⟨_, _, _, hu, Or.inl ⟨_, _, _, hcall, _⟩⟩ => by
      cases hu
      simp [misconfigured, New, loggingIn] at hcall
    | ⟨_, _, _, hu, Or.inr ⟨out, hcall, hout⟩⟩ => by
      cases hu
      simp only [misconfigured, New, loggingIn, Prod.mk.injEq, Option.some.injEq,
        and_true] at hcall
      subst hcall
      simp at hout,
   (callback_308_or_panic strictImports (misconfigured emailTaken completing)
      bareRequest).2.mpr
     ⟨⟨"google"⟩, ⟨"u1", "user@example.org", "google"⟩, rfl, rfl,
      Or.inl ⟨none, ⟨ErrorKind.EmailAlreadyTaken, "email is taken"⟩,
        ⟨ErrorKind.Untagged, "net/url: invalid control character in URL"⟩, rfl, rfl,
        rfl⟩⟩⟩

end ClaimC16

section ClaimC17

open auth_provider_callback_post_handler

/-- C17, the code at the failing input: when the OAuth provider has refused the request,
the handler redirects to the configured error URL as it stands, without a `status`
parameter; the parameter is added on the one path of an email that is already taken. -/
theorem callback_error_redirect_without_status :
    (Handle plainImports (example_handler registering refusing) bareRequest).1 =
      [Effect.Complete "google",
       Effect.Log Level.Error
         [Field.HandlerName "auth_provider_callback_post_handler",
          Field.KV "provider" "google", Field.Err ⟨ErrorKind.Untagged, "access denied"⟩],
       Effect.Redirect 308 "https://front.example/error"] ∧
    redirects (Handle plainImports (example_handler emailTaken completing) bareRequest).1 =
      [(308, "https://front.example/error?status=1")] := by
  decide

end ClaimC17

section ClaimC18

open auth_provider_callback_post_handler

/-- C18: in the callback handler, when the OAuth completion returns a user and the auth
service a result without error, a registration (with its token) sets the
registration-token cookie only and redirects to exactly the configured registration URL,
and a login that is not a registration (with its tokens) sets the access-token and
refresh-token cookies only, to the tokens of the result, and redirects to exactly the
configured logged-in URL; on every error path (no provider, OAuth error or nil user, error
or nil result of the auth service, result that is neither) no cookie is set, and apart
from an error of the auth service the redirect goes to the error URL as configured. -/
theorem callback_cookies_and_targets {σ ω : Type} (p : Imports) (h : Handler σ ω)
    (c : gin.Context) :
    (∀ i user out, p.newIn c = Except.ok i →
      (h.oauthManager.Complete h.oauthManager.state c i.Provider).1 = (some user, none) →
      (h.authService.Callback h.authService.state ⟨user.Email, user.Provider⟩).1
        = (some out, none) →
      (∀ token, out.IsRegistration = true → out.RegistrationToken = some token →
        (Handle p h c).1 =
          [Effect.Complete i.Provider, Effect.Callback user.Email user.Provider,
           Effect.SetRegistrationToken token, Effect.Redirect 308 h.registrationURL]) ∧
      (∀ access refresh, out.IsRegistration = false → out.IsLogin = true →
        out.AccessToken = some access → out.RefreshToken = some refresh →
        (Handle p h c).1 =
          [Effect.Complete i.Provider, Effect.Callback user.Email user.Provider,
           Effect.SetAccessToken access, Effect.SetRefreshToken refresh,
           Effect.Redirect 308 h.loggedInURL]) ∧
      (out.IsRegistration = false → out.IsLogin = false →
        cookies (Handle p h c).1 = [] ∧ redirects (Handle p h c).1 = [(308, h.errorURL)])) ∧
    (∀ err, p.newIn c = Except.error err →
      cookies (Handle p h c).1 = [] ∧ redirects (Handle p h c).1 = [(308, h.errorURL)]) ∧
    (∀ i, p.newIn c = Except.ok i →
      (h.oauthManager.Complete h.oauthManager.state c i.Provider).1 = (none, none) →
      cookies (Handle p h c).1 = [] ∧ redirects (Handle p h c).1 = [(308, h.errorURL)]) ∧
    (∀ i user out err, p.newIn c = Except.ok i →
      (h.oauthManager.Complete h.oauthManager.state c i.Provider).1 = (some user, none) →
      (h.authService.Callback h.authService.state ⟨user.Email, user.Provider⟩).1
        = (out, some err) →
      cookies (Handle p h c).1 = []) ∧
    (∀ i user, p.newIn c = Except.ok i →
      (h.oauthManager.Complete h.oauthManager.state c i.Provider).1 = (some user, none) →
      (h.authService.Callback h.authService.state ⟨user.Email, user.Provider⟩).1
        = (none, none) →
      cookies (Handle p h c).1 = [] ∧ redirects (Handle p h c).1 = [(308, h.errorURL)]) ∧
    (∀ i user err, p.newIn c = Except.ok i →
      (h.oauthManager.Complete h.oauthManager.state c i.Provider).1 = (user, some err) →
      cookies (Handle p h c).1 = [] ∧ redirects (Handle p h c).1 = [(308, h.errorURL)]) := by
  rw [callback_Handle_trace]
  refine ⟨fun i user out hi hc hs => ?_, fun err hi => ?_, fun i hi hc => ?_,
    fun i user out err hi hc hs => ?_, fun i user hi hc hs => ?_,
    fun i user err hi hc => ?_⟩
  · rw [hi]
    simp only
    rw [hc]
    simp only
    rw [hs]
    refine ⟨fun token hr ht => ?_, fun access refresh hr hl ha hf => ?_, fun hr hl => ?_⟩
    · simp [finish, hr, ht, http.StatusPermanentRedirect]
    · simp [finish, hr, hl, ha, hf, http.StatusPermanentRedirect]
    · simp [finish, hr, hl, cookies, Effect.isCookie, redirects, http.StatusPermanentRedirect]
  · rw [hi]
    simp [cookies, Effect.isCookie, redirects]
  · rw [hi]
    simp only
    rw [hc]
    simp [cookies, Effect.isCookie, redirects]
  · rw [hi]
    simp only
    rw [hc]
    simp only
    rw [hs]
    have hcases : handleError p h err = [Effect.Panic] ∨
        ∃ location, handleError p h err = [Effect.Redirect 308 location] := by
      unfold handleError
      split_ifs
      · cases buildErrorURL p h EmailIsAlreadyTaken with
        | error e => exact Or.inl rfl
        | ok location => exact Or.inr ⟨location, rfl⟩
      · exact Or.inr ⟨h.errorURL, rfl⟩
    cases out <;> rcases hcases with hp | ⟨location, hp⟩ <;>
      simp [hp, cookies, Effect.isCookie]
  · rw [hi]
    simp only
    rw [hc]
    simp only
    rw [hs]
    simp [cookies, Effect.isCookie, redirects]
  · rw [hi]
    simp only
    rw [hc]
    cases user <;> simp [cookies, Effect.isCookie, redirects]

/-- C18 at instances: a registration and a login through the example handler. -/
theorem callback_cookies_and_targets_witness :
    (Handle plainImports (example_handler registering completing) bareRequest).1 =
      [Effect.Complete "google", Effect.Callback "user@example.org" "google",
       Effect.SetRegistrationToken "reg-1",
       Effect.Redirect 308 "https://front.example/register"] ∧
    (Handle plainImports (example_handler loggingIn completing) bareRequest).1 =
      [Effect.Complete "google", Effect.Callback "user@example.org" "google",
       Effect.SetAccessToken "a-1", Effect.SetRefreshToken "r-1",
       Effect.Redirect 308 "https://front.example/home"] :=
  ⟨((callback_cookies_and_targets plainImports (example_handler registering completing)
      bareRequest).1 ⟨"google"⟩ ⟨"u1", "user@example.org", "google"⟩
      ⟨some "reg-1", none, none, true, false⟩ rfl rfl rfl).1 "reg-1" rfl rfl,
   ((callback_cookies_and_targets plainImports (example_handler loggingIn completing)
      bareRequest).1 ⟨"google"⟩ ⟨"u1", "user@example.org", "google"⟩
      ⟨none, some "a-1", some "r-1", false, true⟩ rfl rfl rfl).2.1 "a-1" "r-1" rfl rfl rfl rfl⟩

end ClaimC18

section ClaimC19

open users_username_availability_get_handler

/-- C19, the code at the failing input: the handler of GET /users/username-availability is
registered behind no middleware, and a request that carries a username and no token of any
kind reaches the availability service and is answered 200; no run of the handler writes
401. -/
theorem availability_without_registration_token :
    (∀ m : middleware.Names, Middleware m = []) ∧
    (Handle (New generousAvailability) usernameRequest).1 =
      [Effect.IsUsernameAvailable "ffh", Effect.JSON 200 true] ∧
    (∀ c : gin.Context, 401 ∉ statuses (Handle (New generousAvailability) c).1) := by
  refine ⟨fun _ => rfl, by decide, fun c => ?_⟩
  unfold Handle newRequest
  by_cases hu : c.Query "username" = ""
  · simp [hu, statuses, http.StatusBadRequest]
  · simp [hu, statuses, New, generousAvailability, http.StatusOK]

end ClaimC19

section ClaimC20

open config

/-- A match of the pattern is not empty: what follows it is shorter than the text. -/
theorem matchAt_shorter (text found after : List Char)
    (h : matchAt text = some (found, after)) : after.length < text.length := by
  unfold matchAt at h
  split at h
  · rename_i rest
    have hlen := congrArg List.length (List.takeWhile_append_dropWhile (fun ch => ch != '}') rest)
    rw [List.span_eq_take_drop] at h
    split at h
    · exact absurd h (by simp)
    · rename_i name after2 heq
      simp only [Option.some.injEq, Prod.mk.injEq] at h
      simp only [Prod.mk.injEq] at heq
      rw [heq.1, heq.2, List.length_append, List.length_cons] at hlen
      rw [← h.2]
      simp only [List.length_cons]
      omega
    · exact absurd h (by simp)
  · exact absurd h (by simp)

/-- One step for every character is enough fuel: more fuel gives the same result. -/
theorem replaceAllFrom_fuel (repl : List Char → List Char) (n : Nat) :
    ∀ (m : Nat) (text : List Char), text.length ≤ n → text.length ≤ m →
      replaceAllFrom repl n text = replaceAllFrom repl m text := by
  induction n with
  | zero =>
    intro m text hn _
    have ht : text = [] := List.length_eq_zero.mp (Nat.le_zero.mp hn)
    subst ht
    cases m <;> rfl
  | succ n ih =>
    intro m text hn hm
    cases text with
    | nil => cases m <;> rfl
    | cons ch rest =>
      cases m with
      | zero => exact absurd hm (by simp)
      | succ m =>
        simp only [replaceAllFrom]
        cases hmatch : matchAt (ch :: rest) with
        | none =>
          simp only
          rw [ih m rest (by simpa using hn) (by simpa using hm)]
        | some fa =>
          obtain ⟨found, after⟩ := fa
          have hlt := matchAt_shorter _ _ _ hmatch
          simp only [List.length_cons] at hlt hn hm
          simp only
          rw [ih m after (by omega) (by omega)]

/-- C20, the code at the failing input: with `A` set to `1` and no variable named `{A`,
the text `${{A}`, an occurrence of the pattern with the name `{A`, is replaced
by `1`, the value of `A`; names without `$` and braces at their ends are looked up as they
stand. -/
theorem expandEnvVars_trims_the_name :
    expandEnvVars onlyA "$\x7b\x7bA\x7d" = "1" ∧
    onlyA "\x7bA" = none ∧
    expandEnvVars onlyA "a: $\x7bA\x7d, b: $\x7bB\x7d" = "a: 1, b: $\x7bB\x7d" := by
  decide

end ClaimC20

/-! ### Statistics of the current user -/

section ClaimC21

open users_me_statistics_get_handler

/-- C21 (code bug): `newResponseBody` fills the field `duration` of every statistic with
`Duration.Milliseconds()`, while the description of the field reads "Duration in
microseconds". For a test of one second and a half the field is 1500, and the duration in
microseconds is 1500000. -/
theorem statistics_duration_in_milliseconds :
    (∀ (MarshalTime : Nat → String) (stats : List (models.Statistics Nat)),
      (newResponseBody MarshalTime stats).Statistics.map (fun s => s.Duration) =
        stats.map (fun stat => time.Duration.Milliseconds stat.Duration)) ∧
    (newResponseBody (fun _ => "2023-12-25T15:04:05Z")
        [models.Statistics.sample]).Statistics.map (fun s => s.Duration) = [1500] ∧
    time.Duration.Microseconds models.Statistics.sample.Duration = 1500000 ∧
    time.Duration.Milliseconds models.Statistics.sample.Duration = 1500 := by
  refine ⟨fun M stats => ?_, by decide, by decide, by decide⟩
  simp [newResponseBody, Function.comp_def]

end ClaimC21

/-! ### Change of the username -/

/-- What `handleError` of the username handler does, by the tags of the error. -/
theorem username_handleError_eq (ctx : Ctx) (err : Error) :
    users_me_username_patch_handler.handleError ctx err =
      if models.IsValidationError err = true ∨ models.IsSameUsernameError err = true then
        [Effect.Log Level.Warning (ctx ++ [Field.StatusCode 400] ++ [Field.Err err]),
         Effect.WriteError 400 (Message.text err.text)]
      else if models.IsUsernameAlreadyTakenError err = true then
        [Effect.Log Level.Warning (ctx ++ [Field.StatusCode 409] ++ [Field.Err err]),
         Effect.WriteError 409 (Message.text err.text)]
      else if models.IsTooMuchUsernameChangesError err = true then
        [Effect.Log Level.Warning (ctx ++ [Field.StatusCode 429] ++ [Field.Err err]),
         Effect.WriteError 429 (Message.text err.text)]
      else
        [Effect.Log Level.Error (ctx ++ [Field.StatusCode 500] ++ [Field.Err err]),
         Effect.WriteError 500 (Message.text "something went wrong serverside")] := by
  unfold users_me_username_patch_handler.handleError
  cases h1 : models.IsValidationError err <;> cases h2 : models.IsSameUsernameError err <;>
    cases h3 : models.IsUsernameAlreadyTakenError err <;>
    cases h4 : models.IsTooMuchUsernameChangesError err <;>
    simp [Logger.WithError, Logger.WithStatusCode, http.StatusBadRequest, http.StatusConflict,
      http.StatusTooManyRequests, http.StatusInternalServerError]

/-- The effects of the username handler, by the body of the request and the answer of the
service. -/
theorem username_Handle_trace {σ : Type} (p : users_me_username_patch_handler.Imports)
    (h : users_me_username_patch_handler.Handler σ) (c : gin.Context) :
    (users_me_username_patch_handler.Handle p h c).1 =
      match p.ShouldBindBodyWithJSON c with
      | Except.error err =>
        [Effect.WriteError 400 (Message.error err),
         Effect.Log Level.Warning
           (users_me_username_patch_handler.logCtx c ++ [Field.StatusCode 400] ++
             [Field.Err err])]
      | Except.ok body =>
        match (h.userService.ChangeUsername h.userService.state (p.GetUserID c)
            body.Username).1 with
        | some err =>
          Effect.ChangeUsername (p.GetUserID c) body.Username ::
            users_me_username_patch_handler.handleError
              (users_me_username_patch_handler.logCtx c) err
        | none => [Effect.ChangeUsername (p.GetUserID c) body.Username] := by
  unfold users_me_username_patch_handler.Handle users_me_username_patch_handler.newRequest
  rcases hb : p.ShouldBindBodyWithJSON c with err | body
  · simp [users_me_username_patch_handler.logCtx, Logger.WithError, Logger.WithStatusCode,
      http.StatusBadRequest]
  · simp only []
    rcases h.userService.ChangeUsername h.userService.state (p.GetUserID c) body.Username
      with ⟨_ | err, s⟩ <;> simp [users_me_username_patch_handler.logCtx]

section ClaimC22

open users_me_username_patch_handler

/-- C22: when the body of the request is read and `ChangeUsername` returns an error, the
username handler calls the service once and answers by the tag of the error: a validation
error or a same-username error gives 400, username-already-taken gives 409 and
too-many-username-changes gives 429, each with the text of the error and a record at
warning level; every other error gives 500 with the fixed text "something went wrong
serverside" and a record at error level. -/
theorem username_error_mapping {σ : Type} (p : Imports) (h : Handler σ) (c : gin.Context)
    (body : RequestBody) (err : Error)
    (hbody : p.ShouldBindBodyWithJSON c = Except.ok body)
    (hsvc : (h.userService.ChangeUsername h.userService.state (p.GetUserID c)
      body.Username).1 = some err) :
    (models.IsValidationError err = true ∨ models.IsSameUsernameError err = true →
      (Handle p h c).1 =
        [Effect.ChangeUsername (p.GetUserID c) body.Username,
         Effect.Log Level.Warning (logCtx c ++ [Field.StatusCode http.StatusBadRequest] ++
           [Field.Err err]),
         Effect.WriteError http.StatusBadRequest (Message.text err.text)]) ∧
    (models.IsUsernameAlreadyTakenError err = true →
      (Handle p h c).1 =
        [Effect.ChangeUsername (p.GetUserID c) body.Username,
         Effect.Log Level.Warning (logCtx c ++ [Field.StatusCode http.StatusConflict] ++
           [Field.Err err]),
         Effect.WriteError http.StatusConflict (Message.text err.text)]) ∧
    (models.IsTooMuchUsernameChangesError err = true →
      (Handle p h c).1 =
        [Effect.ChangeUsername (p.GetUserID c) body.Username,
         Effect.Log Level.Warning (logCtx c ++ [Field.StatusCode http.StatusTooManyRequests] ++
           [Field.Err err]),
         Effect.WriteError http.StatusTooManyRequests (Message.text err.text)]) ∧
    (models.IsValidationError err = false → models.IsSameUsernameError err = false →
      models.IsUsernameAlreadyTakenError err = false →
      models.IsTooMuchUsernameChangesError err = false →
      (Handle p h c).1 =
        [Effect.ChangeUsername (p.GetUserID c) body.Username,
         Effect.Log Level.Error (logCtx c ++ [Field.StatusCode http.StatusInternalServerError] ++
           [Field.Err err]),
         Effect.WriteError http.StatusInternalServerError
           (Message.text "something went wrong serverside")]) ∧
    http.StatusBadRequest = 400 ∧ http.StatusConflict = 409 ∧
    http.StatusTooManyRequests = 429 ∧ http.StatusInternalServerError = 500 := by
  have ht : (Handle p h c).1 =
      Effect.ChangeUsername (p.GetUserID c) body.Username :: handleError (logCtx c) err := by
    rw [username_Handle_trace, hbody]
    simp only []
    rw [hsvc]
  rw [ht, username_handleError_eq]
  refine ⟨fun h1 => ?_, fun h3 => ?_, fun h4 => ?_, fun h1 h2 h3 h4 => ?_, rfl, rfl, rfl, rfl⟩
  · simp [h1, http.StatusBadRequest]
  · have h1 : ¬ (models.IsValidationError err = true ∨
        models.IsSameUsernameError err = true) := by
      simp only [models.IsUsernameAlreadyTakenError, decide_eq_true_eq] at h3
      simp [models.IsValidationError, models.IsSameUsernameError, h3]
    simp [h1, h3, http.StatusConflict]
  · have h1 : ¬ (models.IsValidationError err = true ∨
        models.IsSameUsernameError err = true) := by
      simp only [models.IsTooMuchUsernameChangesError, decide_eq_true_eq] at h4
      simp [models.IsValidationError, models.IsSameUsernameError, h4]
    have h3 : models.IsUsernameAlreadyTakenError err = false := by
      simp only [models.IsTooMuchUsernameChangesError, decide_eq_true_eq] at h4
      simp [models.IsUsernameAlreadyTakenError, h4]
    simp [h1, h3, h4, http.StatusTooManyRequests]
  · simp [h1, h2, h3, h4, http.StatusInternalServerError]

/-- C22 at instances: one refused change of each kind. -/
theorem username_error_mapping_witness :
    statuses (Handle plainImports (New (refusing ⟨ErrorKind.Validation, "username is too short"⟩))
      bareRequest).1 = [400] ∧
    statuses (Handle plainImports (New (refusing ⟨ErrorKind.SameUsername, "same username"⟩))
      bareRequest).1 = [400] ∧
    (Handle plainImports (New (refusing ⟨ErrorKind.UsernameAlreadyTaken, "username is taken"⟩))
      bareRequest).1 =
      [Effect.ChangeUsername 7 "ffh255",
       Effect.Log Level.Warning [Field.HandlerName "users_me_username_patch_handler",
         Field.StatusCode 409, Field.Err ⟨ErrorKind.UsernameAlreadyTaken, "username is taken"⟩],
       Effect.WriteError 409 (Message.text "username is taken")] ∧
    statuses (Handle plainImports
      (New (refusing ⟨ErrorKind.TooMuchUsernameChanges, "changed too often"⟩))
      bareRequest).1 = [429] ∧
    levels (Handle plainImports (New (refusing ⟨ErrorKind.Untagged, "database is down"⟩))
      bareRequest).1 = [Level.Error] :=
  ⟨congrArg statuses ((username_error_mapping plainImports
      (New (refusing ⟨ErrorKind.Validation, "username is too short"⟩)) bareRequest
      ⟨"ffh255"⟩ ⟨ErrorKind.Validation, "username is too short"⟩ rfl rfl).1 (Or.inl rfl)),
   congrArg statuses ((username_error_mapping plainImports
      (New (refusing ⟨ErrorKind.SameUsername, "same username"⟩)) bareRequest
      ⟨"ffh255"⟩ ⟨ErrorKind.SameUsername, "same username"⟩ rfl rfl).1 (Or.inr rfl)),
   (username_error_mapping plainImports
      (New (refusing ⟨ErrorKind.UsernameAlreadyTaken, "username is taken"⟩)) bareRequest
      ⟨"ffh255"⟩ ⟨ErrorKind.UsernameAlreadyTaken, "username is taken"⟩ rfl rfl).2.1 rfl,
   congrArg statuses ((username_error_mapping plainImports
      (New (refusing ⟨ErrorKind.TooMuchUsernameChanges, "changed too often"⟩)) bareRequest
      ⟨"ffh255"⟩ ⟨ErrorKind.TooMuchUsernameChanges, "changed too often"⟩ rfl rfl).2.2.1 rfl),
   congrArg levels ((username_error_mapping plainImports
      (New (refusing ⟨ErrorKind.Untagged, "database is down"⟩)) bareRequest
      ⟨"ffh255"⟩ ⟨ErrorKind.Untagged, "database is down"⟩ rfl rfl).2.2.2.1 rfl rfl rfl rfl)⟩

end ClaimC22

section ClaimC23

open users_me_username_patch_handler

/-- C23 (code bug): `Method()` of the username handler is PATCH, and `Path()` returns
`users/me/username`, without the leading slash of the route `/users/me/username` that the
comment of `Handle` documents and that the paths of the other handlers carry. -/
theorem username_path_without_leading_slash :
    Method = "PATCH" ∧ Path = "users/me/username" ∧ Path ≠ "/users/me/username" ∧
    Path.front ≠ '/' ∧
    auth_refresh_post_handler.Path.front = '/' ∧ auth_logout_post_handler.Path.front = '/' ∧
    auth_register_post_handler.Path.front = '/' := by
  refine ⟨rfl, rfl, by decide, by decide, by decide, by decide, by decide⟩

end ClaimC23

/-! ### Registration -/

/-- What `handleError` of the registration handler does, by the tags of the error. -/
theorem register_handleError_eq (ctx : Ctx) (err : Error) :
    auth_register_post_handler.handleError ctx err =
      if models.IsValidationError err = true then
        [Effect.Log Level.Warning (ctx ++ [Field.StatusCode 400] ++ [Field.Err err]),
         Effect.WriteError 400 (Message.text err.text)]
      else if user_service.IsUserAlreadyExistsError err = true then
        [Effect.Log Level.Warning (ctx ++ [Field.StatusCode 409] ++ [Field.Err err]),
         Effect.WriteError 409 (Message.text "user already exists")]
      else
        [Effect.Log Level.Error (ctx ++ [Field.StatusCode 500] ++ [Field.Err err]),
         Effect.WriteError 500 (Message.text "something went wrong serverside")] := by
  unfold auth_register_post_handler.handleError
  cases h1 : models.IsValidationError err <;>
    cases h2 : user_service.IsUserAlreadyExistsError err <;>
    simp [Logger.WithError, Logger.WithStatusCode, http.StatusBadRequest, http.StatusConflict,
      http.StatusInternalServerError]

/-- The effects of the registration handler, by the body of the request and the answer of
the service. -/
theorem register_Handle_trace {σ : Type} (p : auth_register_post_handler.Imports)
    (h : auth_register_post_handler.Handler σ) (c : gin.Context) :
    (auth_register_post_handler.Handle p h c).1 =
      match p.ShouldBindBodyWithJSON c with
      | Except.error _ =>
        [Effect.Log Level.Warning
           (auth_register_post_handler.logCtx c ++
             [Field.Err (errors.New "failed to parse json body")]),
         Effect.WriteError 400 (Message.error (errors.New "failed to parse json body"))]
      | Except.ok body =>
        match (h.authService.Register h.authService.state
            ⟨body.Nickname, p.GetRegistrationToken c⟩).1 with
        | (_, some err) =>
          Effect.Register body.Nickname (p.GetRegistrationToken c) ::
            auth_register_post_handler.handleError (auth_register_post_handler.logCtx c) err
        | (some out, none) =>
          [Effect.Register body.Nickname (p.GetRegistrationToken c),
           Effect.DeleteRegistrationToken, Effect.SetAccessToken out.AccessToken,
           Effect.SetRefreshToken out.RefreshToken]
        | (none, none) =>
          [Effect.Register body.Nickname (p.GetRegistrationToken c),
           Effect.DeleteRegistrationToken, Effect.Panic] := by
  unfold auth_register_post_handler.Handle auth_register_post_handler.newRequest
  rcases hb : p.ShouldBindBodyWithJSON c with err | body
  · simp [auth_register_post_handler.logCtx, Logger.WithError, http.StatusBadRequest]
  · simp only []
    rcases h.authService.Register h.authService.state
      ⟨body.Nickname, p.GetRegistrationToken c⟩ with ⟨⟨_ | out, _ | err⟩, s⟩ <;>
      simp [auth_register_post_handler.logCtx, auth_register_post_handler.writeResponse]

section ClaimC24

open auth_register_post_handler

/-- C24: when the body is read and `Register` returns a result and no error, the
registration handler deletes the registration-token cookie and then sets the access-token
and the refresh-token cookie to the tokens of the result, and writes no status. When the
body is not readable it answers 400 with a warning, without calling the service; when
`Register` returns an error it answers 400 with the text of a validation error, 409 with
"user already exists" for an existing user (both with a warning), and 500 with "something
went wrong serverside" at error level for every other error. In each of these failures no
cookie is deleted or set. -/
theorem register_cookies {σ : Type} (p : Imports) (h : Handler σ) (c : gin.Context) :
    (∀ body out, p.ShouldBindBodyWithJSON c = Except.ok body →
      (h.authService.Register h.authService.state
        ⟨body.Nickname, p.GetRegistrationToken c⟩).1 = (some out, none) →
      (Handle p h c).1 =
        [Effect.Register body.Nickname (p.GetRegistrationToken c),
         Effect.DeleteRegistrationToken, Effect.SetAccessToken out.AccessToken,
         Effect.SetRefreshToken out.RefreshToken] ∧
      cookies (Handle p h c).1 =
        [Effect.DeleteRegistrationToken, Effect.SetAccessToken out.AccessToken,
         Effect.SetRefreshToken out.RefreshToken] ∧
      statuses (Handle p h c).1 = []) ∧
    (∀ e, p.ShouldBindBodyWithJSON c = Except.error e →
      (Handle p h c).1 =
        [Effect.Log Level.Warning
           (logCtx c ++ [Field.Err (errors.New "failed to parse json body")]),
         Effect.WriteError http.StatusBadRequest
           (Message.error (errors.New "failed to parse json body"))] ∧
      cookies (Handle p h c).1 = []) ∧
    (∀ body out err, p.ShouldBindBodyWithJSON c = Except.ok body →
      (h.authService.Register h.authService.state
        ⟨body.Nickname, p.GetRegistrationToken c⟩).1 = (out, some err) →
      cookies (Handle p h c).1 = [] ∧
      (models.IsValidationError err = true →
        (Handle p h c).1 =
          [Effect.Register body.Nickname (p.GetRegistrationToken c),
           Effect.Log Level.Warning (logCtx c ++ [Field.StatusCode http.StatusBadRequest] ++
             [Field.Err err]),
           Effect.WriteError http.StatusBadRequest (Message.text err.text)]) ∧
      (user_service.IsUserAlreadyExistsError err = true →
        (Handle p h c).1 =
          [Effect.Register body.Nickname (p.GetRegistrationToken c),
           Effect.Log Level.Warning (logCtx c ++ [Field.StatusCode http.StatusConflict] ++
             [Field.Err err]),
           Effect.WriteError http.StatusConflict (Message.text "user already exists")]) ∧
      (models.IsValidationError err = false →
        user_service.IsUserAlreadyExistsError err = false →
        (Handle p h c).1 =
          [Effect.Register body.Nickname (p.GetRegistrationToken c),
           Effect.Log Level.Error
             (logCtx c ++ [Field.StatusCode http.StatusInternalServerError] ++ [Field.Err err]),
           Effect.WriteError http.StatusInternalServerError
             (Message.text "something went wrong serverside")])) ∧
    http.StatusBadRequest = 400 ∧ http.StatusConflict = 409 ∧
    http.StatusInternalServerError = 500 := by
  refine ⟨fun body out hb hs => ?_, fun e hb => ?_, fun body out err hb hs => ?_,
    rfl, rfl, rfl⟩
  · have ht : (Handle p h c).1 =
        [Effect.Register body.Nickname (p.GetRegistrationToken c),
         Effect.DeleteRegistrationToken, Effect.SetAccessToken out.AccessToken,
         Effect.SetRefreshToken out.RefreshToken] := by
      rw [register_Handle_trace, hb]
      simp only []
      rw [hs]
    rw [ht]
    exact ⟨rfl, rfl, rfl⟩
  · have ht : (Handle p h c).1 =
        [Effect.Log Level.Warning
           (logCtx c ++ [Field.Err (errors.New "failed to parse json body")]),
         Effect.WriteError http.StatusBadRequest
           (Message.error (errors.New "failed to parse json body"))] := by
      rw [register_Handle_trace, hb]
      rfl
    rw [ht]
    exact ⟨rfl, rfl⟩
  · have ht : (Handle p h c).1 =
        Effect.Register body.Nickname (p.GetRegistrationToken c) ::
          handleError (logCtx c) err := by
      rw [register_Handle_trace, hb]
      simp only []
      rw [hs]
      cases out <;> rfl
    rw [ht, register_handleError_eq]
    refine ⟨?_, fun h1 => ?_, fun h2 => ?_, fun h1 h2 => ?_⟩
    · cases h1 : models.IsValidationError err <;>
        cases h2 : user_service.IsUserAlreadyExistsError err <;>
        simp [cookies, Effect.isCookie]
    · simp [h1, http.StatusBadRequest]
    · have h1 : models.IsValidationError err = false := by
        simp only [user_service.IsUserAlreadyExistsError, decide_eq_true_eq] at h2
        simp [models.IsValidationError, h2]
      simp [h1, h2, http.StatusConflict]
    · simp [h1, h2, http.StatusInternalServerError]

/-- C24 at instances: a registration that succeeds, a body that is not readable, and a
registration refused for an existing user. -/
theorem register_cookies_witness :
    cookies (Handle plainImports (New registering) bareRequest).1 =
      [Effect.DeleteRegistrationToken, Effect.SetAccessToken "a1",
       Effect.SetRefreshToken "r1"] ∧
    statuses (Handle unreadableImports (New registering) bareRequest).1 = [400] ∧
    cookies (Handle unreadableImports (New registering) bareRequest).1 = [] ∧
    cookies (Handle plainImports
      (New (refusing ⟨ErrorKind.UserAlreadyExists, "nickname is in use"⟩)) bareRequest).1 = [] ∧
    statuses (Handle plainImports
      (New (refusing ⟨ErrorKind.UserAlreadyExists, "nickname is in use"⟩)) bareRequest).1 =
      [409] :=
  ⟨((register_cookies plainImports (New registering) bareRequest).1
      ⟨"ffh255"⟩ ⟨"a1", "r1"⟩ rfl rfl).2.1,
   congrArg statuses ((register_cookies unreadableImports (New registering) bareRequest).2.1
      ⟨ErrorKind.Untagged, "unexpected end of JSON input"⟩ rfl).1,
   ((register_cookies unreadableImports (New registering) bareRequest).2.1
      ⟨ErrorKind.Untagged, "unexpected end of JSON input"⟩ rfl).2,
   ((register_cookies plainImports
      (New (refusing ⟨ErrorKind.UserAlreadyExists, "nickname is in use"⟩)) bareRequest).2.2.1
      ⟨"ffh255"⟩ none ⟨ErrorKind.UserAlreadyExists, "nickname is in use"⟩ rfl rfl).1,
   congrArg statuses (((register_cookies plainImports
      (New (refusing ⟨ErrorKind.UserAlreadyExists, "nickname is in use"⟩)) bareRequest).2.2.1
      ⟨"ffh255"⟩ none ⟨ErrorKind.UserAlreadyExists, "nickname is in use"⟩ rfl rfl).2.2.1 rfl)⟩

end ClaimC24

/-! ### Unexpected failures in the remaining handlers -/

/-- The effects of the handler of GET /users/me, by the answer of the service. -/
theorem me_Handle_trace {σ : Type} (p : users_me_get_handler.Imports)
    (h : users_me_get_handler.Handler σ) (c : gin.Context) :
    (users_me_get_handler.Handle p h c).1 =
      match (h.userService.GetByID h.userService.state (p.GetUserID c)).1 with
      | (_, some err) =>
        Effect.GetByID (p.GetUserID c) ::
          internalFailure (users_me_get_handler.logCtx c) err "something went wrong"
      | (none, none) =>
        [Effect.GetByID (p.GetUserID c),
         Effect.Log Level.Warning
           (users_me_get_handler.logCtx c ++ [Field.StatusCode 404] ++
             [Field.Msg "user not found"]),
         Effect.WriteError 404 (Message.text "user not found")]
      | (some user, none) =>
        [Effect.GetByID (p.GetUserID c),
         Effect.WriteBody 200 (p.Marshal (users_me_get_handler.newResponseBody p user))] := by
  unfold users_me_get_handler.Handle
  simp only [users_me_get_handler.newRequest]
  rcases h.userService.GetByID h.userService.state (p.GetUserID c)
    with ⟨⟨_ | user, _ | err⟩, s⟩ <;>
    simp [users_me_get_handler.logCtx, internalFailure, Logger.WithError, Logger.WithMsg,
      Logger.WithStatusCode, http.StatusInternalServerError, http.StatusNotFound,
      http.StatusOK]

/-- What `handleError` of the handler of DELETE /users/me/statistics does. -/
theorem delete_handleError_eq (ctx : Ctx) (err : Error) :
    users_me_statistics_delete_handler.handleError ctx err =
      if models.IsUserNotFoundError err = true then
        [Effect.Log Level.Warning (ctx ++ [Field.StatusCode 404] ++ [Field.Err err]),
         Effect.WriteError 404 (Message.text "user not found")]
      else internalFailure ctx err "something went wrong serverside" := by
  unfold users_me_statistics_delete_handler.handleError
  cases h1 : models.IsUserNotFoundError err <;>
    simp [internalFailure, Logger.WithError, Logger.WithStatusCode, http.StatusNotFound,
      http.StatusInternalServerError]

/-- The effects of the handler of DELETE /users/me/statistics. -/
theorem delete_Handle_trace {σ : Type} (p : users_me_statistics_delete_handler.Imports)
    (h : users_me_statistics_delete_handler.Handler σ) (c : gin.Context) :
    (users_me_statistics_delete_handler.Handle p h c).1 =
      match (h.statisticsService.DeleteAllForUser h.statisticsService.state
          (p.GetUserID c)).1 with
      | some err =>
        Effect.DeleteAllForUser (p.GetUserID c) ::
          users_me_statistics_delete_handler.handleError
            (users_me_statistics_delete_handler.logCtx c) err
      | none => [Effect.DeleteAllForUser (p.GetUserID c)] := by
  unfold users_me_statistics_delete_handler.Handle
  simp only [users_me_statistics_delete_handler.newRequest]
  rcases h.statisticsService.DeleteAllForUser h.statisticsService.state (p.GetUserID c)
    with ⟨_ | err, s⟩ <;> simp [users_me_statistics_delete_handler.logCtx]

/-- What `handleError` of the handler of GET /users/me/statistics does. -/
theorem statistics_get_handleError_eq (ctx : Ctx) (err : Error) :
    users_me_statistics_get_handler.handleError ctx err =
      if statistics_service.IsUserNotFoundError err = true then
        [Effect.Log Level.Warning (ctx ++ [Field.StatusCode 404] ++ [Field.Err err]),
         Effect.WriteError 404 (Message.text "user not found")]
      else internalFailure ctx err "something went wrong serverside" := by
  unfold users_me_statistics_get_handler.handleError
  cases h1 : statistics_service.IsUserNotFoundError err <;>
    simp [internalFailure, Logger.WithError, Logger.WithStatusCode, http.StatusNotFound,
      http.StatusInternalServerError]

/-- The effects of the handler of GET /users/me/statistics. -/
theorem statistics_get_Handle_trace {σ φ : Type} (p : users_me_statistics_get_handler.Imports φ)
    (h : users_me_statistics_get_handler.Handler σ φ) (c : gin.Context) :
    (users_me_statistics_get_handler.Handle p h c).1 =
      match users_me_statistics_get_handler.newRequest p c with
      | Except.error err =>
        [Effect.Log Level.Warning
           (users_me_statistics_get_handler.logCtx c ++ [Field.StatusCode 400] ++
             [Field.Err err]),
         Effect.WriteError 400 (Message.error err)]
      | Except.ok r =>
        match (h.statisticsGetter.GetByUser h.statisticsGetter.state
            ⟨r.UserID, r.DateFrom⟩).1 with
        | (_, some err) =>
          Effect.GetByUser r.UserID r.DateFrom ::
            users_me_statistics_get_handler.handleError
              (users_me_statistics_get_handler.logCtx c) err
        | (stats, none) =>
          [Effect.GetByUser r.UserID r.DateFrom,
           Effect.WriteBody 200
             (p.Marshal (users_me_statistics_get_handler.newResponseBody p.MarshalTime
               stats))] := by
  unfold users_me_statistics_get_handler.Handle
  rcases users_me_statistics_get_handler.newRequest p c with err | r
  · simp [users_me_statistics_get_handler.logCtx, Logger.WithError, Logger.WithStatusCode,
      http.StatusBadRequest]
  · simp only [users_me_statistics_get_handler.newStatisticsGetByUser]
    rcases h.statisticsGetter.GetByUser h.statisticsGetter.state ⟨r.UserID, r.DateFrom⟩
      with ⟨⟨stats, _ | err⟩, s⟩ <;>
      simp [users_me_statistics_get_handler.logCtx, http.StatusOK]

/-- What `handleError` of the handler of POST /users/me/statistics does. -/
theorem statistics_post_handleError_eq (ctx : Ctx) (err : Error) :
    users_me_statistics_post_handler.handleError ctx err =
      if statistics_service.IsUserNotFoundError err = true then
        [Effect.Log Level.Warning (ctx ++ [Field.StatusCode 404] ++ [Field.Err err]),
         Effect.WriteError 404 (Message.text "user not found")]
      else if models.IsValidationError err = true then
        [Effect.Log Level.Warning (ctx ++ [Field.StatusCode 400] ++ [Field.Err err]),
         Effect.WriteError 400 (Message.text err.text)]
      else if statistics_service.IsFroadError err = true then
        [Effect.Log Level.Warning (ctx ++ [Field.StatusCode 400] ++ [Field.Err err]),
         Effect.WriteError 400 (Message.text "froad detected")]
      else if statistics_service.IsAlreadyHandledError err = true then
        [Effect.Log Level.Warning (ctx ++ [Field.StatusCode 409] ++ [Field.Err err]),
         Effect.WriteError 409 (Message.text "stats already handled")]
      else internalFailure ctx err "something went wrong serverside" := by
  unfold users_me_statistics_post_handler.handleError
  cases h1 : statistics_service.IsUserNotFoundError err <;>
    cases h2 : models.IsValidationError err <;>
    cases h3 : statistics_service.IsFroadError err <;>
    cases h4 : statistics_service.IsAlreadyHandledError err <;>
    simp [internalFailure, Logger.WithError, Logger.WithStatusCode, http.StatusNotFound,
      http.StatusBadRequest, http.StatusConflict, http.StatusInternalServerError]

/-- The effects of the handler of POST /users/me/statistics. -/
theorem statistics_post_Handle_trace {σ φ : Type}
    (p : users_me_statistics_post_handler.Imports φ)
    (h : users_me_statistics_post_handler.Handler σ φ) (c : gin.Context) :
    (users_me_statistics_post_handler.Handle p h c).1 =
      match users_me_statistics_post_handler.newRequest p c with
      | Except.error err =>
        [Effect.Log Level.Warning
           (users_me_statistics_post_handler.logCtx c ++ [Field.StatusCode 400] ++
             [Field.Err err]),
         Effect.WriteError 400 (Message.error err)]
      | Except.ok r =>
        match users_me_statistics_post_handler.newSaveIn p r with
        | Except.error err =>
          [Effect.Log Level.Warning
             (users_me_statistics_post_handler.logCtx c ++ [Field.StatusCode 400] ++
               [Field.Err err]),
           Effect.WriteError 400 (Message.error err)]
        | Except.ok i =>
          match (h.statisticsSaver.Save h.statisticsSaver.state i).1 with
          | (_, some err) =>
            Effect.Save i.UserID i.UID i.Sign ::
              users_me_statistics_post_handler.handleError
                (users_me_statistics_post_handler.logCtx c) err
          | (none, none) => [Effect.Save i.UserID i.UID i.Sign, Effect.Panic]
          | (some saveOut, none) =>
            [Effect.Save i.UserID i.UID i.Sign,
             Effect.WriteBody 201
               (p.Marshal (users_me_statistics_post_handler.newResponseBody saveOut))] := by
  unfold users_me_statistics_post_handler.Handle
  rcases users_me_statistics_post_handler.newRequest p c with err | r
  · simp [users_me_statistics_post_handler.logCtx, Logger.WithError, Logger.WithStatusCode,
      http.StatusBadRequest]
  · simp only []
    rcases users_me_statistics_post_handler.newSaveIn p r with err | i
    · simp [users_me_statistics_post_handler.logCtx, Logger.WithError, Logger.WithStatusCode,
        http.StatusBadRequest]
    · simp only []
      rcases h.statisticsSaver.Save h.statisticsSaver.state i
        with ⟨⟨_ | out, _ | err⟩, s⟩ <;>
        simp [users_me_statistics_post_handler.logCtx, http.StatusCreated]

/-- What `handleError` of the profile handler does. -/
theorem profile_handleError_eq (ctx : Ctx) (err : Error) :
    users_username_profile_get_handler.handleError ctx err =
      if profile_service.IsUserNotFoundError err = true then
        [Effect.Log Level.Warning (ctx ++ [Field.StatusCode 404] ++ [Field.Err err]),
         Effect.WriteError 404 (Message.text "user not found")]
      else internalFailure ctx err "something went wrong" := by
  unfold users_username_profile_get_handler.handleError
  cases h1 : profile_service.IsUserNotFoundError err <;>
    simp [internalFailure, Logger.WithError, Logger.WithStatusCode, http.StatusNotFound,
      http.StatusInternalServerError]

/-- The effects of the profile handler. -/
theorem profile_Handle_trace {σ φ : Type} (p : users_username_profile_get_handler.Imports φ)
    (h : users_username_profile_get_handler.Handler σ φ) (c : gin.Context) :
    (users_username_profile_get_handler.Handle p h c).1 =
      match users_username_profile_get_handler.newRequest p c with
      | Except.error err =>
        [Effect.Log Level.Warning
           (users_username_profile_get_handler.logCtx c ++ [Field.StatusCode 400] ++
             [Field.Err err]),
         Effect.WriteError 400 (Message.error err)]
      | Except.ok request =>
        match (h.profileGetter.Get h.profileGetter.state ⟨request.Username⟩).1 with
        | (_, some err) =>
          Effect.ProfileGet request.Username ::
            users_username_profile_get_handler.handleError
              (users_username_profile_get_handler.logCtx c) err
        | (none, none) => [Effect.ProfileGet request.Username, Effect.Panic]
        | (some profile, none) =>
          [Effect.ProfileGet request.Username,
           Effect.JSONBody 200
             (p.Marshal (users_username_profile_get_handler.newResponseBody p profile))] := by
  unfold users_username_profile_get_handler.Handle
  rcases users_username_profile_get_handler.newRequest p c with err | request
  · simp [users_username_profile_get_handler.logCtx, Logger.WithError, Logger.WithStatusCode,
      http.StatusBadRequest]
  · simp only [users_username_profile_get_handler.newProfileServiceGetIn]
    rcases h.profileGetter.Get h.profileGetter.state ⟨request.Username⟩
      with ⟨⟨_ | profile, _ | err⟩, s⟩ <;>
      simp [users_username_profile_get_handler.logCtx, http.StatusOK]

section ClaimC11

/-- C11, the claim as stated fails: a failure of the limiter store in the handlers of
GET /antifroad/key and POST /antifroad/rotate-keys is logged at error level but answered
with status 400 and the error itself, a failure of the service in the username-availability
handler is answered with status 500 and the error itself, not a fixed message, and a
failure of the OAuth completion in the callback handler is answered with a redirect of
status 308. -/
theorem unexpected_failure_not_generic :
    statuses (auth_provider_callback_post_handler.Handle
      auth_provider_callback_post_handler.plainImports
      (auth_provider_callback_post_handler.example_handler
        auth_provider_callback_post_handler.registering
        auth_provider_callback_post_handler.refusing) bareRequest).1 = [308] ∧
    (antifroad_key_get_handler.Handle keyHandlerWithoutStore 0 passwordRequest).1 =
      [Effect.Log Level.Error
         [Field.HandlerName "antifroad_key_get_handler",
          Field.Err ⟨ErrorKind.Untagged, "store is down"⟩],
       Effect.WriteError 400 (Message.error ⟨ErrorKind.Untagged, "store is down"⟩)] ∧
    (antifroad_rotate_keys_post_handler.Handle rotateHandlerWithoutStore 0 passwordRequest).1 =
      [Effect.Log Level.Error
         [Field.HandlerName "antifroad_rotate_keys_post_handler",
          Field.Err ⟨ErrorKind.Untagged, "store is down"⟩],
       Effect.WriteError 400 (Message.error ⟨ErrorKind.Untagged, "store is down"⟩)] ∧
    (users_username_availability_get_handler.Handle
        (users_username_availability_get_handler.New failingAvailability) usernameRequest).1 =
      [Effect.IsUsernameAvailable "ffh",
       Effect.Log Level.Error
         [Field.HandlerName "users_username_availability_get_handler", Field.StatusCode 500,
          Field.Err ⟨ErrorKind.Untagged, "pq: connection refused"⟩],
       Effect.WriteError 500
         (Message.error ⟨ErrorKind.Untagged, "pq: connection refused"⟩)] := by
  decide

/-- C11, amended. In every handler but the OAuth callback handler, an error that the
service of the handler returns and that carries none of the tags the handler tests is
logged at error level, with the status 500 and the error in the record, and answered with
status 500 and a fixed message, "something went wrong" or "something went wrong
serverside", whatever the text of the error: so in the two antifraud handlers, the refresh,
logout and registration handlers, the username, user, profile and the three statistics
handlers (the handler of GET /users/me tests no tag). So is a failure of the OAuth layer in
the logout handler. A result of `Refresh` that is nil without an error is answered with
status 500 and the fixed message. The handlers of GET /auth/:provider and GET /auth/ping
have no failure but a request that is not valid. A failure of the limiter store in the
antifraud handlers is logged at error level; a failure of the service in the
username-availability handler is logged at error level and answered with status 500. In
the callback handler every run writes the status 308 or ends in a panic, and every run in
which the auth service has not returned a registration or a login logs one record, at error
level. -/
theorem unexpected_failure_in_every_handler :
    (∀ (σ τ : Type) (h : antifroad_key_get_handler.Handler σ τ) (now : Nat) (c : gin.Context)
        (lctx : limiter.Context) (key : Option models.AntifroadKey) (err : Error),
      (h.limiter.Get now antifroad_key_get_handler.handlerName).1 = Except.ok lctx →
      lctx.Reached = false → c.Query "password" ≠ "" →
      (h.antifroadService.GetKey h.antifroadService.state (c.Query "password")).1
        = (key, some err) →
      antifroad_service.IsWrongPasswordError err = false →
      (antifroad_key_get_handler.Handle h now c).1 =
        Effect.GetKey (c.Query "password") ::
          internalFailure (antifroad_key_get_handler.logCtx c) err "something went wrong") ∧
    (∀ (σ τ : Type) (h : antifroad_rotate_keys_post_handler.Handler σ τ) (now : Nat)
        (c : gin.Context) (lctx : limiter.Context) (err : Error),
      (h.limiter.Get now antifroad_rotate_keys_post_handler.handlerName).1 = Except.ok lctx →
      lctx.Reached = false → c.Query "password" ≠ "" →
      (h.antifroadService.RotateKeys h.antifroadService.state (c.Query "password")).1
        = some err →
      antifroad_service.IsWrongPasswordError err = false →
      (antifroad_rotate_keys_post_handler.Handle h now c).1 =
        Effect.RotateKeys (c.Query "password") ::
          internalFailure (antifroad_rotate_keys_post_handler.logCtx c) err
            "something went wrong") ∧
    (∀ (σ : Type) (h : auth_refresh_post_handler.Handler σ) (c : gin.Context)
        (out : Option auth_service.RefreshOut) (err : Error),
      (h.refresher.Refresh h.refresher.state (auth_refresh_post_handler.makeRefreshIn c)).1
        = (out, some err) →
      auth_service.IsSessionNotFoundError err = false →
      auth_service.IsSessionExpiredError err = false →
      (auth_refresh_post_handler.Handle h c).1 =
        Effect.Refresh (api.GetRefreshToken c) ::
          internalFailure (auth_refresh_post_handler.logCtx c) err "something went wrong") ∧
    (∀ (σ : Type) (h : auth_refresh_post_handler.Handler σ) (c : gin.Context),
      (h.refresher.Refresh h.refresher.state (auth_refresh_post_handler.makeRefreshIn c)).1
        = (none, none) →
      (auth_refresh_post_handler.Handle h c).1 =
        [Effect.Refresh (api.GetRefreshToken c),
         Effect.WriteError 500 (Message.text "something went wrong")]) ∧
    (∀ (σ ω : Type) (h : auth_logout_post_handler.Handler σ ω) (c : gin.Context) (err : Error),
      (h.oauth.Logout h.oauth.state c).1 = some err →
      (auth_logout_post_handler.Handle h c).1 =
        Effect.OAuthLogout ::
          internalFailure (auth_logout_post_handler.logCtx c) err "something went wrong") ∧
    (∀ (σ ω : Type) (h : auth_logout_post_handler.Handler σ ω) (c : gin.Context) (err : Error),
      (h.oauth.Logout h.oauth.state c).1 = none →
      (h.authService.Logout h.authService.state
        (auth_logout_post_handler.makeLogoutIn c)).1 = some err →
      auth_service.IsSessionNotFoundError err = false →
      auth_service.IsSessionExpiredError err = false →
      (auth_logout_post_handler.Handle h c).1 =
        Effect.OAuthLogout :: Effect.Logout (api.GetAccessToken c) (api.GetRefreshToken c) ::
          internalFailure (auth_logout_post_handler.logCtx c) err "something went wrong") ∧
    (∀ (σ : Type) (p : auth_register_post_handler.Imports)
        (h : auth_register_post_handler.Handler σ) (c : gin.Context)
        (body : auth_register_post_handler.RequestBody)
        (out : Option auth_service.RegisterOut) (err : Error),
      p.ShouldBindBodyWithJSON c = Except.ok body →
      (h.authService.Register h.authService.state
        ⟨body.Nickname, p.GetRegistrationToken c⟩).1 = (out, some err) →
      models.IsValidationError err = false →
      user_service.IsUserAlreadyExistsError err = false →
      (auth_register_post_handler.Handle p h c).1 =
        Effect.Register body.Nickname (p.GetRegistrationToken c) ::
          internalFailure (auth_register_post_handler.logCtx c) err
            "something went wrong serverside") ∧
    (∀ (σ : Type) (p : users_me_username_patch_handler.Imports)
        (h : users_me_username_patch_handler.Handler σ) (c : gin.Context)
        (body : users_me_username_patch_handler.RequestBody) (err : Error),
      p.ShouldBindBodyWithJSON c = Except.ok body →
      (h.userService.ChangeUsername h.userService.state (p.GetUserID c) body.Username).1
        = some err →
      models.IsValidationError err = false → models.IsSameUsernameError err = false →
      models.IsUsernameAlreadyTakenError err = false →
      models.IsTooMuchUsernameChangesError err = false →
      (users_me_username_patch_handler.Handle p h c).1 =
        Effect.ChangeUsername (p.GetUserID c) body.Username ::
          internalFailure (users_me_username_patch_handler.logCtx c) err
            "something went wrong serverside") ∧
    (∀ (σ : Type) (p : users_me_get_handler.Imports) (h : users_me_get_handler.Handler σ)
        (c : gin.Context) (user : Option models.User) (err : Error),
      (h.userService.GetByID h.userService.state (p.GetUserID c)).1 = (user, some err) →
      (users_me_get_handler.Handle p h c).1 =
        Effect.GetByID (p.GetUserID c) ::
          internalFailure (users_me_get_handler.logCtx c) err "something went wrong") ∧
    (∀ (σ : Type) (p : users_me_statistics_delete_handler.Imports)
        (h : users_me_statistics_delete_handler.Handler σ) (c : gin.Context) (err : Error),
      (h.statisticsService.DeleteAllForUser h.statisticsService.state (p.GetUserID c)).1
        = some err →
      models.IsUserNotFoundError err = false →
      (users_me_statistics_delete_handler.Handle p h c).1 =
        Effect.DeleteAllForUser (p.GetUserID c) ::
          internalFailure (users_me_statistics_delete_handler.logCtx c) err
            "something went wrong serverside") ∧
    (∀ (σ φ : Type) (p : users_me_statistics_get_handler.Imports φ)
        (h : users_me_statistics_get_handler.Handler σ φ) (c : gin.Context)
        (r : users_me_statistics_get_handler.Request) (stats : List (models.Statistics φ))
        (err : Error),
      users_me_statistics_get_handler.newRequest p c = Except.ok r →
      (h.statisticsGetter.GetByUser h.statisticsGetter.state
        (users_me_statistics_get_handler.newStatisticsGetByUser r)).1 = (stats, some err) →
      statistics_service.IsUserNotFoundError err = false →
      (users_me_statistics_get_handler.Handle p h c).1 =
        Effect.GetByUser r.UserID r.DateFrom ::
          internalFailure (users_me_statistics_get_handler.logCtx c) err
            "something went wrong serverside") ∧
    (∀ (σ φ : Type) (p : users_me_statistics_post_handler.Imports φ)
        (h : users_me_statistics_post_handler.Handler σ φ) (c : gin.Context)
        (r : users_me_statistics_post_handler.Request φ) (i : statistics_service.SaveIn φ)
        (out : Option (statistics_service.SaveOut φ)) (err : Error),
      users_me_statistics_post_handler.newRequest p c = Except.ok r →
      users_me_statistics_post_handler.newSaveIn p r = Except.ok i →
      (h.statisticsSaver.Save h.statisticsSaver.state i).1 = (out, some err) →
      statistics_service.IsUserNotFoundError err = false →
      models.IsValidationError err = false →
      statistics_service.IsFroadError err = false →
      statistics_service.IsAlreadyHandledError err = false →
      (users_me_statistics_post_handler.Handle p h c).1 =
        Effect.Save i.UserID i.UID i.Sign ::
          internalFailure (users_me_statistics_post_handler.logCtx c) err
            "something went wrong serverside") ∧
    (∀ (σ φ : Type) (p : users_username_profile_get_handler.Imports φ)
        (h : users_username_profile_get_handler.Handler σ φ) (c : gin.Context)
        (request : users_username_profile_get_handler.Request)
        (profile : Option (models.Profile φ)) (err : Error),
      users_username_profile_get_handler.newRequest p c = Except.ok request →
      (h.profileGetter.Get h.profileGetter.state
        (users_username_profile_get_handler.newProfileServiceGetIn request)).1
        = (profile, some err) →
      profile_service.IsUserNotFoundError err = false →
      (users_username_profile_get_handler.Handle p h c).1 =
        Effect.ProfileGet request.Username ::
          internalFailure (users_username_profile_get_handler.logCtx c) err
            "something went wrong") ∧
    (∀ (p : auth_provider_get_handler.Imports) (c : gin.Context),
      (p.Param c "provider" = "" →
        auth_provider_get_handler.Handle p c =
          [Effect.Log Level.Warning
             (auth_provider_get_handler.logCtx c ++
               [Field.Err (errors.New "provider is required")]),
           Effect.WriteError 400 (Message.error (errors.New "provider is required"))]) ∧
      (p.Param c "provider" ≠ "" →
        auth_provider_get_handler.Handle p c = [Effect.Begin (p.Param c "provider")])) ∧
    auth_ping_get_handler.Handle = (200, "pong") ∧
    (∀ (σ τ : Type) (h : antifroad_key_get_handler.Handler σ τ) (now : Nat) (c : gin.Context)
        (err : Error),
      (h.limiter.Get now antifroad_key_get_handler.handlerName).1 = Except.error err →
      levels (antifroad_key_get_handler.Handle h now c).1 = [Level.Error]) ∧
    (∀ (σ τ : Type) (h : antifroad_rotate_keys_post_handler.Handler σ τ) (now : Nat)
        (c : gin.Context) (err : Error),
      (h.limiter.Get now antifroad_rotate_keys_post_handler.handlerName).1
        = Except.error err →
      levels (antifroad_rotate_keys_post_handler.Handle h now c).1 = [Level.Error]) ∧
    (∀ (σ : Type) (h : users_username_availability_get_handler.Handler σ) (c : gin.Context)
        (available : Bool) (err : Error),
      c.Query "username" ≠ "" →
      (h.availabilityService.IsUsernameAvailable h.availabilityService.state
        (c.Query "username")).1 = (available, some err) →
      levels (users_username_availability_get_handler.Handle h c).1 = [Level.Error] ∧
      statuses (users_username_availability_get_handler.Handle h c).1 = [500]) ∧
    (∀ (σ ω : Type) (p : auth_provider_callback_post_handler.Imports)
        (h : auth_provider_callback_post_handler.Handler σ ω) (c : gin.Context),
      (statuses (auth_provider_callback_post_handler.Handle p h c).1 = [308] ∨
        (statuses (auth_provider_callback_post_handler.Handle p h c).1 = [] ∧
          (auth_provider_callback_post_handler.Handle p h c).1.getLast?
            = some Effect.Panic)) ∧
      (levels (auth_provider_callback_post_handler.Handle p h c).1 = [Level.Error] ∨
        ∃ i user out, p.newIn c = Except.ok i ∧
          (h.oauthManager.Complete h.oauthManager.state c i.Provider).1 = (some user, none) ∧
          (h.authService.Callback h.authService.state ⟨user.Email, user.Provider⟩).1
            = (some out, none) ∧
          (out.IsRegistration = true ∨ out.IsLogin = true))) := by
  refine ⟨?_, ?_, ?_, ?_, ?_, ?_, ?_, ?_, ?_, ?_, ?_, ?_, ?_, ?_, rfl, ?_, ?_, ?_, ?_⟩
  · intro σ τ h now c lctx key err hg hr hp hs hw
    rw [key_Handle_trace, key_serve_trace, hg, hs]
    simp [hr, hp, hw, key_handleError_eq, internalFailure]
  · intro σ τ h now c lctx err hg hr hp hs hw
    rw [rotate_Handle_trace, rotate_serve_trace, hg, hs]
    simp [hr, hp, hw, rotate_handleError_eq, internalFailure]
  · intro σ h c out err hs h1 h2
    rw [refresh_Handle_trace]
    simp only [auth_refresh_post_handler.makeRefreshIn, api.GetRefreshToken] at hs ⊢
    rw [hs]
    cases out <;> simp [refresh_handleError_eq, h1, h2, internalFailure]
  · intro σ h c hs
    rw [refresh_Handle_trace]
    simp only [auth_refresh_post_handler.makeRefreshIn, api.GetRefreshToken] at hs ⊢
    rw [hs]
  · intro σ ω h c err ho
    rw [logout_Handle_trace, ho]
    rfl
  · intro σ ω h c err ho hs h1 h2
    rw [logout_Handle_trace]
    simp only [auth_logout_post_handler.makeLogoutIn, api.GetRefreshToken,
      api.GetAccessToken] at hs ⊢
    rw [ho, hs]
    simp [logout_handleError_eq, h1, h2, internalFailure]
  · intro σ p h c body out err hb hs h1 h2
    rw [register_Handle_trace, hb]
    simp only []
    rw [hs]
    cases out <;> simp [register_handleError_eq, h1, h2, internalFailure]
  · intro σ p h c body err hb hs h1 h2 h3 h4
    rw [username_Handle_trace, hb]
    simp only []
    rw [hs]
    simp [username_handleError_eq, h1, h2, h3, h4, internalFailure]
  · intro σ p h c user err hs
    rw [me_Handle_trace, hs]
    cases user <;> rfl
  · intro σ p h c err hs h1
    rw [delete_Handle_trace, hs]
    simp [delete_handleError_eq, h1]
  · intro σ φ p h c r stats err hr hs h1
    rw [statistics_get_Handle_trace, hr]
    simp only [users_me_statistics_get_handler.newStatisticsGetByUser] at hs ⊢
    rw [hs]
    simp [statistics_get_handleError_eq, h1]
  · intro σ φ p h c r i out err hr hi hs h1 h2 h3 h4
    rw [statistics_post_Handle_trace, hr]
    simp only []
    rw [hi]
    simp only []
    rw [hs]
    cases out <;> simp [statistics_post_handleError_eq, h1, h2, h3, h4]
  · intro σ φ p h c request profile err hr hs h1
    rw [profile_Handle_trace, hr]
    simp only [users_username_profile_get_handler.newProfileServiceGetIn] at hs ⊢
    rw [hs]
    cases profile <;> simp [profile_handleError_eq, h1]
  · intro p c
    unfold auth_provider_get_handler.Handle auth_provider_get_handler.newIn
    constructor
    · intro hp
      simp [hp, auth_provider_get_handler.logCtx, Logger.WithError, http.StatusBadRequest]
    · intro hp
      simp [hp]
  · intro σ τ h now c err hg
    rw [key_Handle_trace, hg]
    simp [levels]
  · intro σ τ h now c err hg
    rw [rotate_Handle_trace, hg]
    simp [levels]
  · intro σ h c available err hu hs
    unfold users_username_availability_get_handler.Handle
      users_username_availability_get_handler.newRequest
    simp only [hu, if_false]
    rcases hx : h.availabilityService.IsUsernameAvailable h.availabilityService.state
      (c.Query "username") with ⟨⟨b, e⟩, s⟩
    rw [hx] at hs
    simp only [Prod.mk.injEq] at hs
    obtain ⟨_, rfl⟩ := hs
    simp [levels, statuses, http.StatusInternalServerError]
  · intro σ ω p h c
    rw [callback_Handle_trace]
    rcases hi : p.newIn c with err | i
    · simp [levels, statuses]
    · simp only [Except.ok.injEq, exists_and_left, exists_eq_left']
      rcases hc : (h.oauthManager.Complete h.oauthManager.state c i.Provider).1
        with ⟨_ | user, _ | oerr⟩
      · simp [levels, statuses]
      · simp [levels, statuses]
      · simp only [Prod.mk.injEq, Option.some.injEq, and_true, exists_eq_left']
        rcases hs : (h.authService.Callback h.authService.state
            ⟨user.Email, user.Provider⟩).1 with ⟨_ | out, _ | err⟩
        · simp [levels, statuses]
        · simp only [callback_handleError_cases]
          by_cases he : auth_service.IsEmailAlreadyTakenError err = true
          · rcases hp : p.Parse h.errorURL with e | u <;> simp [he, levels, statuses]
          · simp [he, levels, statuses]
        · rcases out with ⟨reg, access, refresh, isReg, isLogin⟩
          unfold auth_provider_callback_post_handler.finish
          cases isReg <;> cases isLogin <;> cases reg <;> cases access <;> cases refresh <;>
            simp [levels, statuses, Logger.WithField, http.StatusPermanentRedirect]
        · simp only [callback_handleError_cases]
          by_cases he : auth_service.IsEmailAlreadyTakenError err = true
          · rcases hp : p.Parse h.errorURL with e | u <;> simp [he, levels, statuses]
          · simp [he, levels, statuses]
      · simp [levels, statuses]

/-- C11, the amended statement at instances: a user service, a statistics service and a
profile service whose database is down, and a limiter store that is out of order. -/
theorem unexpected_failure_in_every_handler_witness :
    (users_me_get_handler.Handle users_me_get_handler.plainImports
        (users_me_get_handler.New users_me_get_handler.failing) bareRequest).1 =
      [Effect.GetByID 7,
       Effect.Log Level.Error
         [Field.HandlerName "users_me_get_handler", Field.StatusCode 500,
          Field.Err ⟨ErrorKind.Untagged, "pq: connection refused"⟩],
       Effect.WriteError 500 (Message.text "something went wrong")] ∧
    statuses (users_me_statistics_delete_handler.Handle
      users_me_statistics_delete_handler.plainImports
      (users_me_statistics_delete_handler.New users_me_statistics_delete_handler.failing)
      bareRequest).1 = [500] ∧
    levels (users_username_profile_get_handler.Handle
      users_username_profile_get_handler.plainImports
      (users_username_profile_get_handler.New users_username_profile_get_handler.failing)
      bareRequest).1 = [Level.Error] ∧
    levels (antifroad_key_get_handler.Handle keyHandlerWithoutStore 0 passwordRequest).1
      = [Level.Error] :=
  have h := unexpected_failure_in_every_handler
  ⟨h.2.2.2.2.2.2.2.2.1 Unit users_me_get_handler.plainImports
      (users_me_get_handler.New users_me_get_handler.failing) bareRequest none
      ⟨ErrorKind.Untagged, "pq: connection refused"⟩ rfl,
   congrArg statuses (h.2.2.2.2.2.2.2.2.2.1 Unit
      users_me_statistics_delete_handler.plainImports
      (users_me_statistics_delete_handler.New users_me_statistics_delete_handler.failing)
      bareRequest ⟨ErrorKind.Untagged, "pq: connection refused"⟩ rfl rfl),
   congrArg levels (h.2.2.2.2.2.2.2.2.2.2.2.2.1 Unit Nat
      users_username_profile_get_handler.plainImports
      (users_username_profile_get_handler.New users_username_profile_get_handler.failing)
      bareRequest ⟨"ffh"⟩ none ⟨ErrorKind.Untagged, "pq: connection refused"⟩ rfl rfl rfl),
   h.2.2.2.2.2.2.2.2.2.2.2.2.2.2.2.1 Unit Unit keyHandlerWithoutStore 0 passwordRequest
      ⟨ErrorKind.Untagged, "store is down"⟩ rfl⟩

end ClaimC11

end Blindtyping
